import Mathlib

/-!
# SceneManager (CS330): texture registry, material registry, transform composer, shader broadcaster

A shallow embedding of `Source/SceneManager.cpp` / `Source/SceneManager.h`.

* `float` values are carried by a type parameter `F`; code that only moves values around is
  independent of `F`, and arithmetic statements are read at `F = ℝ`.
* `m_textureIDs` is the fixed array of 16 entries; an access outside `0..15` is a `Fault`.
* `m_pShaderManager` is a pointer that may be `NULL`: `Option`, and a dereference of `NULL` is a
  `Fault`.
* A value the code reads without having initialised it (the members the constructor does not set,
  the local `material` of `SetShaderMaterial`) is an explicit parameter of the definition.
* OpenGL and stb_image are external; their state is the record `Platform`.
-/

namespace CS330

/-! ## Faults -/

/-- Ways in which a call can leave defined behaviour. -/
inductive Fault where
  | nullDereference
  | outOfBounds
  deriving DecidableEq, Repr

/-! ## glm value types -/

/-- Model of `glm::vec2`. -/
structure Vec2 (F : Type) where
  x : F
  y : F
  deriving DecidableEq, Repr

/-- Model of `glm::vec3`. -/
structure Vec3 (F : Type) where
  x : F
  y : F
  z : F
  deriving DecidableEq, Repr

/-- Model of `glm::vec4`; `r g b a` of the source are `x y z w`. -/
structure Vec4 (F : Type) where
  x : F
  y : F
  z : F
  w : F
  deriving DecidableEq, Repr

/-- Model of `glm::mat4`: four columns, `m[i]` is column `i` (column-major, as in GLM). -/
structure Mat4 (F : Type) where
  c0 : Vec4 F
  c1 : Vec4 F
  c2 : Vec4 F
  c3 : Vec4 F
  deriving DecidableEq, Repr

/-! ## Data model of `SceneManager.h` -/

/-- The struct `SceneManager::TEXTURE_INFO`; `ID` is a `uint32_t`. -/
structure TEXTURE_INFO where
  tag : String
  ID : Nat
  deriving DecidableEq, Repr

/-- The struct `SceneManager::OBJECT_MATERIAL`. -/
structure OBJECT_MATERIAL (F : Type) where
  ambientStrength : F
  ambientColor : Vec3 F
  diffuseColor : Vec3 F
  specularColor : Vec3 F
  shininess : F
  tag : String
  deriving DecidableEq, Repr

/-- A value handed to one of the typed uniform setters of the shader program interface. -/
inductive UniformValue (F : Type) where
  | int (v : Int)
  | bool (b : Bool)
  | float (v : F)
  | vec2 (v : Vec2 F)
  | vec3 (v : Vec3 F)
  | vec4 (v : Vec4 F)
  | mat4 (m : Mat4 F)
  | sampler2D (slot : Int)
  deriving DecidableEq, Repr

/-- Modelled from the spec: the `ShaderManager` class (ShaderManager.h is not among the sources).
The spec describes it as typed setters "keyed by uniform name string", each write "fully
overwriting any prior value for that uniform". The state is the chronological list of writes. -/
structure ShaderManager (F : Type) where
  writes : List (String × UniformValue F)
  deriving DecidableEq, Repr

namespace ShaderManager

variable {F : Type}

/-- Modelled from the spec: one uniform write, appended to the log. -/
def setUniform (sm : ShaderManager F) (name : String) (v : UniformValue F) : ShaderManager F :=
  { writes := sm.writes ++ [(name, v)] }

/-- Modelled from the spec: `setIntValue(name, value)`. -/
def setIntValue (sm : ShaderManager F) (name : String) (value : Int) : ShaderManager F :=
  sm.setUniform name (UniformValue.int value)

/-- Modelled from the spec: `setBoolValue(name, value)`. -/
def setBoolValue (sm : ShaderManager F) (name : String) (value : Bool) : ShaderManager F :=
  sm.setUniform name (UniformValue.bool value)

/-- Modelled from the spec: `setFloatValue(name, value)`. -/
def setFloatValue (sm : ShaderManager F) (name : String) (value : F) : ShaderManager F :=
  sm.setUniform name (UniformValue.float value)

/-- Modelled from the spec: `setVec2Value(name, value)`. -/
def setVec2Value (sm : ShaderManager F) (name : String) (value : Vec2 F) : ShaderManager F :=
  sm.setUniform name (UniformValue.vec2 value)

/-- Modelled from the spec: `setVec3Value(name, value)`. -/
def setVec3Value (sm : ShaderManager F) (name : String) (value : Vec3 F) : ShaderManager F :=
  sm.setUniform name (UniformValue.vec3 value)

/-- Modelled from the spec: `setVec4Value(name, value)`. -/
def setVec4Value (sm : ShaderManager F) (name : String) (value : Vec4 F) : ShaderManager F :=
  sm.setUniform name (UniformValue.vec4 value)

/-- Modelled from the spec: `setMat4Value(name, value)`. -/
def setMat4Value (sm : ShaderManager F) (name : String) (value : Mat4 F) : ShaderManager F :=
  sm.setUniform name (UniformValue.mat4 value)

/-- Modelled from the spec: `setSampler2DValue(name, slot)`. -/
def setSampler2DValue (sm : ShaderManager F) (name : String) (slot : Int) : ShaderManager F :=
  sm.setUniform name (UniformValue.sampler2D slot)

/-- Modelled from the spec: the value a uniform holds is the one of the last write to its name. -/
def uniform (sm : ShaderManager F) (name : String) : Option (UniformValue F) :=
  (sm.writes.reverse.find? (fun w => w.1 == name)).map Prod.snd

end ShaderManager

/-- The shapes of the mesh library. -/
inductive Shape where
  | Plane
  | Box
  | Cone
  | Torus
  | Sphere
  | Pyramid4
  deriving DecidableEq, Repr

/-- Modelled from the spec: the `ShapeMeshes` class (ShapeMeshes.h is not among the sources), an
opaque mesh library with `Load<Shape>Mesh()` and `Draw<Shape>Mesh()`. The state is the list of
loaded shapes and the chronological list of draws; a draw records how many uniform writes had
been issued when it was made (the state it consumes). -/
structure ShapeMeshes where
  loaded : List Shape
  drawn : List (Shape × Nat)
  deriving DecidableEq, Repr

namespace ShapeMeshes

/-- Modelled from the spec: `Load<Shape>Mesh()`, the one-time loading of the geometry of a
shape. -/
def Load (m : ShapeMeshes) (shape : Shape) : ShapeMeshes :=
  { m with loaded := m.loaded ++ [shape] }

/-- Modelled from the spec: `Draw<Shape>Mesh()`, which "issues the GPU draw call using whatever
state is currently broadcast"; `writes` is the number of uniform writes issued so far. -/
def Draw (m : ShapeMeshes) (shape : Shape) (writes : Nat) : ShapeMeshes :=
  { m with drawn := m.drawn ++ [(shape, writes)] }

end ShapeMeshes

/-- The members of class `SceneManager`. -/
structure SceneManager (F : Type) where
  m_pShaderManager : Option (ShaderManager F)
  m_basicMeshes : ShapeMeshes
  m_loadedTextures : Int
  m_textureIDs : Fin 16 → TEXTURE_INFO
  m_objectMaterials : List (OBJECT_MATERIAL F)

/-! ## External libraries: stb_image and OpenGL -/

/-- What `stbi_load` reports for a decoded file (the pixel buffer itself is not modelled). -/
structure Image where
  width : Int
  height : Int
  colorChannels : Int
  deriving DecidableEq, Repr

/-- The OpenGL enumerants the texture code uses. -/
inductive GLenum where
  | GL_TEXTURE_WRAP_S
  | GL_TEXTURE_WRAP_T
  | GL_TEXTURE_MIN_FILTER
  | GL_TEXTURE_MAG_FILTER
  | GL_REPEAT
  | GL_LINEAR
  | GL_RGB8
  | GL_RGBA8
  | GL_RGB
  | GL_RGBA
  deriving DecidableEq, Repr

/-- A command applied to the texture object bound to `GL_TEXTURE_2D`. -/
inductive TexCommand where
  | texParameteri (pname : GLenum) (param : GLenum)
  | texImage2D (internalFormat : GLenum) (width : Int) (height : Int) (format : GLenum)
  | generateMipmap
  deriving DecidableEq, Repr

/-- State of the external libraries as far as the texture code touches it. -/
structure Platform where
  /-- Flag of `stbi_set_flip_vertically_on_load`. -/
  flipVertically : Bool
  /-- Number of pixel buffers returned by `stbi_load` and not yet given to `stbi_image_free`. -/
  decodeBuffers : Nat
  /-- The next unused texture name. -/
  nextTexture : Nat
  /-- Names of the texture objects that exist. -/
  textures : List Nat
  /-- Index `i` of the unit selected by `glActiveTexture(GL_TEXTURE0 + i)`. -/
  activeTexture : Int
  /-- The `GL_TEXTURE_2D` binding of each texture unit. -/
  boundTexture2D : Int → Nat
  /-- Commands issued so far, each with the name of the texture object it was applied to. -/
  texCommands : List (Nat × TexCommand)

namespace Platform

/-- Model of `glGenTextures(1, &name)`: creates one texture object and returns its name. -/
def glGenTextures (p : Platform) : Nat × Platform :=
  (p.nextTexture, { p with nextTexture := p.nextTexture + 1, textures := p.textures ++ [p.nextTexture] })

/-- Model of `glActiveTexture(GL_TEXTURE0 + i)`. -/
def glActiveTexture (p : Platform) (i : Int) : Platform :=
  { p with activeTexture := i }

/-- Model of `glBindTexture(GL_TEXTURE_2D, name)`: binds on the active unit. -/
def glBindTexture (p : Platform) (name : Nat) : Platform :=
  { p with boundTexture2D := Function.update p.boundTexture2D p.activeTexture name }

/-- A command on the texture currently bound to `GL_TEXTURE_2D` of the active unit. -/
def texCommand (p : Platform) (c : TexCommand) : Platform :=
  { p with texCommands := p.texCommands ++ [(p.boundTexture2D p.activeTexture, c)] }

/-- Model of `glTexParameteri(GL_TEXTURE_2D, pname, param)`. -/
def glTexParameteri (p : Platform) (pname param : GLenum) : Platform :=
  p.texCommand (TexCommand.texParameteri pname param)

/-- Model of `glTexImage2D(GL_TEXTURE_2D, 0, internalFormat, w, h, 0, format, GL_UNSIGNED_BYTE, image)`. -/
def glTexImage2D (p : Platform) (internalFormat : GLenum) (width height : Int) (format : GLenum) :
    Platform :=
  p.texCommand (TexCommand.texImage2D internalFormat width height format)

/-- Model of `glGenerateMipmap(GL_TEXTURE_2D)`. -/
def glGenerateMipmap (p : Platform) : Platform :=
  p.texCommand TexCommand.generateMipmap

/-- Model of `stbi_set_flip_vertically_on_load(flag)`. -/
def stbi_set_flip_vertically_on_load (p : Platform) (flag : Bool) : Platform :=
  { p with flipVertically := flag }

/-- Model of `stbi_image_free(image)`. -/
def stbi_image_free (p : Platform) : Platform :=
  { p with decodeBuffers := p.decodeBuffers - 1 }

end Platform

/-! ## Names of the uniforms (the anonymous namespace of SceneManager.cpp) -/

def g_ModelName : String := "model"
def g_ColorValueName : String := "objectColor"
def g_TextureValueName : String := "objectTexture"
def g_UseTextureName : String := "bUseTexture"
def g_UseLightingName : String := "bUseLighting"

/-- Conversion of a `uint32_t` to `int` (32-bit two's complement), as in `int textureID = ... .ID`. -/
def int_of_uint32 (n : Nat) : Int :=
  if n % 2 ^ 32 < 2 ^ 31 then ((n % 2 ^ 32 : Nat) : Int) else ((n % 2 ^ 32 : Nat) : Int) - 2 ^ 32

/-! ## GLM (external): the functions `SetTransformations` calls -/

/-- The `<cmath>` functions and the constant GLM relies on, over the carrier of `float`. -/
structure FloatOps (F : Type) where
  cos : F → F
  sin : F → F
  sqrt : F → F
  pi : F

namespace glm

variable {F : Type} [Field F]

/-- Model of `vec4 * scalar`. -/
def Vec4.scale (v : Vec4 F) (k : F) : Vec4 F :=
  { x := v.x * k, y := v.y * k, z := v.z * k, w := v.w * k }

/-- Model of `vec4 + vec4`. -/
def Vec4.add (a b : Vec4 F) : Vec4 F :=
  { x := a.x + b.x, y := a.y + b.y, z := a.z + b.z, w := a.w + b.w }

/-- Model of `glm::mat4(1.0f)`. -/
def identity : Mat4 F :=
  { c0 := { x := 1, y := 0, z := 0, w := 0 }
    c1 := { x := 0, y := 1, z := 0, w := 0 }
    c2 := { x := 0, y := 0, z := 1, w := 0 }
    c3 := { x := 0, y := 0, z := 0, w := 1 } }

/-- Model of `operator*(mat4, mat4)`: column `j` of the product is the combination of the columns
of `m1` with the entries of column `j` of `m2`. -/
def mul (m1 m2 : Mat4 F) : Mat4 F :=
  let col (b : Vec4 F) : Vec4 F :=
    Vec4.add (Vec4.add (Vec4.add (Vec4.scale m1.c0 b.x) (Vec4.scale m1.c1 b.y))
      (Vec4.scale m1.c2 b.z)) (Vec4.scale m1.c3 b.w)
  { c0 := col m2.c0, c1 := col m2.c1, c2 := col m2.c2, c3 := col m2.c3 }

/-- Model of `glm::radians(degrees)`: GLM multiplies by the `float` nearest to pi/180. -/
def radians (ops : FloatOps F) (degrees : F) : F :=
  degrees * (ops.pi / 180)

/-- Model of `glm::normalize(v)`: `v * inversesqrt(dot(v, v))`. -/
def normalize (ops : FloatOps F) (v : Vec3 F) : Vec3 F :=
  let k := 1 / ops.sqrt (v.x * v.x + v.y * v.y + v.z * v.z)
  { x := v.x * k, y := v.y * k, z := v.z * k }

/-- Model of `glm::scale(v)` of gtx/transform, that is `scale(mat4(1), v)`. -/
def scale (v : Vec3 F) : Mat4 F :=
  let m : Mat4 F := identity
  { c0 := Vec4.scale m.c0 v.x, c1 := Vec4.scale m.c1 v.y, c2 := Vec4.scale m.c2 v.z, c3 := m.c3 }

/-- Model of `glm::translate(v)` of gtx/transform, that is `translate(mat4(1), v)`. -/
def translate (v : Vec3 F) : Mat4 F :=
  let m : Mat4 F := identity
  { m with
    c3 := Vec4.add (Vec4.add (Vec4.add (Vec4.scale m.c0 v.x) (Vec4.scale m.c1 v.y))
      (Vec4.scale m.c2 v.z)) m.c3 }

/-- Model of `glm::rotate(angle, v)` of gtx/transform, that is `rotate(mat4(1), angle, v)`:
the axis-angle matrix built from the normalised axis. -/
def rotate (ops : FloatOps F) (angle : F) (v : Vec3 F) : Mat4 F :=
  let c := ops.cos angle
  let s := ops.sin angle
  let axis := normalize ops v
  let temp : Vec3 F := { x := (1 - c) * axis.x, y := (1 - c) * axis.y, z := (1 - c) * axis.z }
  let r00 := c + temp.x * axis.x
  let r01 := temp.x * axis.y + s * axis.z
  let r02 := temp.x * axis.z - s * axis.y
  let r10 := temp.y * axis.x - s * axis.z
  let r11 := c + temp.y * axis.y
  let r12 := temp.y * axis.z + s * axis.x
  let r20 := temp.z * axis.x + s * axis.y
  let r21 := temp.z * axis.y - s * axis.x
  let r22 := c + temp.z * axis.z
  let m : Mat4 F := identity
  { c0 := Vec4.add (Vec4.add (Vec4.scale m.c0 r00) (Vec4.scale m.c1 r01)) (Vec4.scale m.c2 r02)
    c1 := Vec4.add (Vec4.add (Vec4.scale m.c0 r10) (Vec4.scale m.c1 r11)) (Vec4.scale m.c2 r12)
    c2 := Vec4.add (Vec4.add (Vec4.scale m.c0 r20) (Vec4.scale m.c1 r21)) (Vec4.scale m.c2 r22)
    c3 := m.c3 }

end glm

/-! ## The transform of the specification -/

/-- The mathematical matrix of a `glm::mat4`: entry `(row, column)` is `m[column][row]`. -/
def Mat4.toMatrix {F : Type} (m : Mat4 F) : Matrix (Fin 4) (Fin 4) F :=
  !![m.c0.x, m.c1.x, m.c2.x, m.c3.x;
     m.c0.y, m.c1.y, m.c2.y, m.c3.y;
     m.c0.z, m.c1.z, m.c2.z, m.c3.z;
     m.c0.w, m.c1.w, m.c2.w, m.c3.w]

/-- Specification side: the square of the Euclidean length of a column. -/
def Vec4.lengthSq {F : Type} [Field F] (v : Vec4 F) : F :=
  v.x ^ 2 + v.y ^ 2 + v.z ^ 2 + v.w ^ 2

/-- Specification side: the homogeneous translation by `p`. -/
def specTranslate {F : Type} [Field F] (p : Vec3 F) : Matrix (Fin 4) (Fin 4) F :=
  !![1, 0, 0, p.x;
     0, 1, 0, p.y;
     0, 0, 1, p.z;
     0, 0, 0, 1]

/-- Specification side: the scaling by `v` along the three axes. -/
def specScale {F : Type} [Field F] (v : Vec3 F) : Matrix (Fin 4) (Fin 4) F :=
  !![v.x, 0, 0, 0;
     0, v.y, 0, 0;
     0, 0, v.z, 0;
     0, 0, 0, 1]

/-- Specification side: the elementary rotation about the world X axis by `theta` radians. -/
def specRotateX {F : Type} [Field F] (cos sin : F → F) (theta : F) : Matrix (Fin 4) (Fin 4) F :=
  !![1, 0, 0, 0;
     0, cos theta, -sin theta, 0;
     0, sin theta, cos theta, 0;
     0, 0, 0, 1]

/-- Specification side: the elementary rotation about the world Y axis by `theta` radians. -/
def specRotateY {F : Type} [Field F] (cos sin : F → F) (theta : F) : Matrix (Fin 4) (Fin 4) F :=
  !![cos theta, 0, sin theta, 0;
     0, 1, 0, 0;
     -sin theta, 0, cos theta, 0;
     0, 0, 0, 1]

/-- Specification side: the elementary rotation about the world Z axis by `theta` radians. -/
def specRotateZ {F : Type} [Field F] (cos sin : F → F) (theta : F) : Matrix (Fin 4) (Fin 4) F :=
  !![cos theta, -sin theta, 0, 0;
     sin theta, cos theta, 0, 0;
     0, 0, 1, 0;
     0, 0, 0, 1]

/-- Specification side: `Translate(position) * RotateX(rx) * RotateY(ry) * RotateZ(rz) *
Scale(scale)`, the angles given in degrees. -/
def specModel {F : Type} [Field F] (ops : FloatOps F) (scaleXYZ : Vec3 F) (rx ry rz : F)
    (positionXYZ : Vec3 F) : Matrix (Fin 4) (Fin 4) F :=
  specTranslate positionXYZ * specRotateX ops.cos ops.sin (rx * ops.pi / 180) *
    specRotateY ops.cos ops.sin (ry * ops.pi / 180) *
    specRotateZ ops.cos ops.sin (rz * ops.pi / 180) *
    specScale scaleXYZ

namespace SceneManager

variable {F : Type}

/-! ## Constructor -/

/-- `SceneManager::SceneManager(pShaderManager)`. The body assigns `m_pShaderManager` and
`m_basicMeshes` only. `m_loadedTextures` and the `ID`s of `m_textureIDs` are left uninitialised:
their values are whatever the object's memory holds, here the parameters `loadedTextures0` and
`IDs0`. The `tag` strings and the material vector are default-constructed (empty). -/
def ctor (pShaderManager : Option (ShaderManager F)) (loadedTextures0 : Int)
    (IDs0 : Fin 16 → Nat) : SceneManager F :=
  { m_pShaderManager := pShaderManager
    m_basicMeshes := { loaded := [], drawn := [] }
    m_loadedTextures := loadedTextures0
    m_textureIDs := fun i => { tag := "", ID := IDs0 i }
    m_objectMaterials := [] }

/-! ## Texture registry -/

/-- `SceneManager::CreateGLTexture(filename, tag)`. `stbi_load` is the decoder: `none` is the
null pointer it returns on failure. The result is the returned `bool` with the new object and
platform state, or a fault when `m_textureIDs[m_loadedTextures]` is outside the array. -/
def CreateGLTexture (stbi_load : String → Option Image) (filename : String) (tag : String)
    (s : SceneManager F) (p : Platform) : Except Fault (Bool × SceneManager F × Platform) :=
  let p := p.stbi_set_flip_vertically_on_load true
  match stbi_load filename with
  | some image =>
    -- the decoder has handed out a pixel buffer
    let p := { p with decodeBuffers := p.decodeBuffers + 1 }
    let (textureID, p) := p.glGenTextures
    let p := p.glBindTexture textureID
    let p := p.glTexParameteri GLenum.GL_TEXTURE_WRAP_S GLenum.GL_REPEAT
    let p := p.glTexParameteri GLenum.GL_TEXTURE_WRAP_T GLenum.GL_REPEAT
    let p := p.glTexParameteri GLenum.GL_TEXTURE_MIN_FILTER GLenum.GL_LINEAR
    let p := p.glTexParameteri GLenum.GL_TEXTURE_MAG_FILTER GLenum.GL_LINEAR
    if image.colorChannels = 3 ∨ image.colorChannels = 4 then
      let p :=
        if image.colorChannels = 3 then
          p.glTexImage2D GLenum.GL_RGB8 image.width image.height GLenum.GL_RGB
        else
          p.glTexImage2D GLenum.GL_RGBA8 image.width image.height GLenum.GL_RGBA
      let p := p.glGenerateMipmap
      let p := p.stbi_image_free
      let p := p.glBindTexture 0
      -- m_textureIDs[m_loadedTextures] = { textureID, tag }; m_loadedTextures++
      if h : 0 ≤ s.m_loadedTextures ∧ s.m_loadedTextures < 16 then
        let slot : Fin 16 := ⟨s.m_loadedTextures.toNat, by omega⟩
        Except.ok (true,
          { s with
            m_textureIDs := Function.update s.m_textureIDs slot { tag := tag, ID := textureID }
            m_loadedTextures := s.m_loadedTextures + 1 },
          p)
      else
        Except.error Fault.outOfBounds
    else
      -- "Not implemented to handle image with ... channels": return false
      Except.ok (false, s, p)
  | none =>
    -- "Could not load image"
    Except.ok (false, s, p)

/-- The scan loop of `FindTextureID`: `remaining` is the number of iterations left before
`index` reaches `m_loadedTextures`. The loop ends at the first entry with the tag (`bFound`)
or when no iteration is left, where `textureID` still is `-1`. -/
def FindTextureID.loop (ids : Fin 16 → TEXTURE_INFO) (tag : String) :
    Nat → Nat → Except Fault Int
  | 0, _ => Except.ok (-1)
  | remaining + 1, index =>
    if h : index < 16 then
      if (ids ⟨index, h⟩).tag = tag then
        Except.ok (int_of_uint32 (ids ⟨index, h⟩).ID)
      else
        FindTextureID.loop ids tag remaining (index + 1)
    else
      Except.error Fault.outOfBounds

/-- `SceneManager::FindTextureID(tag)`. -/
def FindTextureID (s : SceneManager F) (tag : String) : Except Fault Int :=
  FindTextureID.loop s.m_textureIDs tag s.m_loadedTextures.toNat 0

/-- The scan loop of `FindTextureSlot`, as for `FindTextureID`, yielding the index. -/
def FindTextureSlot.loop (ids : Fin 16 → TEXTURE_INFO) (tag : String) :
    Nat → Nat → Except Fault Int
  | 0, _ => Except.ok (-1)
  | remaining + 1, index =>
    if h : index < 16 then
      if (ids ⟨index, h⟩).tag = tag then
        Except.ok (index : Int)
      else
        FindTextureSlot.loop ids tag remaining (index + 1)
    else
      Except.error Fault.outOfBounds

/-- `SceneManager::FindTextureSlot(tag)`. -/
def FindTextureSlot (s : SceneManager F) (tag : String) : Except Fault Int :=
  FindTextureSlot.loop s.m_textureIDs tag s.m_loadedTextures.toNat 0

/-- `SceneManager::BindGLTextures()`: the loop `for (i = 0; i < m_loadedTextures; i++)`;
`remaining` is the number of iterations left. -/
def BindGLTextures.loop (ids : Fin 16 → TEXTURE_INFO) : Nat → Nat → Platform → Except Fault Platform
  | 0, _, p => Except.ok p
  | remaining + 1, i, p =>
    if h : i < 16 then
      BindGLTextures.loop ids remaining (i + 1)
        ((p.glActiveTexture (i : Int)).glBindTexture (ids ⟨i, h⟩).ID)
    else
      Except.error Fault.outOfBounds

/-- `SceneManager::BindGLTextures()`. -/
def BindGLTextures (s : SceneManager F) (p : Platform) : Except Fault Platform :=
  BindGLTextures.loop s.m_textureIDs s.m_loadedTextures.toNat 0 p

/-- `SceneManager::DestroyGLTextures()`: the loop calls `glGenTextures(1, &m_textureIDs[i].ID)`
for every `i` below `m_loadedTextures`. -/
def DestroyGLTextures.loop : Nat → Nat → (Fin 16 → TEXTURE_INFO) → Platform →
    Except Fault ((Fin 16 → TEXTURE_INFO) × Platform)
  | 0, _, ids, p => Except.ok (ids, p)
  | remaining + 1, i, ids, p =>
    if h : i < 16 then
      let (name, p) := p.glGenTextures
      DestroyGLTextures.loop remaining (i + 1)
        (Function.update ids ⟨i, h⟩ { tag := (ids ⟨i, h⟩).tag, ID := name }) p
    else
      Except.error Fault.outOfBounds

/-- `SceneManager::DestroyGLTextures()`. -/
def DestroyGLTextures (s : SceneManager F) (p : Platform) :
    Except Fault (SceneManager F × Platform) :=
  match DestroyGLTextures.loop s.m_loadedTextures.toNat 0 s.m_textureIDs p with
  | Except.ok (ids, p) => Except.ok ({ s with m_textureIDs := ids }, p)
  | Except.error e => Except.error e

/-! ## Material registry -/

/-- The scan loop of `FindMaterial` over `m_objectMaterials[index..]`: at the first entry with
the tag the five property values are copied into `material` (its `tag` is not assigned) and the
loop ends; when the entries are exhausted `material` is as it was. -/
def FindMaterial.loop (tag : String) :
    List (OBJECT_MATERIAL F) → OBJECT_MATERIAL F → OBJECT_MATERIAL F
  | [], material => material
  | m :: rest, material =>
    if m.tag = tag then
      { material with
        ambientColor := m.ambientColor
        ambientStrength := m.ambientStrength
        diffuseColor := m.diffuseColor
        specularColor := m.specularColor
        shininess := m.shininess }
    else
      FindMaterial.loop tag rest material

/-- `SceneManager::FindMaterial(tag, material)`: the returned `bool` and the final content of
the reference parameter `material`. -/
def FindMaterial (s : SceneManager F) (tag : String) (material : OBJECT_MATERIAL F) :
    Bool × OBJECT_MATERIAL F :=
  if s.m_objectMaterials.length = 0 then
    (false, material)
  else
    (true, FindMaterial.loop tag s.m_objectMaterials material)

/-! ## Shader-state broadcaster -/

/-- The matrix `modelView` computed by `SetTransformations`. -/
def SetTransformations.modelView [Field F] (ops : FloatOps F) (scaleXYZ : Vec3 F)
    (XrotationDegrees YrotationDegrees ZrotationDegrees : F) (positionXYZ : Vec3 F) : Mat4 F :=
  let scale := glm.scale scaleXYZ
  let rotationX := glm.rotate ops (glm.radians ops XrotationDegrees) { x := 1, y := 0, z := 0 }
  let rotationY := glm.rotate ops (glm.radians ops YrotationDegrees) { x := 0, y := 1, z := 0 }
  let rotationZ := glm.rotate ops (glm.radians ops ZrotationDegrees) { x := 0, y := 0, z := 1 }
  let translation := glm.translate positionXYZ
  glm.mul (glm.mul (glm.mul (glm.mul translation rotationX) rotationY) rotationZ) scale

/-- `SceneManager::SetTransformations(scaleXYZ, X, Y, Z, positionXYZ)`. -/
def SetTransformations [Field F] (ops : FloatOps F) (scaleXYZ : Vec3 F)
    (XrotationDegrees YrotationDegrees ZrotationDegrees : F) (positionXYZ : Vec3 F)
    (s : SceneManager F) : SceneManager F :=
  let modelView := SetTransformations.modelView ops scaleXYZ XrotationDegrees YrotationDegrees
    ZrotationDegrees positionXYZ
  match s.m_pShaderManager with
  | some sm => { s with m_pShaderManager := some (sm.setMat4Value g_ModelName modelView) }
  | none => s

/-- `SceneManager::SetShaderColor(r, g, b, a)`; `setIntValue(g_UseTextureName, false)` passes 0. -/
def SetShaderColor (redColorValue greenColorValue blueColorValue alphaValue : F)
    (s : SceneManager F) : SceneManager F :=
  let currentColor : Vec4 F :=
    { x := redColorValue, y := greenColorValue, z := blueColorValue, w := alphaValue }
  match s.m_pShaderManager with
  | some sm =>
    let sm := sm.setIntValue g_UseTextureName 0
    let sm := sm.setVec4Value g_ColorValueName currentColor
    { s with m_pShaderManager := some sm }
  | none => s

/-- `SceneManager::SetShaderTexture(textureTag)`; `setIntValue(g_UseTextureName, true)` passes 1. -/
def SetShaderTexture (textureTag : String) (s : SceneManager F) : Except Fault (SceneManager F) :=
  match s.m_pShaderManager with
  | some sm =>
    let sm := sm.setIntValue g_UseTextureName 1
    match FindTextureSlot s textureTag with
    | Except.ok textureID =>
      Except.ok { s with m_pShaderManager := some (sm.setSampler2DValue g_TextureValueName textureID) }
    | Except.error e => Except.error e
  | none => Except.ok s

/-- `SceneManager::SetTextureUVScale(u, v)`. -/
def SetTextureUVScale (u v : F) (s : SceneManager F) : SceneManager F :=
  match s.m_pShaderManager with
  | some sm => { s with m_pShaderManager := some (sm.setVec2Value "UVscale" { x := u, y := v }) }
  | none => s

/-- `SceneManager::SetShaderMaterial(materialTag)`. The local `OBJECT_MATERIAL material;` is not
initialised before it is handed to `FindMaterial`; `uninitialised` is the content it happens to
have. `m_pShaderManager` is dereferenced without a `NULL` test. -/
def SetShaderMaterial (uninitialised : OBJECT_MATERIAL F) (materialTag : String)
    (s : SceneManager F) : Except Fault (SceneManager F) :=
  if s.m_objectMaterials.length > 0 then
    let (bReturn, material) := FindMaterial s materialTag uninitialised
    if bReturn = true then
      match s.m_pShaderManager with
      | some sm =>
        let sm := sm.setVec3Value "material.ambientColor" material.ambientColor
        let sm := sm.setFloatValue "material.ambientStrength" material.ambientStrength
        let sm := sm.setVec3Value "material.diffuseColor" material.diffuseColor
        let sm := sm.setVec3Value "material.specularColor" material.specularColor
        let sm := sm.setFloatValue "material.shininess" material.shininess
        Except.ok { s with m_pShaderManager := some sm }
      | none => Except.error Fault.nullDereference
    else
      Except.ok s
  else
    Except.ok s

/-! ## Call sequences -/

/-- Whether `stbi_load` decodes the file into an image with 3 or 4 channels. -/
def decodable (stbi_load : String → Option Image) (filename : String) : Bool :=
  match stbi_load filename with
  | some image => decide (image.colorChannels = 3 ∨ image.colorChannels = 4)
  | none => false

/-- A sequence of `CreateGLTexture(filename, tag)` calls issued one after the other, the returned
`bool` being dropped as `LoadSceneTextures` does. -/
def loadTextures (stbi_load : String → Option Image) :
    List (String × String) → SceneManager F → Platform → Except Fault (SceneManager F × Platform)
  | [], s, p => Except.ok (s, p)
  | (filename, tag) :: rest, s, p =>
    match CreateGLTexture stbi_load filename tag s p with
    | Except.ok (_, s, p) => loadTextures stbi_load rest s p
    | Except.error e => Except.error e

/-- Number of calls of a sequence that load a decodable 3- or 4-channel image. -/
def successfulLoads (stbi_load : String → Option Image) (calls : List (String × String)) : Nat :=
  (calls.filter (fun c => decodable stbi_load c.1)).length

/-! ## Setter calls as data -/

/-- The value the shader holds for a uniform name after the calls made so far; `none` when no
shader program is attached or the name was never written. -/
def uniformState (s : SceneManager F) (name : String) : Option (UniformValue F) :=
  s.m_pShaderManager.bind (fun sm => sm.uniform name)

/-- The five setters of the broadcaster. -/
inductive Setter where
  | SetTransformations
  | SetShaderColor
  | SetShaderTexture
  | SetTextureUVScale
  | SetShaderMaterial
  deriving DecidableEq, Repr

/-- One call of a setter with its arguments (for `SetShaderMaterial` also the content of its
uninitialised local). -/
inductive SetterCall (F : Type) where
  | SetTransformations (scaleXYZ : Vec3 F) (XrotationDegrees YrotationDegrees ZrotationDegrees : F)
      (positionXYZ : Vec3 F)
  | SetShaderColor (redColorValue greenColorValue blueColorValue alphaValue : F)
  | SetShaderTexture (textureTag : String)
  | SetTextureUVScale (u v : F)
  | SetShaderMaterial (uninitialised : OBJECT_MATERIAL F) (materialTag : String)

/-- The setter a call invokes. -/
def SetterCall.setter : SetterCall F → Setter
  | SetterCall.SetTransformations _ _ _ _ _ => Setter.SetTransformations
  | SetterCall.SetShaderColor _ _ _ _ => Setter.SetShaderColor
  | SetterCall.SetShaderTexture _ => Setter.SetShaderTexture
  | SetterCall.SetTextureUVScale _ _ => Setter.SetTextureUVScale
  | SetterCall.SetShaderMaterial _ _ => Setter.SetShaderMaterial

/-- Executing a setter call. -/
def SetterCall.run [Field F] (ops : FloatOps F) :
    SetterCall F → SceneManager F → Except Fault (SceneManager F)
  | SetterCall.SetTransformations scaleXYZ X Y Z positionXYZ, s =>
    Except.ok (SceneManager.SetTransformations ops scaleXYZ X Y Z positionXYZ s)
  | SetterCall.SetShaderColor r g b a, s => Except.ok (SceneManager.SetShaderColor r g b a s)
  | SetterCall.SetShaderTexture textureTag, s => SceneManager.SetShaderTexture textureTag s
  | SetterCall.SetTextureUVScale u v, s => Except.ok (SceneManager.SetTextureUVScale u v s)
  | SetterCall.SetShaderMaterial uninitialised materialTag, s =>
    SceneManager.SetShaderMaterial uninitialised materialTag s

/-- The same call with `content` in the uninitialised local of `SetShaderMaterial`: what the
local holds depends on what ran before the call, so the same call made at another point of a
sequence may find another content there. -/
def SetterCall.withLocal (content : OBJECT_MATERIAL F) : SetterCall F → SetterCall F
  | SetterCall.SetShaderMaterial _ materialTag => SetterCall.SetShaderMaterial content materialTag
  | c => c

/-- Whether a call does not read the uninitialised local of `SetShaderMaterial` on an object with
the materials `mats`: every call of another setter, and a `SetShaderMaterial` call when the list
is empty (it returns at once) or some defined material has the tag (its values are copied over
the local before it is read). -/
def SetterCall.resolves (mats : List (OBJECT_MATERIAL F)) : SetterCall F → Bool
  | SetterCall.SetShaderMaterial _ materialTag =>
    mats.isEmpty || mats.any (fun m => decide (m.tag = materialTag))
  | _ => true

/-- The uniform names that occur in the body of each setter. -/
def Setter.names : Setter → List String
  | Setter.SetTransformations => ["model"]
  | Setter.SetShaderColor => ["bUseTexture", "objectColor"]
  | Setter.SetShaderTexture => ["bUseTexture", "objectTexture"]
  | Setter.SetTextureUVScale => ["UVscale"]
  | Setter.SetShaderMaterial =>
    ["material.ambientColor", "material.ambientStrength", "material.diffuseColor",
     "material.specularColor", "material.shininess"]

/-! ## Scene preparation -/

/-- `SceneManager::DefineObjectMaterials()`: four `push_back`s. -/
def DefineObjectMaterials [Field F] (s : SceneManager F) : SceneManager F :=
  let cementMaterial : OBJECT_MATERIAL F :=
    { ambientColor := { x := 0.6, y := 0.6, z := 0.6 }
      ambientStrength := 0
      diffuseColor := { x := 0.1, y := 0.1, z := 0.1 }
      specularColor := { x := 0.1, y := 0.1, z := 0.1 }
      shininess := 0.1
      tag := "cement" }
  let blueTile : OBJECT_MATERIAL F :=
    { ambientColor := { x := 0.1, y := 0.1, z := 0.6 }
      ambientStrength := 0.1
      diffuseColor := { x := 0.1, y := 0.1, z := 0.3 }
      specularColor := { x := 0.1, y := 0.1, z := 0.3 }
      shininess := 0.6
      tag := "blueTile" }
  let bush : OBJECT_MATERIAL F :=
    { ambientColor := { x := 0.1, y := 0.8, z := 0.1 }
      ambientStrength := 0.1
      diffuseColor := { x := 0.1, y := 0.8, z := 0.1 }
      specularColor := { x := 0.1, y := 0.8, z := 0.1 }
      shininess := 0.1
      tag := "bush" }
  let bark : OBJECT_MATERIAL F :=
    { ambientColor := { x := 0.5, y := 0.5, z := 0.1 }
      ambientStrength := 0.1
      diffuseColor := { x := 0.5, y := 0.5, z := 0.1 }
      specularColor := { x := 0.5, y := 0.5, z := 0.1 }
      shininess := 0.1
      tag := "bark" }
  { s with m_objectMaterials := s.m_objectMaterials ++ [cementMaterial] ++ [blueTile] ++ [bush] ++ [bark] }

/-- `SceneManager::SetupSceneLights()`. The statement
`m_pShaderManager->setBoolValue(g_UseLightingName, true)` is commented out in the source; the
body writes the light sources and ends with `setBoolValue("bUseLightng", true)`. The pointer is
dereferenced without a `NULL` test. -/
def SetupSceneLights [Field F] (s : SceneManager F) : Except Fault (SceneManager F) :=
  match s.m_pShaderManager with
  | none => Except.error Fault.nullDereference
  | some sm =>
    -- Light one
    let sm := sm.setVec3Value "lightSources[0].positon" { x := 0, y := 11, z := 0 }
    let sm := sm.setVec3Value "lightSources[0].ambientColor" { x := 1, y := 1, z := 1 }
    let sm := sm.setVec3Value "lightSources[0].diffuseColor" { x := 0, y := 0, z := 0 }
    let sm := sm.setVec3Value "lightSources[0].specularColor" { x := 0, y := 0, z := 0 }
    let sm := sm.setFloatValue "lightSources[0].focalStrength" 0
    let sm := sm.setFloatValue "lightSources[0].specularIntensity" 0
    let sm := sm.setFloatValue "lightSources[0].ambientStrength" 0.6
    -- Light two
    let sm := sm.setVec3Value "lightSources[1].positon" { x := (-50), y := 11, z := (-50) }
    let sm := sm.setVec3Value "lightSources[1].ambientColor" { x := 0.8, y := 0.1, z := 0.1 }
    let sm := sm.setVec3Value "lightSources[1].diffuseColor" { x := 0.8, y := 0.1, z := 0.1 }
    let sm := sm.setVec3Value "lightSources[1].specularColor" { x := 0.8, y := 0.1, z := 0.1 }
    let sm := sm.setFloatValue "lightSources[1].focalStrength" 0.5
    let sm := sm.setFloatValue "lightSources[1].specularIntensity" 0.5
    let sm := sm.setFloatValue "lightSources[1].ambientStrength" 0.6
    -- Light three
    let sm := sm.setVec3Value "lightSources[2].positon" { x := 50, y := 11, z := 50 }
    let sm := sm.setVec3Value "lightSources[2].ambientColor" { x := 0.1, y := 0.1, z := 0.8 }
    let sm := sm.setVec3Value "lightSources[2].diffuseColor" { x := 0.1, y := 0.1, z := 0.8 }
    let sm := sm.setVec3Value "lightSources[2].specularColor" { x := 0.1, y := 0.1, z := 0.8 }
    let sm := sm.setFloatValue "lightSources[2].focalStrength" 0.6
    let sm := sm.setFloatValue "lightSources[2].specularIntensity" 0.6
    let sm := sm.setFloatValue "lightSources[2].ambientStrength" 0.6
    -- Light four
    let sm := sm.setVec3Value "lightSources[3].positon" { x := 50, y := 11, z := (-50) }
    let sm := sm.setVec3Value "lightSources[3].ambientColor" { x := 0.1, y := 0.7, z := 0 }
    let sm := sm.setVec3Value "lightSources[3].diffuseColor" { x := 0.1, y := 0.7, z := 0 }
    let sm := sm.setVec3Value "lightSources[3].specularColor" { x := 0, y := 0.7, z := 0 }
    let sm := sm.setFloatValue "lightSources[3].focalStrength" 1
    let sm := sm.setFloatValue "lightSources[3].specularIntensity" 1
    let sm := sm.setFloatValue "lightSources[3].ambientStrength" 1
    let sm := sm.setBoolValue "bUseLightng" true
    Except.ok { s with m_pShaderManager := some sm }

/-- The six `CreateGLTexture(filename, tag)` calls of `LoadSceneTextures`, in order. -/
def sceneTextureFiles : List (String × String) :=
  [("../../Utilities/Textures/BushDenseBerries.jpg", "DenseBerries"),
   ("../../Utilities/Textures/bushDense.jpg", "Hedge"),
   ("../../Utilities/Textures/BarkTexture.jpg", "bark"),
   ("../../Utilities/Textures/pavers.jpg", "brick"),
   ("../../Utilities/Textures/tilesf2.jpg", "tile"),
   ("../../Utilities/Textures/rocks.jpg", "rocks")]

/-- `SceneManager::LoadSceneTextures()`: the six loads, their results dropped, then
`BindGLTextures()`. -/
def LoadSceneTextures (stbi_load : String → Option Image) (s : SceneManager F) (p : Platform) :
    Except Fault (SceneManager F × Platform) :=
  let p := p.stbi_set_flip_vertically_on_load true
  match loadTextures stbi_load sceneTextureFiles s p with
  | Except.ok (s, p) =>
    match BindGLTextures s p with
    | Except.ok p => Except.ok (s, p)
    | Except.error e => Except.error e
  | Except.error e => Except.error e

/-- `SceneManager::PrepareScene()`. -/
def PrepareScene [Field F] (stbi_load : String → Option Image) (s : SceneManager F)
    (p : Platform) : Except Fault (SceneManager F × Platform) :=
  let s := DefineObjectMaterials s
  match SetupSceneLights s with
  | Except.ok s =>
    match LoadSceneTextures stbi_load s p with
    | Except.ok (s, p) =>
      let meshes := s.m_basicMeshes.Load Shape.Plane
      let meshes := meshes.Load Shape.Cone
      let meshes := meshes.Load Shape.Torus
      let meshes := meshes.Load Shape.Box
      let meshes := meshes.Load Shape.Sphere
      let meshes := meshes.Load Shape.Pyramid4
      Except.ok ({ s with m_basicMeshes := meshes }, p)
    | Except.error e => Except.error e
  | Except.error e => Except.error e

/-! ## The scene script -/

/-- One call made by a render function: a setter call or a `Draw<Shape>Mesh()` call. -/
inductive SceneCall (F : Type) where
  | set (c : SetterCall F)
  | draw (shape : Shape)

/-- Executing one call of a render function; a draw is recorded with the number of uniform
writes issued before it. -/
def SceneCall.run [Field F] (ops : FloatOps F) :
    SceneCall F → SceneManager F → Except Fault (SceneManager F)
  | SceneCall.set c, s => c.run ops s
  | SceneCall.draw shape, s =>
    let writes : Nat :=
      match s.m_pShaderManager with
      | some sm => sm.writes.length
      | none => 0
    Except.ok { s with m_basicMeshes := s.m_basicMeshes.Draw shape writes }

/-- Executing the calls of a render function one after the other. -/
def runCalls [Field F] (ops : FloatOps F) :
    List (SceneCall F) → SceneManager F → Except Fault (SceneManager F)
  | [], s => Except.ok s
  | c :: rest, s =>
    match c.run ops s with
    | Except.ok s => runCalls ops rest s
    | Except.error e => Except.error e

/-- The content of a call without its numbers: the setter (with the tag of a texture or material
call) or the shape drawn. -/
inductive CallInfo where
  | setter (f : Setter)
  | texture (tag : String)
  | material (tag : String)
  | draw (shape : Shape)
  deriving DecidableEq, Repr

/-- The content of a call without its numbers. -/
def SceneCall.info : SceneCall F → CallInfo
  | SceneCall.set (SetterCall.SetShaderTexture tag) => CallInfo.texture tag
  | SceneCall.set (SetterCall.SetShaderMaterial _ tag) => CallInfo.material tag
  | SceneCall.set c => CallInfo.setter c.setter
  | SceneCall.draw shape => CallInfo.draw shape

/-- The setter behind a call content, `none` for a draw. -/
def CallInfo.setter? : CallInfo → Option Setter
  | CallInfo.setter f => some f
  | CallInfo.texture _ => some Setter.SetShaderTexture
  | CallInfo.material _ => some Setter.SetShaderMaterial
  | CallInfo.draw _ => none

/-- Splits a sequence of calls at its draw calls: for every draw, the setters called since the
previous draw (or since the start), in order, and the shape drawn. -/
def drawWindows : List CallInfo → List Setter → List (List Setter × Shape)
  | [], _ => []
  | CallInfo.draw shape :: rest, window => (window, shape) :: drawWindows rest []
  | CallInfo.setter f :: rest, window => drawWindows rest (window ++ [f])
  | CallInfo.texture _ :: rest, window => drawWindows rest (window ++ [Setter.SetShaderTexture])
  | CallInfo.material _ :: rest, window => drawWindows rest (window ++ [Setter.SetShaderMaterial])

/-- `SceneManager::AddRoot(x, z)`: the calls its body makes, in order. -/
def AddRoot [Field F] (uninitialised : OBJECT_MATERIAL F) (x z : F) : List (SceneCall F) :=
  ([SceneCall.set (SetterCall.SetTransformations { x := 0.5, y := 2, z := 0.5 } 0 0 0
        { x := x, y := 0.9, z := z }),
     SceneCall.set (SetterCall.SetShaderColor 1 1 1 1),
     SceneCall.set (SetterCall.SetShaderTexture "bark"),
     SceneCall.set (SetterCall.SetShaderMaterial uninitialised "bark"),
     SceneCall.set (SetterCall.SetTextureUVScale 1 1),
     SceneCall.draw Shape.Cone] : List (SceneCall F)) ++
    ([SceneCall.set (SetterCall.SetTransformations { x := 0.5, y := 2, z := 0.5 } 0 0 180
        { x := x, y := 2.9, z := z }),
     SceneCall.set (SetterCall.SetShaderColor 1 1 1 1),
     SceneCall.set (SetterCall.SetShaderTexture "bark"),
     SceneCall.set (SetterCall.SetShaderMaterial uninitialised "bark"),
     SceneCall.set (SetterCall.SetTextureUVScale 1 1),
     SceneCall.draw Shape.Cone] : List (SceneCall F))

/-- `SceneManager::RenderFloor()`: the calls its body makes, in order. -/
def RenderFloor [Field F] (uninitialised : OBJECT_MATERIAL F) : List (SceneCall F) :=
  ([SceneCall.set (SetterCall.SetTransformations { x := 100, y := 1, z := 100 } 0 0 0
        { x := 0, y := 0, z := (-20) }),
     SceneCall.set (SetterCall.SetShaderColor 1 1 1 1),
     SceneCall.set (SetterCall.SetShaderTexture "brick"),
     SceneCall.set (SetterCall.SetShaderMaterial uninitialised "cement"),
     SceneCall.set (SetterCall.SetTextureUVScale 20 20),
     SceneCall.draw Shape.Plane] : List (SceneCall F))

/-- `SceneManager::RenderQuadrantOne()`: the calls its body makes, in order. -/
def RenderQuadrantOne [Field F] (uninitialised : OBJECT_MATERIAL F) : List (SceneCall F) :=
  ([SceneCall.set (SetterCall.SetTransformations { x := 20, y := 0.5, z := 20 } 0 0 0
        { x := 55, y := 0.5, z := 35 }),
     SceneCall.set (SetterCall.SetShaderColor 1 1 1 1),
     SceneCall.set (SetterCall.SetShaderTexture "tile"),
     SceneCall.set (SetterCall.SetShaderMaterial uninitialised "blueTile"),
     SceneCall.set (SetterCall.SetTextureUVScale 10 10),
     SceneCall.draw Shape.Box] : List (SceneCall F)) ++
    ([SceneCall.set (SetterCall.SetTransformations { x := 19, y := 0.5, z := 19 } 0 0 0
        { x := 55, y := 0.6, z := 35 }),
     SceneCall.set (SetterCall.SetShaderColor 1 1 1 1),
     SceneCall.set (SetterCall.SetShaderTexture "rocks"),
     SceneCall.set (SetterCall.SetShaderMaterial uninitialised "cement"),
     SceneCall.set (SetterCall.SetTextureUVScale 10 10),
     SceneCall.draw Shape.Box] : List (SceneCall F)) ++
    ([SceneCall.set (SetterCall.SetTransformations { x := 0.5, y := 2, z := 0.5 } 0 0 0
        { x := 50, y := 0.9, z := 35 }),
     SceneCall.set (SetterCall.SetShaderColor 1 1 1 1),
     SceneCall.set (SetterCall.SetShaderTexture "bark"),
     SceneCall.set (SetterCall.SetShaderMaterial uninitialised "bark"),
     SceneCall.set (SetterCall.SetTextureUVScale 1 1),
     SceneCall.draw Shape.Cone] : List (SceneCall F)) ++
    ([SceneCall.set (SetterCall.SetTransformations { x := 0.5, y := 2, z := 0.5 } 0 0 180
        { x := 50, y := 2.9, z := 35 }),
     SceneCall.set (SetterCall.SetShaderColor 1 1 1 1),
     SceneCall.set (SetterCall.SetShaderTexture "bark"),
     SceneCall.set (SetterCall.SetShaderMaterial uninitialised "bark"),
     SceneCall.set (SetterCall.SetTextureUVScale 1 1),
     SceneCall.draw Shape.Cone] : List (SceneCall F)) ++
    ([SceneCall.set (SetterCall.SetTransformations { x := 0.5, y := 2, z := 0.5 } 0 0 0
        { x := 60, y := 0.9, z := 35 }),
     SceneCall.set (SetterCall.SetShaderColor 1 1 1 1),
     SceneCall.set (SetterCall.SetShaderTexture "bark"),
     SceneCall.set (SetterCall.SetShaderMaterial uninitialised "bark"),
     SceneCall.set (SetterCall.SetTextureUVScale 1 1),
     SceneCall.draw Shape.Cone] : List (SceneCall F)) ++
    ([SceneCall.set (SetterCall.SetTransformations { x := 0.5, y := 2, z := 0.5 } 0 0 180
        { x := 60, y := 2.9, z := 35 }),
     SceneCall.set (SetterCall.SetShaderColor 1 1 1 1),
     SceneCall.set (SetterCall.SetShaderTexture "bark"),
     SceneCall.set (SetterCall.SetShaderMaterial uninitialised "bark"),
     SceneCall.set (SetterCall.SetTextureUVScale 1 1),
     SceneCall.draw Shape.Cone] : List (SceneCall F)) ++
    ([SceneCall.set (SetterCall.SetTransformations { x := 5, y := 5, z := 3 } 0 0 0
        { x := 60, y := 8.8, z := 35 }),
     SceneCall.set (SetterCall.SetShaderColor 1 1 1 1),
     SceneCall.set (SetterCall.SetShaderTexture "Hedge"),
     SceneCall.set (SetterCall.SetShaderMaterial uninitialised "bush"),
     SceneCall.set (SetterCall.SetTextureUVScale 3 2),
     SceneCall.draw Shape.Torus] : List (SceneCall F)) ++
    ([SceneCall.set (SetterCall.SetTransformations { x := 5, y := 5, z := 3 } 0 0 0
        { x := 50, y := 8.8, z := 35 }),
     SceneCall.set (SetterCall.SetShaderColor 1 1 1 1),
     SceneCall.set (SetterCall.SetShaderTexture "Hedge"),
     SceneCall.set (SetterCall.SetShaderMaterial uninitialised "bush"),
     SceneCall.set (SetterCall.SetTextureUVScale 3 2),
     SceneCall.draw Shape.Torus] : List (SceneCall F)) ++
    ([SceneCall.set (SetterCall.SetTransformations { x := 5, y := 5, z := 3 } 0 0 0
        { x := 55, y := 18.5, z := 35 }),
     SceneCall.set (SetterCall.SetShaderColor 1 1 1 1),
     SceneCall.set (SetterCall.SetShaderTexture "Hedge"),
     SceneCall.set (SetterCall.SetShaderMaterial uninitialised "bush"),
     SceneCall.set (SetterCall.SetTextureUVScale 3 2),
     SceneCall.draw Shape.Torus] : List (SceneCall F))

/-- `SceneManager::RenderQuadrantTwo()`: the calls its body makes, in order. -/
def RenderQuadrantTwo [Field F] (uninitialised : OBJECT_MATERIAL F) : List (SceneCall F) :=
  let sHeight : F := 3.3
  let sSize : F := 1.3
  ([SceneCall.set (SetterCall.SetTransformations { x := 20, y := 0.5, z := 20 } 0 0 0
        { x := (-55), y := 0.5, z := 35 }),
     SceneCall.set (SetterCall.SetShaderColor 1 1 1 1),
     SceneCall.set (SetterCall.SetShaderTexture "tile"),
     SceneCall.set (SetterCall.SetTextureUVScale 10 10),
     SceneCall.draw Shape.Box] : List (SceneCall F)) ++
    ([SceneCall.set (SetterCall.SetTransformations { x := 19, y := 0.5, z := 19 } 0 0 0
        { x := (-55), y := 0.6, z := 35 }),
     SceneCall.set (SetterCall.SetShaderColor 1 1 1 1),
     SceneCall.set (SetterCall.SetShaderTexture "rocks"),
     SceneCall.set (SetterCall.SetTextureUVScale 10 10),
     SceneCall.draw Shape.Box] : List (SceneCall F)) ++
    ([SceneCall.set (SetterCall.SetTransformations { x := sSize, y := sSize, z := sSize } 0 0 0
        { x := (-48), y := sHeight, z := 35 }),
     SceneCall.set (SetterCall.SetShaderColor 1 1 1 1),
     SceneCall.set (SetterCall.SetShaderTexture "Hedge"),
     SceneCall.set (SetterCall.SetShaderMaterial uninitialised "bush"),
     SceneCall.set (SetterCall.SetTextureUVScale 10 10),
     SceneCall.draw Shape.Sphere] : List (SceneCall F)) ++
    AddRoot uninitialised (-48) 35 ++
    ([SceneCall.set (SetterCall.SetTransformations { x := sSize, y := sSize, z := sSize } 0 0 0
        { x := (-62), y := sHeight, z := 35 }),
     SceneCall.set (SetterCall.SetShaderColor 1 1 1 1),
     SceneCall.set (SetterCall.SetShaderTexture "Hedge"),
     SceneCall.set (SetterCall.SetShaderMaterial uninitialised "bush"),
     SceneCall.set (SetterCall.SetTextureUVScale 10 10),
     SceneCall.draw Shape.Sphere] : List (SceneCall F)) ++
    AddRoot uninitialised (-62) 35 ++
    ([SceneCall.set (SetterCall.SetTransformations { x := sSize, y := sSize, z := sSize } 0 0 0
        { x := (-55), y := sHeight, z := 42 }),
     SceneCall.set (SetterCall.SetShaderColor 1 1 1 1),
     SceneCall.set (SetterCall.SetShaderTexture "Hedge"),
     SceneCall.set (SetterCall.SetShaderMaterial uninitialised "bush"),
     SceneCall.set (SetterCall.SetTextureUVScale 10 10),
     SceneCall.draw Shape.Sphere] : List (SceneCall F)) ++
    AddRoot uninitialised (-55) 42 ++
    ([SceneCall.set (SetterCall.SetTransformations { x := sSize, y := sSize, z := sSize } 0 0 0
        { x := (-55), y := sHeight, z := 28 }),
     SceneCall.set (SetterCall.SetShaderColor 1 1 1 1),
     SceneCall.set (SetterCall.SetShaderTexture "Hedge"),
     SceneCall.set (SetterCall.SetShaderMaterial uninitialised "bush"),
     SceneCall.set (SetterCall.SetTextureUVScale 10 10),
     SceneCall.draw Shape.Sphere] : List (SceneCall F)) ++
    AddRoot uninitialised (-55) 28 ++
    ([SceneCall.set (SetterCall.SetTransformations { x := sSize, y := sSize, z := sSize } 0 0 0
        { x := (-50), y := sHeight, z := 40 }),
     SceneCall.set (SetterCall.SetShaderColor 1 1 1 1),
     SceneCall.set (SetterCall.SetShaderTexture "Hedge"),
     SceneCall.set (SetterCall.SetShaderMaterial uninitialised "bush"),
     SceneCall.set (SetterCall.SetTextureUVScale 10 10),
     SceneCall.draw Shape.Sphere] : List (SceneCall F)) ++
    AddRoot uninitialised (-50) 40 ++
    ([SceneCall.set (SetterCall.SetTransformations { x := sSize, y := sSize, z := sSize } 0 0 0
        { x := (-60), y := sHeight, z := 30 }),
     SceneCall.set (SetterCall.SetShaderColor 1 1 1 1),
     SceneCall.set (SetterCall.SetShaderTexture "Hedge"),
     SceneCall.set (SetterCall.SetShaderMaterial uninitialised "bush"),
     SceneCall.set (SetterCall.SetTextureUVScale 10 10),
     SceneCall.draw Shape.Sphere] : List (SceneCall F)) ++
    AddRoot uninitialised (-60) 30 ++
    ([SceneCall.set (SetterCall.SetTransformations { x := sSize, y := sSize, z := sSize } 0 0 0
        { x := (-60), y := sHeight, z := 40 }),
     SceneCall.set (SetterCall.SetShaderColor 1 1 1 1),
     SceneCall.set (SetterCall.SetShaderTexture "Hedge"),
     SceneCall.set (SetterCall.SetShaderMaterial uninitialised "bush"),
     SceneCall.set (SetterCall.SetTextureUVScale 10 10),
     SceneCall.draw Shape.Sphere] : List (SceneCall F)) ++
    AddRoot uninitialised (-60) 40 ++
    ([SceneCall.set (SetterCall.SetTransformations { x := sSize, y := sSize, z := sSize } 0 0 0
        { x := (-50), y := sHeight, z := 30 }),
     SceneCall.set (SetterCall.SetShaderColor 1 1 1 1),
     SceneCall.set (SetterCall.SetShaderTexture "Hedge"),
     SceneCall.set (SetterCall.SetShaderMaterial uninitialised "bush"),
     SceneCall.set (SetterCall.SetTextureUVScale 10 10),
     SceneCall.draw Shape.Sphere] : List (SceneCall F)) ++
    AddRoot uninitialised (-50) 30 ++
    ([SceneCall.set (SetterCall.SetTransformations { x := sSize, y := sSize, z := sSize } 0 0 0
        { x := (-52.3), y := sHeight, z := 28.3 }),
     SceneCall.set (SetterCall.SetShaderColor 1 1 1 1),
     SceneCall.set (SetterCall.SetShaderTexture "Hedge"),
     SceneCall.set (SetterCall.SetShaderMaterial uninitialised "bush"),
     SceneCall.set (SetterCall.SetTextureUVScale 10 10),
     SceneCall.draw Shape.Sphere] : List (SceneCall F)) ++
    AddRoot uninitialised (-52.3) 28.3 ++
    ([SceneCall.set (SetterCall.SetTransformations { x := sSize, y := sSize, z := sSize } 0 0 0
        { x := (-57.7), y := sHeight, z := 41.7 }),
     SceneCall.set (SetterCall.SetShaderColor 1 1 1 1),
     SceneCall.set (SetterCall.SetShaderTexture "Hedge"),
     SceneCall.set (SetterCall.SetShaderMaterial uninitialised "bush"),
     SceneCall.set (SetterCall.SetTextureUVScale 10 10),
     SceneCall.draw Shape.Sphere] : List (SceneCall F)) ++
    AddRoot uninitialised (-57.7) 41.7 ++
    ([SceneCall.set (SetterCall.SetTransformations { x := sSize, y := sSize, z := sSize } 0 0 0
        { x := (-57.7), y := sHeight, z := 28.3 }),
     SceneCall.set (SetterCall.SetShaderColor 1 1 1 1),
     SceneCall.set (SetterCall.SetShaderTexture "Hedge"),
     SceneCall.set (SetterCall.SetShaderMaterial uninitialised "bush"),
     SceneCall.set (SetterCall.SetTextureUVScale 10 10),
     SceneCall.draw Shape.Sphere] : List (SceneCall F)) ++
    AddRoot uninitialised (-57.7) 28.3 ++
    ([SceneCall.set (SetterCall.SetTransformations { x := sSize, y := sSize, z := sSize } 0 0 0
        { x := (-52.3), y := sHeight, z := 41.7 }),
     SceneCall.set (SetterCall.SetShaderColor 1 1 1 1),
     SceneCall.set (SetterCall.SetShaderTexture "Hedge"),
     SceneCall.set (SetterCall.SetShaderMaterial uninitialised "bush"),
     SceneCall.set (SetterCall.SetTextureUVScale 10 10),
     SceneCall.draw Shape.Sphere] : List (SceneCall F)) ++
    AddRoot uninitialised (-52.3) 41.7 ++
    ([SceneCall.set (SetterCall.SetTransformations { x := sSize, y := sSize, z := sSize } 0 0 0
        { x := (-61.7), y := sHeight, z := 37.7 }),
     SceneCall.set (SetterCall.SetShaderColor 1 1 1 1),
     SceneCall.set (SetterCall.SetShaderTexture "Hedge"),
     SceneCall.set (SetterCall.SetShaderMaterial uninitialised "bush"),
     SceneCall.set (SetterCall.SetTextureUVScale 10 10),
     SceneCall.draw Shape.Sphere] : List (SceneCall F)) ++
    AddRoot uninitialised (-61.7) 37.7 ++
    ([SceneCall.set (SetterCall.SetTransformations { x := sSize, y := sSize, z := sSize } 0 0 0
        { x := (-48.3), y := sHeight, z := 32.3 }),
     SceneCall.set (SetterCall.SetShaderColor 1 1 1 1),
     SceneCall.set (SetterCall.SetShaderTexture "Hedge"),
     SceneCall.set (SetterCall.SetShaderMaterial uninitialised "bush"),
     SceneCall.set (SetterCall.SetTextureUVScale 10 10),
     SceneCall.draw Shape.Sphere] : List (SceneCall F)) ++
    AddRoot uninitialised (-48.3) 32.3 ++
    ([SceneCall.set (SetterCall.SetTransformations { x := sSize, y := sSize, z := sSize } 0 0 0
        { x := (-61.7), y := sHeight, z := 32.3 }),
     SceneCall.set (SetterCall.SetShaderColor 1 1 1 1),
     SceneCall.set (SetterCall.SetShaderTexture "Hedge"),
     SceneCall.set (SetterCall.SetShaderMaterial uninitialised "bush"),
     SceneCall.set (SetterCall.SetTextureUVScale 10 10),
     SceneCall.draw Shape.Sphere] : List (SceneCall F)) ++
    AddRoot uninitialised (-61.7) 32.3 ++
    ([SceneCall.set (SetterCall.SetTransformations { x := sSize, y := sSize, z := sSize } 0 0 0
        { x := (-48.3), y := sHeight, z := 37.7 }),
     SceneCall.set (SetterCall.SetShaderColor 1 1 1 1),
     SceneCall.set (SetterCall.SetShaderTexture "Hedge"),
     SceneCall.set (SetterCall.SetShaderMaterial uninitialised "bush"),
     SceneCall.set (SetterCall.SetTextureUVScale 10 10),
     SceneCall.draw Shape.Sphere] : List (SceneCall F)) ++
    AddRoot uninitialised (-48.3) 37.7

/-- `SceneManager::RenderQuadrantThree()`: the calls its body makes, in order. -/
def RenderQuadrantThree [Field F] (uninitialised : OBJECT_MATERIAL F) : List (SceneCall F) :=
  ([SceneCall.set (SetterCall.SetTransformations { x := 20, y := 0.5, z := 20 } 0 0 0
        { x := 55, y := 0.5, z := (-75) }),
     SceneCall.set (SetterCall.SetShaderColor 1 1 1 1),
     SceneCall.set (SetterCall.SetShaderTexture "tile"),
     SceneCall.set (SetterCall.SetShaderMaterial uninitialised "blueTile"),
     SceneCall.set (SetterCall.SetTextureUVScale 10 10),
     SceneCall.draw Shape.Box] : List (SceneCall F)) ++
    ([SceneCall.set (SetterCall.SetTransformations { x := 19, y := 0.5, z := 19 } 0 0 0
        { x := 55, y := 0.6, z := (-75) }),
     SceneCall.set (SetterCall.SetShaderColor 1 1 1 1),
     SceneCall.set (SetterCall.SetShaderTexture "rocks"),
     SceneCall.set (SetterCall.SetShaderMaterial uninitialised "cement"),
     SceneCall.set (SetterCall.SetTextureUVScale 10 10),
     SceneCall.draw Shape.Box] : List (SceneCall F)) ++
    ([SceneCall.set (SetterCall.SetTransformations { x := 0.5, y := 2, z := 0.5 } 0 0 0
        { x := 55, y := 0.9, z := (-75) }),
     SceneCall.set (SetterCall.SetShaderColor 1 1 1 1),
     SceneCall.set (SetterCall.SetShaderTexture "bark"),
     SceneCall.set (SetterCall.SetShaderMaterial uninitialised "bark"),
     SceneCall.set (SetterCall.SetTextureUVScale 1 1),
     SceneCall.draw Shape.Cone] : List (SceneCall F)) ++
    ([SceneCall.set (SetterCall.SetTransformations { x := 0.5, y := 2, z := 0.5 } 0 0 180
        { x := 55, y := 2.9, z := (-75) }),
     SceneCall.set (SetterCall.SetShaderColor 1 1 1 1),
     SceneCall.set (SetterCall.SetShaderTexture "bark"),
     SceneCall.set (SetterCall.SetShaderMaterial uninitialised "bark"),
     SceneCall.set (SetterCall.SetTextureUVScale 1 1),
     SceneCall.draw Shape.Cone] : List (SceneCall F)) ++
    ([SceneCall.set (SetterCall.SetTransformations { x := 4, y := 4, z := 4 } 0 0 0
        { x := 55, y := 4.9, z := (-75) }),
     SceneCall.set (SetterCall.SetShaderColor 1 1 1 1),
     SceneCall.set (SetterCall.SetShaderTexture "Hedge"),
     SceneCall.set (SetterCall.SetShaderMaterial uninitialised "bush"),
     SceneCall.set (SetterCall.SetTextureUVScale 1 1),
     SceneCall.draw Shape.Box] : List (SceneCall F)) ++
    ([SceneCall.set (SetterCall.SetTransformations { x := 2.5, y := 2.5, z := 2.5 } 0 0 0
        { x := 55, y := 9.3, z := (-75) }),
     SceneCall.set (SetterCall.SetShaderColor 1 1 1 1),
     SceneCall.set (SetterCall.SetShaderTexture "Hedge"),
     SceneCall.set (SetterCall.SetShaderMaterial uninitialised "bush"),
     SceneCall.set (SetterCall.SetTextureUVScale 1 1),
     SceneCall.draw Shape.Sphere] : List (SceneCall F)) ++
    ([SceneCall.set (SetterCall.SetTransformations { x := 4, y := 4, z := 4 } 0 0 180
        { x := 55, y := 13.5, z := (-75) }),
     SceneCall.set (SetterCall.SetShaderColor 1 1 1 1),
     SceneCall.set (SetterCall.SetShaderTexture "Hedge"),
     SceneCall.set (SetterCall.SetShaderMaterial uninitialised "bush"),
     SceneCall.set (SetterCall.SetTextureUVScale 1 1),
     SceneCall.draw Shape.Pyramid4] : List (SceneCall F))

/-- `SceneManager::RenderQuadrantFour()`: the calls its body makes, in order. -/
def RenderQuadrantFour [Field F] (uninitialised : OBJECT_MATERIAL F) : List (SceneCall F) :=
  let pSize : F := 8.5
  let pHeight : F := 6.7
  ([SceneCall.set (SetterCall.SetTransformations { x := 20, y := 0.5, z := 20 } 0 0 0
        { x := (-55), y := 0.5, z := (-75) }),
     SceneCall.set (SetterCall.SetShaderColor 1 1 1 1),
     SceneCall.set (SetterCall.SetShaderTexture "tile"),
     SceneCall.set (SetterCall.SetShaderMaterial uninitialised "blueTile"),
     SceneCall.set (SetterCall.SetTextureUVScale 10 10),
     SceneCall.draw Shape.Box] : List (SceneCall F)) ++
    ([SceneCall.set (SetterCall.SetTransformations { x := 19, y := 0.5, z := 19 } 0 0 0
        { x := (-55), y := 0.6, z := (-75) }),
     SceneCall.set (SetterCall.SetShaderColor 1 1 1 1),
     SceneCall.set (SetterCall.SetShaderTexture "rocks"),
     SceneCall.set (SetterCall.SetShaderMaterial uninitialised "cement"),
     SceneCall.set (SetterCall.SetTextureUVScale 10 10),
     SceneCall.draw Shape.Box] : List (SceneCall F)) ++
    ([SceneCall.set (SetterCall.SetTransformations { x := 0.5, y := 2, z := 0.5 } 0 0 0
        { x := (-50), y := 0.6, z := (-70) }),
     SceneCall.set (SetterCall.SetShaderColor 1 1 1 1),
     SceneCall.set (SetterCall.SetShaderTexture "bark"),
     SceneCall.set (SetterCall.SetShaderMaterial uninitialised "bark"),
     SceneCall.set (SetterCall.SetTextureUVScale 1 1),
     SceneCall.draw Shape.Cone] : List (SceneCall F)) ++
    ([SceneCall.set (SetterCall.SetTransformations { x := 0.5, y := 2.5, z := 0.5 } 0 0 180
        { x := (-50), y := 2.6, z := (-70) }),
     SceneCall.set (SetterCall.SetShaderColor 1 1 1 1),
     SceneCall.set (SetterCall.SetShaderTexture "bark"),
     SceneCall.set (SetterCall.SetShaderMaterial uninitialised "bark"),
     SceneCall.set (SetterCall.SetTextureUVScale 1 1),
     SceneCall.draw Shape.Cone] : List (SceneCall F)) ++
    ([SceneCall.set (SetterCall.SetTransformations { x := pSize, y := pSize, z := pSize } 0 0 0
        { x := (-50), y := pHeight, z := (-70) }),
     SceneCall.set (SetterCall.SetShaderColor 1 1 1 1),
     SceneCall.set (SetterCall.SetShaderTexture "Hedge"),
     SceneCall.set (SetterCall.SetShaderMaterial uninitialised "bush"),
     SceneCall.set (SetterCall.SetTextureUVScale 1 1),
     SceneCall.draw Shape.Pyramid4] : List (SceneCall F)) ++
    ([SceneCall.set (SetterCall.SetTransformations { x := 0.5, y := 2, z := 0.5 } 0 0 0
        { x := (-60), y := 0.6, z := (-80) }),
     SceneCall.set (SetterCall.SetShaderColor 1 1 1 1),
     SceneCall.set (SetterCall.SetShaderTexture "bark"),
     SceneCall.set (SetterCall.SetShaderMaterial uninitialised "bark"),
     SceneCall.set (SetterCall.SetTextureUVScale 1 1),
     SceneCall.draw Shape.Cone] : List (SceneCall F)) ++
    ([SceneCall.set (SetterCall.SetTransformations { x := 0.5, y := 2.5, z := 0.5 } 0 0 180
        { x := (-60), y := 2.6, z := (-80) }),
     SceneCall.set (SetterCall.SetShaderColor 1 1 1 1),
     SceneCall.set (SetterCall.SetShaderTexture "bark"),
     SceneCall.set (SetterCall.SetShaderMaterial uninitialised "bark"),
     SceneCall.set (SetterCall.SetTextureUVScale 1 1),
     SceneCall.draw Shape.Cone] : List (SceneCall F)) ++
    ([SceneCall.set (SetterCall.SetTransformations { x := pSize, y := pSize, z := pSize } 0 0 0
        { x := (-60), y := pHeight, z := (-80) }),
     SceneCall.set (SetterCall.SetShaderColor 1 1 1 1),
     SceneCall.set (SetterCall.SetShaderTexture "Hedge"),
     SceneCall.set (SetterCall.SetShaderMaterial uninitialised "bush"),
     SceneCall.set (SetterCall.SetTextureUVScale 1 1),
     SceneCall.draw Shape.Pyramid4] : List (SceneCall F)) ++
    ([SceneCall.set (SetterCall.SetTransformations { x := 0.5, y := 2, z := 0.5 } 0 0 0
        { x := (-60), y := 0.6, z := (-70) }),
     SceneCall.set (SetterCall.SetShaderColor 1 1 1 1),
     SceneCall.set (SetterCall.SetShaderTexture "bark"),
     SceneCall.set (SetterCall.SetShaderMaterial uninitialised "bark"),
     SceneCall.set (SetterCall.SetTextureUVScale 1 1),
     SceneCall.draw Shape.Cone] : List (SceneCall F)) ++
    ([SceneCall.set (SetterCall.SetTransformations { x := 0.5, y := 2.5, z := 0.5 } 0 0 180
        { x := (-60), y := 2.6, z := (-70) }),
     SceneCall.set (SetterCall.SetShaderColor 1 1 1 1),
     SceneCall.set (SetterCall.SetShaderTexture "bark"),
     SceneCall.set (SetterCall.SetShaderMaterial uninitialised "bark"),
     SceneCall.set (SetterCall.SetTextureUVScale 1 1),
     SceneCall.draw Shape.Cone] : List (SceneCall F)) ++
    ([SceneCall.set (SetterCall.SetTransformations { x := pSize, y := pSize, z := pSize } 0 0 0
        { x := (-60), y := pHeight, z := (-70) }),
     SceneCall.set (SetterCall.SetShaderColor 1 1 1 1),
     SceneCall.set (SetterCall.SetShaderTexture "Hedge"),
     SceneCall.set (SetterCall.SetShaderMaterial uninitialised "bush"),
     SceneCall.set (SetterCall.SetTextureUVScale 1 1),
     SceneCall.draw Shape.Pyramid4] : List (SceneCall F)) ++
    ([SceneCall.set (SetterCall.SetTransformations { x := 0.5, y := 2, z := 0.5 } 0 0 0
        { x := (-50), y := 0.6, z := (-80) }),
     SceneCall.set (SetterCall.SetShaderColor 1 1 1 1),
     SceneCall.set (SetterCall.SetShaderTexture "bark"),
     SceneCall.set (SetterCall.SetShaderMaterial uninitialised "bark"),
     SceneCall.set (SetterCall.SetTextureUVScale 1 1),
     SceneCall.draw Shape.Cone] : List (SceneCall F)) ++
    ([SceneCall.set (SetterCall.SetTransformations { x := 0.5, y := 2.5, z := 0.5 } 0 0 180
        { x := (-50), y := 2.6, z := (-80) }),
     SceneCall.set (SetterCall.SetShaderColor 1 1 1 1),
     SceneCall.set (SetterCall.SetShaderTexture "bark"),
     SceneCall.set (SetterCall.SetShaderMaterial uninitialised "bark"),
     SceneCall.set (SetterCall.SetTextureUVScale 1 1),
     SceneCall.draw Shape.Cone] : List (SceneCall F)) ++
    ([SceneCall.set (SetterCall.SetTransformations { x := pSize, y := pSize, z := pSize } 0 0 0
        { x := (-50), y := pHeight, z := (-80) }),
     SceneCall.set (SetterCall.SetShaderColor 1 1 1 1),
     SceneCall.set (SetterCall.SetShaderTexture "Hedge"),
     SceneCall.set (SetterCall.SetShaderMaterial uninitialised "bush"),
     SceneCall.set (SetterCall.SetTextureUVScale 1 1),
     SceneCall.draw Shape.Pyramid4] : List (SceneCall F)) ++
    ([SceneCall.set (SetterCall.SetTransformations { x := 11, y := 11, z := 11 } 0 0 0
        { x := (-55), y := 16, z := (-75) }),
     SceneCall.set (SetterCall.SetShaderColor 1 1 1 1),
     SceneCall.set (SetterCall.SetShaderTexture "Hedge"),
     SceneCall.set (SetterCall.SetShaderMaterial uninitialised "bush"),
     SceneCall.set (SetterCall.SetTextureUVScale 1 1),
     SceneCall.draw Shape.Pyramid4] : List (SceneCall F))

/-- `SceneManager::RenderQuadrantWalls()`: the calls its body makes, in order. -/
def RenderQuadrantWalls [Field F] (_uninitialised : OBJECT_MATERIAL F) : List (SceneCall F) :=
  ([SceneCall.set (SetterCall.SetTransformations { x := 5, y := 20, z := 50 } 0 0 0
        { x := 0, y := 10, z := 50 }),
     SceneCall.set (SetterCall.SetShaderColor 1 1 1 1),
     SceneCall.set (SetterCall.SetShaderTexture "DenseBerries"),
     SceneCall.set (SetterCall.SetTextureUVScale 10 5),
     SceneCall.draw Shape.Box] : List (SceneCall F)) ++
    ([SceneCall.set (SetterCall.SetTransformations { x := 5, y := 20, z := 50 } 0 0 0
        { x := 0, y := 10, z := (-90) }),
     SceneCall.set (SetterCall.SetShaderColor 1 1 1 1),
     SceneCall.set (SetterCall.SetShaderTexture "DenseBerries"),
     SceneCall.set (SetterCall.SetTextureUVScale 10 5),
     SceneCall.draw Shape.Box] : List (SceneCall F)) ++
    ([SceneCall.set (SetterCall.SetTransformations { x := 5, y := 20, z := 50 } 0 90 0
        { x := (-70), y := 10, z := 0 }),
     SceneCall.set (SetterCall.SetShaderColor 1 1 1 1),
     SceneCall.set (SetterCall.SetShaderTexture "DenseBerries"),
     SceneCall.set (SetterCall.SetTextureUVScale 10 5),
     SceneCall.draw Shape.Box] : List (SceneCall F)) ++
    ([SceneCall.set (SetterCall.SetTransformations { x := 5, y := 20, z := 50 } 0 90 0
        { x := 70, y := 10, z := 0 }),
     SceneCall.set (SetterCall.SetShaderColor 1 1 1 1),
     SceneCall.set (SetterCall.SetShaderTexture "DenseBerries"),
     SceneCall.set (SetterCall.SetTextureUVScale 10 5),
     SceneCall.draw Shape.Box] : List (SceneCall F))

/-- `SceneManager::RenderWalls()`: the calls its body makes, in order. -/
def RenderWalls [Field F] (uninitialised : OBJECT_MATERIAL F) : List (SceneCall F) :=
  ([SceneCall.set (SetterCall.SetTransformations { x := 5, y := 20, z := 200 } 0 90 0
        { x := 0, y := 10, z := (-117.5) }),
     SceneCall.set (SetterCall.SetShaderColor 1 1 1 1),
     SceneCall.set (SetterCall.SetShaderTexture "DenseBerries"),
     SceneCall.set (SetterCall.SetShaderMaterial uninitialised "bush"),
     SceneCall.set (SetterCall.SetTextureUVScale 10 5),
     SceneCall.draw Shape.Box] : List (SceneCall F)) ++
    ([SceneCall.set (SetterCall.SetTransformations { x := 5, y := 20, z := 200 } 0 0 0
        { x := (-97.5), y := 10, z := (-20) }),
     SceneCall.draw Shape.Box] : List (SceneCall F)) ++
    ([SceneCall.set (SetterCall.SetTransformations { x := 5, y := 20, z := 200 } 0 0 0
        { x := 97.5, y := 10, z := (-20) }),
     SceneCall.draw Shape.Box] : List (SceneCall F)) ++
    ([SceneCall.set (SetterCall.SetTransformations { x := 5, y := 20, z := 200 } 0 90 0
        { x := 0, y := 10, z := 77.5 }),
     SceneCall.draw Shape.Box] : List (SceneCall F))

/-- `SceneManager::RenderScene()`: the calls of the seven render functions, in the order the body
invokes them. -/
def RenderScene [Field F] (uninitialised : OBJECT_MATERIAL F) : List (SceneCall F) :=
  RenderFloor uninitialised ++ RenderWalls uninitialised ++ RenderQuadrantWalls uninitialised ++
    RenderQuadrantOne uninitialised ++ RenderQuadrantTwo uninitialised ++
    RenderQuadrantThree uninitialised ++ RenderQuadrantFour uninitialised

/-! ## Concrete states used to evaluate the definitions -/

/-- A platform state in which nothing has been created yet (texture names start at 1). -/
def freshPlatform : Platform :=
  { flipVertically := false
    decodeBuffers := 0
    nextTexture := 1
    textures := []
    activeTexture := 0
    boundTexture2D := fun _ => 0
    texCommands := [] }

/-- A material with all values `v` and the given tag. -/
def plainMaterial (tag : String) (v : Int) : OBJECT_MATERIAL Int :=
  { ambientStrength := v
    ambientColor := { x := v, y := v, z := v }
    diffuseColor := { x := v, y := v, z := v }
    specularColor := { x := v, y := v, z := v }
    shininess := v
    tag := tag }

/-- A registry with textures "brick", "rocks", "rocks" at slots 0, 1, 2 and materials
"cement", "bark", "bark" at positions 0, 1, 2; a shader program is attached. -/
def shadowedRegistry : SceneManager Int :=
  { m_pShaderManager := some { writes := [] }
    m_basicMeshes := { loaded := [], drawn := [] }
    m_loadedTextures := 3
    m_textureIDs := fun i =>
      if i = 0 then { tag := "brick", ID := 7 }
      else if i = 1 then { tag := "rocks", ID := 8 }
      else if i = 2 then { tag := "rocks", ID := 9 }
      else { tag := "", ID := 0 }
    m_objectMaterials := [plainMaterial "cement" 1, plainMaterial "bark" 2, plainMaterial "bark" 3] }

/-- A registry whose only texture, tagged "a", carries the largest `uint32_t` as its ID. -/
def maxIDRegistry : SceneManager Int :=
  { m_pShaderManager := none
    m_basicMeshes := { loaded := [], drawn := [] }
    m_loadedTextures := 1
    m_textureIDs := fun i => if i = 0 then { tag := "a", ID := 4294967295 } else { tag := "", ID := 0 }
    m_objectMaterials := [] }

/-- A decoder for a directory with a 3-channel "a.jpg", a 4-channel "b.png" and a 1-channel
"gray.png"; every other file fails to decode. -/
def sampleFiles (filename : String) : Option Image :=
  if filename = "a.jpg" then some { width := 4, height := 4, colorChannels := 3 }
  else if filename = "b.png" then some { width := 2, height := 2, colorChannels := 4 }
  else if filename = "gray.png" then some { width := 2, height := 2, colorChannels := 1 }
  else none

/-- A registry in which all 16 slots are taken (tags "t", IDs 1..16). -/
def fullRegistry : SceneManager Int :=
  { m_pShaderManager := none
    m_basicMeshes := { loaded := [], drawn := [] }
    m_loadedTextures := 16
    m_textureIDs := fun i => { tag := "t", ID := i.val + 1 }
    m_objectMaterials := [] }

/-- A decoder for which every file is a 3-channel image. -/
def rgbFiles (_filename : String) : Option Image :=
  some { width := 8, height := 8, colorChannels := 3 }

/-- The registration of "brick", "rocks", "tile", in this order. -/
def brickRocksTile : List (String × String) :=
  [("brick.jpg", "brick"), ("rocks.jpg", "rocks"), ("tile.jpg", "tile")]

/-- Operations over the rationals that are exact at the angle 0 and at `sqrt 1`, for evaluating
calls whose angles are all zero. -/
def zeroAngleOps : FloatOps ℚ :=
  { cos := fun _ => 1, sin := fun _ => 0, sqrt := fun x => x, pi := 0 }

/-- The object after `brickRocksTile` has been registered on a new object with a shader program
attached and a counter that starts at 0. -/
def afterBrickRocksTile : SceneManager Int :=
  match loadTextures rgbFiles brickRocksTile (ctor (some { writes := [] }) 0 (fun _ => 0))
      freshPlatform with
  | Except.ok (s, _) => s
  | Except.error _ => ctor none 0 (fun _ => 0)

/-- The color and texture calls of a window, in order. -/
def colorOrTexture (window : List Setter) : List Setter :=
  window.filter (fun f => f = Setter.SetShaderColor ∨ f = Setter.SetShaderTexture)

/-- For every draw of a sequence of calls, the last color or texture setter called before it
(since the start of the sequence, `start` before the first such call). -/
def sourceAtDraws : List CallInfo → Option Setter → List (Option Setter)
  | [], _ => []
  | c :: rest, source =>
    match c.setter? with
    | none => source :: sourceAtDraws rest source
    | some f =>
      if f = Setter.SetShaderColor ∨ f = Setter.SetShaderTexture then
        sourceAtDraws rest (some f)
      else
        sourceAtDraws rest source

/-- The window of an entry that broadcasts its whole state. -/
def fullWindow : List Setter :=
  [Setter.SetTransformations, Setter.SetShaderColor, Setter.SetShaderTexture,
   Setter.SetShaderMaterial, Setter.SetTextureUVScale]

/-- The window of an entry that broadcasts everything but the material. -/
def windowWithoutMaterial : List Setter :=
  [Setter.SetTransformations, Setter.SetShaderColor, Setter.SetShaderTexture,
   Setter.SetTextureUVScale]

/-- A material over the rationals with all values 0 and an empty tag. -/
def plainMaterialQ : OBJECT_MATERIAL ℚ :=
  { ambientStrength := 0
    ambientColor := { x := 0, y := 0, z := 0 }
    diffuseColor := { x := 0, y := 0, z := 0 }
    specularColor := { x := 0, y := 0, z := 0 }
    shininess := 0
    tag := "" }

/-- The contents of the calls of `RenderScene`, evaluated over the rationals. -/
def sceneInfo : List CallInfo :=
  (RenderScene plainMaterialQ).map SceneCall.info

/-- A platform state in which the texture objects 7, 8 and 9 of `shadowedRegistry` exist. -/
def shadowedPlatform : Platform :=
  { freshPlatform with nextTexture := 10, textures := [7, 8, 9] }

/-- A registry over the rationals with no shader program attached (`m_pShaderManager` is `NULL`)
and one defined material. -/
def detachedRegistry : SceneManager ℚ :=
  { m_pShaderManager := none
    m_basicMeshes := { loaded := [], drawn := [] }
    m_loadedTextures := 0
    m_textureIDs := fun _ => { tag := "", ID := 0 }
    m_objectMaterials := [plainMaterialQ] }

/-- A new object over the rationals with a shader program attached, whose memory holds `counter`
at `m_loadedTextures` and 0 at every `ID`. -/
def newObject (counter : Int) : SceneManager ℚ :=
  ctor (some { writes := [] }) counter (fun _ => 0)

/-- The texture tags passed to `SetShaderTexture` by a sequence of calls. -/
def textureTags : List CallInfo → List String
  | [] => []
  | CallInfo.texture tag :: rest => tag :: textureTags rest
  | _ :: rest => textureTags rest

/-- The material tags passed to `SetShaderMaterial` by a sequence of calls. -/
def materialTags : List CallInfo → List String
  | [] => []
  | CallInfo.material tag :: rest => tag :: materialTags rest
  | _ :: rest => materialTags rest

/-! ## Lemmas on the scan loops -/

theorem FindTextureSlot_loop_found (ids : Fin 16 → TEXTURE_INFO) (tag : String) (k : Fin 16)
    (hk : (ids k).tag = tag) :
    ∀ (remaining index : Nat), index ≤ k.val → k.val < index + remaining →
      (∀ i : Fin 16, index ≤ i.val → i.val < k.val → (ids i).tag ≠ tag) →
      FindTextureSlot.loop ids tag remaining index = Except.ok (k.val : Int) := by
  intro remaining
  induction remaining with
  | zero => intro index h1 h2; omega
  | succ r ih =>
    intro index h1 h2 h3
    have hlt : index < 16 := lt_of_le_of_lt h1 k.isLt
    rw [FindTextureSlot.loop, dif_pos hlt]
    by_cases hik : index = k.val
    · have hfin : (⟨index, hlt⟩ : Fin 16) = k := Fin.ext hik
      rw [hfin, if_pos hk, hik]
    · have hne : (ids ⟨index, hlt⟩).tag ≠ tag :=
        h3 ⟨index, hlt⟩ (le_refl _) (lt_of_le_of_ne h1 hik)
      rw [if_neg hne]
      apply ih (index + 1)
      · exact Nat.succ_le_of_lt (lt_of_le_of_ne h1 hik)
      · omega
      · intro i hi1 hi2
        exact h3 i (by omega) hi2

theorem FindTextureID_loop_found (ids : Fin 16 → TEXTURE_INFO) (tag : String) (k : Fin 16)
    (hk : (ids k).tag = tag) :
    ∀ (remaining index : Nat), index ≤ k.val → k.val < index + remaining →
      (∀ i : Fin 16, index ≤ i.val → i.val < k.val → (ids i).tag ≠ tag) →
      FindTextureID.loop ids tag remaining index = Except.ok (int_of_uint32 (ids k).ID) := by
  intro remaining
  induction remaining with
  | zero => intro index h1 h2; omega
  | succ r ih =>
    intro index h1 h2 h3
    have hlt : index < 16 := lt_of_le_of_lt h1 k.isLt
    rw [FindTextureID.loop, dif_pos hlt]
    by_cases hik : index = k.val
    · have hfin : (⟨index, hlt⟩ : Fin 16) = k := Fin.ext hik
      rw [hfin, if_pos hk]
    · have hne : (ids ⟨index, hlt⟩).tag ≠ tag :=
        h3 ⟨index, hlt⟩ (le_refl _) (lt_of_le_of_ne h1 hik)
      rw [if_neg hne]
      apply ih (index + 1)
      · exact Nat.succ_le_of_lt (lt_of_le_of_ne h1 hik)
      · omega
      · intro i hi1 hi2
        exact h3 i (by omega) hi2

theorem FindTextureSlot_loop_absent (ids : Fin 16 → TEXTURE_INFO) (tag : String) :
    ∀ (remaining index : Nat), index + remaining ≤ 16 →
      (∀ i : Fin 16, index ≤ i.val → i.val < index + remaining → (ids i).tag ≠ tag) →
      FindTextureSlot.loop ids tag remaining index = Except.ok (-1) := by
  intro remaining
  induction remaining with
  | zero => intro index _ _; rfl
  | succ r ih =>
    intro index h1 h2
    have hlt : index < 16 := by omega
    rw [FindTextureSlot.loop, dif_pos hlt, if_neg (h2 ⟨index, hlt⟩ (le_refl _) (by simp))]
    apply ih (index + 1) (by omega)
    intro i hi1 hi2
    exact h2 i (by omega) (by omega)

theorem FindTextureID_loop_absent (ids : Fin 16 → TEXTURE_INFO) (tag : String) :
    ∀ (remaining index : Nat), index + remaining ≤ 16 →
      (∀ i : Fin 16, index ≤ i.val → i.val < index + remaining → (ids i).tag ≠ tag) →
      FindTextureID.loop ids tag remaining index = Except.ok (-1) := by
  intro remaining
  induction remaining with
  | zero => intro index _ _; rfl
  | succ r ih =>
    intro index h1 h2
    have hlt : index < 16 := by omega
    rw [FindTextureID.loop, dif_pos hlt, if_neg (h2 ⟨index, hlt⟩ (le_refl _) (by simp))]
    apply ih (index + 1) (by omega)
    intro i hi1 hi2
    exact h2 i (by omega) (by omega)

/-- Among the entries `index ..< index + remaining` of the array, either none has the tag or
there is a first one. -/
theorem first_match_or_absent (ids : Fin 16 → TEXTURE_INFO) (tag : String) :
    ∀ (remaining index : Nat), index + remaining ≤ 16 →
      (∀ i : Fin 16, index ≤ i.val → i.val < index + remaining → (ids i).tag ≠ tag) ∨
      ∃ k : Fin 16, index ≤ k.val ∧ k.val < index + remaining ∧ (ids k).tag = tag ∧
        ∀ i : Fin 16, index ≤ i.val → i.val < k.val → (ids i).tag ≠ tag := by
  intro remaining
  induction remaining with
  | zero => intro index _; left; intro i h1 h2; omega
  | succ r ih =>
    intro index h1
    have hlt : index < 16 := by omega
    by_cases h0 : (ids ⟨index, hlt⟩).tag = tag
    · right
      exact ⟨⟨index, hlt⟩, le_refl _, by simp, h0, fun i hi1 hi2 => by simp at hi2; omega⟩
    · rcases ih (index + 1) (by omega) with h | ⟨k, hk1, hk2, hk3, hk4⟩
      · left
        intro i hi1 hi2
        by_cases hi : i.val = index
        · have : i = ⟨index, hlt⟩ := Fin.ext hi
          rw [this]; exact h0
        · exact h i (by omega) (by omega)
      · right
        refine ⟨k, by omega, by omega, hk3, ?_⟩
        intro i hi1 hi2
        by_cases hi : i.val = index
        · have : i = ⟨index, hlt⟩ := Fin.ext hi
          rw [this]; exact h0
        · exact hk4 i (by omega) hi2

/-! ## Texture lookups -/

theorem FindTextureSlot_eq_of_first (s : SceneManager F) (tag : String) (k : Fin 16)
    (hk : (k.val : Int) < s.m_loadedTextures) (htag : (s.m_textureIDs k).tag = tag)
    (hfirst : ∀ i : Fin 16, i.val < k.val → (s.m_textureIDs i).tag ≠ tag) :
    FindTextureSlot s tag = Except.ok (k.val : Int) := by
  unfold FindTextureSlot
  apply FindTextureSlot_loop_found s.m_textureIDs tag k htag _ 0 (Nat.zero_le _)
  · omega
  · intro i _ hi; exact hfirst i hi

theorem FindTextureID_eq_of_first (s : SceneManager F) (tag : String) (k : Fin 16)
    (hk : (k.val : Int) < s.m_loadedTextures) (htag : (s.m_textureIDs k).tag = tag)
    (hfirst : ∀ i : Fin 16, i.val < k.val → (s.m_textureIDs i).tag ≠ tag) :
    FindTextureID s tag = Except.ok (int_of_uint32 (s.m_textureIDs k).ID) := by
  unfold FindTextureID
  apply FindTextureID_loop_found s.m_textureIDs tag k htag _ 0 (Nat.zero_le _)
  · omega
  · intro i _ hi; exact hfirst i hi

theorem FindTextureSlot_eq_of_absent (s : SceneManager F) (tag : String)
    (hcap : s.m_loadedTextures ≤ 16)
    (habsent : ∀ i : Fin 16, (i.val : Int) < s.m_loadedTextures → (s.m_textureIDs i).tag ≠ tag) :
    FindTextureSlot s tag = Except.ok (-1) := by
  unfold FindTextureSlot
  apply FindTextureSlot_loop_absent s.m_textureIDs tag _ 0 (by omega)
  intro i _ hi; exact habsent i (by omega)

theorem FindTextureID_eq_of_absent (s : SceneManager F) (tag : String)
    (hcap : s.m_loadedTextures ≤ 16)
    (habsent : ∀ i : Fin 16, (i.val : Int) < s.m_loadedTextures → (s.m_textureIDs i).tag ≠ tag) :
    FindTextureID s tag = Except.ok (-1) := by
  unfold FindTextureID
  apply FindTextureID_loop_absent s.m_textureIDs tag _ 0 (by omega)
  intro i _ hi; exact habsent i (by omega)

/-- In a registry within capacity, either no registered entry has the tag or there is a first
registered entry with it. -/
theorem registered_first_or_absent (s : SceneManager F) (tag : String)
    (hcap : s.m_loadedTextures ≤ 16) :
    (∀ i : Fin 16, (i.val : Int) < s.m_loadedTextures → (s.m_textureIDs i).tag ≠ tag) ∨
    ∃ k : Fin 16, (k.val : Int) < s.m_loadedTextures ∧ (s.m_textureIDs k).tag = tag ∧
      ∀ i : Fin 16, i.val < k.val → (s.m_textureIDs i).tag ≠ tag := by
  rcases first_match_or_absent s.m_textureIDs tag s.m_loadedTextures.toNat 0 (by omega) with
    h | ⟨k, _, hk2, hk3, hk4⟩
  · left; intro i hi; exact h i (Nat.zero_le _) (by omega)
  · right; exact ⟨k, by omega, hk3, fun i hi => hk4 i (Nat.zero_le _) hi⟩

theorem int_of_uint32_eq_neg_one (n : Nat) :
    int_of_uint32 n = -1 ↔ n % 2 ^ 32 = 4294967295 := by
  unfold int_of_uint32
  have hm : n % 2 ^ 32 < 2 ^ 32 := Nat.mod_lt _ (by norm_num)
  generalize n % 2 ^ 32 = m at hm ⊢
  split_ifs with h
  · constructor
    · intro h2; exact h2.elim
    · intro h2; omega
  · constructor
    · intro h2; omega
    · intro h2; subst h2; norm_num

theorem int_of_uint32_small (n : Nat) (h : n < 2 ^ 31) : int_of_uint32 n = (n : Int) := by
  unfold int_of_uint32
  have h1 : n % 2 ^ 32 = n := Nat.mod_eq_of_lt (by omega)
  rw [h1, if_pos h]

/-! ## Material lookup -/

/-- When `mi` is the first entry with the tag, the loop ends with the five property values of
`mi` and the tag the output had before. -/
theorem FindMaterial_loop_found (tag : String) (material : OBJECT_MATERIAL F) :
    ∀ (mats : List (OBJECT_MATERIAL F)) (i : Nat) (mi : OBJECT_MATERIAL F),
      mats[i]? = some mi → mi.tag = tag →
      (∀ (k : Nat) (mk : OBJECT_MATERIAL F), k < i → mats[k]? = some mk → mk.tag ≠ tag) →
      FindMaterial.loop tag mats material =
        { ambientStrength := mi.ambientStrength
          ambientColor := mi.ambientColor
          diffuseColor := mi.diffuseColor
          specularColor := mi.specularColor
          shininess := mi.shininess
          tag := material.tag } := by
  intro mats
  induction mats with
  | nil => intro i mi h; simp at h
  | cons m rest ih =>
    intro i mi h1 h2 h3
    cases i with
    | zero =>
      simp at h1
      subst h1
      rw [FindMaterial.loop, if_pos h2]
    | succ n =>
      have hm : m.tag ≠ tag := h3 0 m (Nat.succ_pos n) (by simp)
      rw [FindMaterial.loop, if_neg hm]
      apply ih n mi (by simpa using h1) h2
      intro k mk hk hk2
      exact h3 (k + 1) mk (by omega) (by simpa using hk2)

theorem FindMaterial_loop_absent (tag : String) (material : OBJECT_MATERIAL F) :
    ∀ (mats : List (OBJECT_MATERIAL F)), (∀ m ∈ mats, m.tag ≠ tag) →
      FindMaterial.loop tag mats material = material := by
  intro mats
  induction mats with
  | nil => intro _; rfl
  | cons m rest ih =>
    intro h
    rw [FindMaterial.loop, if_neg (h m (List.mem_cons_self m rest))]
    exact ih (fun x hx => h x (List.mem_cons_of_mem m hx))

/-! ## One `CreateGLTexture` call -/

theorem CreateGLTexture_of_not_decodable (stbi_load : String → Option Image)
    (filename tag : String) (s : SceneManager F) (p : Platform)
    (h : decodable stbi_load filename = false) :
    ∃ p1, CreateGLTexture stbi_load filename tag s p = Except.ok (false, s, p1) := by
  unfold decodable at h
  unfold CreateGLTexture
  cases hload : stbi_load filename with
  | none => exact ⟨_, rfl⟩
  | some image =>
    rw [hload] at h
    have hch : ¬ (image.colorChannels = 3 ∨ image.colorChannels = 4) := by simpa using h
    simp only [if_neg hch]
    exact ⟨_, rfl⟩

theorem CreateGLTexture_of_decodable (stbi_load : String → Option Image)
    (filename tag : String) (s : SceneManager F) (p : Platform)
    (h : decodable stbi_load filename = true)
    (h0 : 0 ≤ s.m_loadedTextures) (h16 : s.m_loadedTextures < 16) :
    ∃ (textureID : Nat) (p1 : Platform),
      CreateGLTexture stbi_load filename tag s p =
        Except.ok (true,
          { s with
            m_textureIDs := Function.update s.m_textureIDs
              ⟨s.m_loadedTextures.toNat, by omega⟩ { tag := tag, ID := textureID }
            m_loadedTextures := s.m_loadedTextures + 1 },
          p1) := by
  unfold decodable at h
  unfold CreateGLTexture
  cases hload : stbi_load filename with
  | none => rw [hload] at h; simp at h
  | some image =>
    rw [hload] at h
    have hch : image.colorChannels = 3 ∨ image.colorChannels = 4 := by simpa using h
    simp only [if_pos hch, dif_pos (And.intro h0 h16)]
    exact ⟨_, _, rfl⟩

theorem CreateGLTexture_of_full (stbi_load : String → Option Image)
    (filename tag : String) (s : SceneManager F) (p : Platform)
    (h : decodable stbi_load filename = true)
    (hfull : ¬ (0 ≤ s.m_loadedTextures ∧ s.m_loadedTextures < 16)) :
    CreateGLTexture stbi_load filename tag s p = Except.error Fault.outOfBounds := by
  unfold decodable at h
  unfold CreateGLTexture
  cases hload : stbi_load filename with
  | none => rw [hload] at h; simp at h
  | some image =>
    rw [hload] at h
    have hch : image.colorChannels = 3 ∨ image.colorChannels = 4 := by simpa using h
    simp only [if_pos hch, dif_neg hfull]

/-! ## Sequences of `CreateGLTexture` calls -/

theorem successfulLoads_cons_of_decodable (stbi_load : String → Option Image)
    (c : String × String) (rest : List (String × String))
    (h : decodable stbi_load c.1 = true) :
    successfulLoads stbi_load (c :: rest) = successfulLoads stbi_load rest + 1 := by
  simp [successfulLoads, List.filter_cons, h]

theorem successfulLoads_cons_of_not_decodable (stbi_load : String → Option Image)
    (c : String × String) (rest : List (String × String))
    (h : decodable stbi_load c.1 = false) :
    successfulLoads stbi_load (c :: rest) = successfulLoads stbi_load rest := by
  simp [successfulLoads, List.filter_cons, h]

theorem successfulLoads_append (stbi_load : String → Option Image)
    (a b : List (String × String)) :
    successfulLoads stbi_load (a ++ b) = successfulLoads stbi_load a + successfulLoads stbi_load b := by
  simp [successfulLoads, List.filter_append]

theorem loadTextures_append (stbi_load : String → Option Image) :
    ∀ (a b : List (String × String)) (s s1 : SceneManager F) (p p1 : Platform),
      loadTextures stbi_load a s p = Except.ok (s1, p1) →
      loadTextures stbi_load (a ++ b) s p = loadTextures stbi_load b s1 p1 := by
  intro a
  induction a with
  | nil =>
    intro b s s1 p p1 h
    simp only [loadTextures, Except.ok.injEq, Prod.mk.injEq] at h
    rw [List.nil_append, h.1, h.2]
  | cons c rest ih =>
    intro b s s1 p p1 h
    obtain ⟨filename, tag⟩ := c
    rw [List.cons_append, loadTextures]
    rw [loadTextures] at h
    cases hstep : CreateGLTexture stbi_load filename tag s p with
    | error e => rw [hstep] at h; simp at h
    | ok r =>
      obtain ⟨b0, s2, p2⟩ := r
      rw [hstep] at h
      exact ih b s2 s1 p2 p1 h

/-- A sequence of loads that stays within the capacity of the array ends without a fault, adds
the number of successful loads to the counter, leaves the entries below the old counter as they
were, and fills each new entry with the tag of a successful call of the sequence. -/
theorem loadTextures_within_capacity (stbi_load : String → Option Image) :
    ∀ (calls : List (String × String)) (s : SceneManager F) (p : Platform),
      0 ≤ s.m_loadedTextures →
      s.m_loadedTextures + (successfulLoads stbi_load calls : Int) ≤ 16 →
      ∃ (s1 : SceneManager F) (p1 : Platform),
        loadTextures stbi_load calls s p = Except.ok (s1, p1) ∧
        s1.m_loadedTextures = s.m_loadedTextures + (successfulLoads stbi_load calls : Int) ∧
        (∀ i : Fin 16, (i.val : Int) < s.m_loadedTextures → s1.m_textureIDs i = s.m_textureIDs i) ∧
        (∀ i : Fin 16, s.m_loadedTextures ≤ (i.val : Int) → (i.val : Int) < s1.m_loadedTextures →
          ∃ c ∈ calls, (s1.m_textureIDs i).tag = c.2) := by
  intro calls
  induction calls with
  | nil =>
    intro s p _ _
    refine ⟨s, p, rfl, by simp [successfulLoads], fun _ _ => rfl, ?_⟩
    intro i h1 h2
    omega
  | cons c rest ih =>
    intro s p h0 hcap
    obtain ⟨filename, tag⟩ := c
    cases hdec : decodable stbi_load filename with
    | false =>
      obtain ⟨p2, hstep⟩ := CreateGLTexture_of_not_decodable stbi_load filename tag s p hdec
      have hcount := successfulLoads_cons_of_not_decodable stbi_load (filename, tag) rest hdec
      rw [hcount] at hcap
      obtain ⟨s1, p1, hrun, hc, hkeep, hnew⟩ := ih s p2 h0 hcap
      refine ⟨s1, p1, ?_, ?_, hkeep, ?_⟩
      · rw [loadTextures, hstep]; exact hrun
      · rw [hcount]; exact hc
      · intro i h1 h2
        obtain ⟨c, hc1, hc2⟩ := hnew i h1 h2
        exact ⟨c, List.mem_cons_of_mem _ hc1, hc2⟩
    | true =>
      have hcount := successfulLoads_cons_of_decodable stbi_load (filename, tag) rest hdec
      rw [hcount] at hcap
      push_cast at hcap
      have h16 : s.m_loadedTextures < 16 := by omega
      obtain ⟨textureID, p2, hstep⟩ :=
        CreateGLTexture_of_decodable stbi_load filename tag s p hdec h0 h16
      obtain ⟨s1, p1, hrun, hc, hkeep, hnew⟩ := ih
        { s with
          m_textureIDs := Function.update s.m_textureIDs
            ⟨s.m_loadedTextures.toNat, by omega⟩ { tag := tag, ID := textureID }
          m_loadedTextures := s.m_loadedTextures + 1 } p2
        (show (0 : Int) ≤ s.m_loadedTextures + 1 by omega)
        (show s.m_loadedTextures + 1 + (successfulLoads stbi_load rest : Int) ≤ 16 by omega)
      refine ⟨s1, p1, ?_, ?_, ?_, ?_⟩
      · rw [loadTextures, hstep]; exact hrun
      · rw [hcount, hc]; push_cast; ring
      · intro i hi
        rw [hkeep i (show (i.val : Int) < s.m_loadedTextures + 1 by omega)]
        apply Function.update_noteq
        intro heq
        have : i.val = s.m_loadedTextures.toNat := congrArg Fin.val heq
        omega
      · intro i h1 h2
        by_cases hi : (i.val : Int) = s.m_loadedTextures
        · refine ⟨(filename, tag), List.mem_cons_self _ _, ?_⟩
          rw [hkeep i (show (i.val : Int) < s.m_loadedTextures + 1 by omega)]
          have heq : i = ⟨s.m_loadedTextures.toNat, by omega⟩ := Fin.ext (by simp only; omega)
          rw [heq]
          simp only [Function.update_same]
        · obtain ⟨c, hc1, hc2⟩ := hnew i (show s.m_loadedTextures + 1 ≤ (i.val : Int) by omega) h2
          exact ⟨c, List.mem_cons_of_mem _ hc1, hc2⟩

/-- From a counter of zero, the texture loaded by the call `(filename, tag)` of a sequence with
pairwise distinct tags and at most 16 successful loads is found at the slot equal to the number
of successful loads before it, whatever loads follow. -/
theorem FindTextureSlot_after_loads_from_zero (stbi_load : String → Option Image)
    (pre post : List (String × String)) (filename tag : String)
    (s0 : SceneManager F) (p0 : Platform)
    (hzero : s0.m_loadedTextures = 0)
    (hdistinct : ((pre ++ (filename, tag) :: post).map Prod.snd).Nodup)
    (hcap : successfulLoads stbi_load (pre ++ (filename, tag) :: post) ≤ 16)
    (hdec : decodable stbi_load filename = true) :
    ∃ (s : SceneManager F) (p : Platform),
      loadTextures stbi_load (pre ++ (filename, tag) :: post) s0 p0 = Except.ok (s, p) ∧
      FindTextureSlot s tag = Except.ok (successfulLoads stbi_load pre : Int) := by
  have hsplit : pre ++ (filename, tag) :: post = pre ++ ([(filename, tag)] ++ post) := by simp
  have hone : successfulLoads stbi_load [(filename, tag)] = 1 := by
    simp [successfulLoads, hdec]
  rw [hsplit, successfulLoads_append, successfulLoads_append, hone] at hcap
  obtain ⟨s1, p1, hrun1, hc1, _, hnew1⟩ :=
    loadTextures_within_capacity stbi_load pre s0 p0 (by omega) (by omega)
  obtain ⟨s2, p2, hrun2, hc2, hkeep2, hnew2⟩ :=
    loadTextures_within_capacity stbi_load [(filename, tag)] s1 p1 (by omega) (by omega)
  obtain ⟨s3, p3, hrun3, hc3, hkeep3, _⟩ :=
    loadTextures_within_capacity stbi_load post s2 p2 (by omega) (by omega)
  refine ⟨s3, p3, ?_, ?_⟩
  · rw [hsplit, loadTextures_append stbi_load pre _ s0 s1 p0 p1 hrun1,
      loadTextures_append stbi_load _ post s1 s2 p1 p2 hrun2]
    exact hrun3
  · have hk : successfulLoads stbi_load pre < 16 := by omega
    have hfound := FindTextureSlot_eq_of_first s3 tag ⟨successfulLoads stbi_load pre, hk⟩
      (by simp only; omega) ?_ ?_
    · exact hfound
    · rw [hkeep3 _ (by simp only; omega)]
      obtain ⟨c, hc, htag⟩ := hnew2 ⟨successfulLoads stbi_load pre, hk⟩
        (by simp only; omega) (by simp only; omega)
      rw [List.mem_singleton] at hc
      rw [htag, hc]
    · intro i hi
      simp only at hi
      rw [hkeep3 i (by omega), hkeep2 i (by omega)]
      obtain ⟨c, hc, htag⟩ := hnew1 i (by omega) (by omega)
      rw [htag]
      intro heq
      rw [List.map_append, List.nodup_append] at hdistinct
      exact hdistinct.2.2 (List.mem_map_of_mem Prod.snd hc)
        (by rw [heq]; simp)

/-! ## Claims on the texture registry -/

/-- C1 (evaluation at the failing input). The constructor leaves `m_loadedTextures`
uninitialised. When the object's memory holds 5 there, the first successful load on the newly
constructed object, tagged "a", is registered at slot 5: `FindTextureSlot("a")` returns 5, where
the registration order is 0. -/
theorem C1_first_load_on_new_object_with_counter_5 :
    ∃ (s : SceneManager Int) (p : Platform),
      loadTextures sampleFiles [("a.jpg", "a")] (ctor none 5 (fun _ => 0)) freshPlatform =
        Except.ok (s, p) ∧
      successfulLoads sampleFiles [] = 0 ∧
      FindTextureSlot s "a" = Except.ok 5 :=
  ⟨_, _, rfl, rfl, rfl⟩

/-- C2. When the image fails to decode, or decodes with a channel count other than 3 and 4,
`CreateGLTexture` returns false without a fault and leaves the load counter and the 16 entries as
they were; `FindTextureSlot` and `FindTextureID` answer every tag as before the call, and with
-1 for a tag no registered entry has (the registry being within its capacity). -/
theorem C2_failed_load_keeps_registry (stbi_load : String → Option Image)
    (filename tag : String) (s : SceneManager F) (p : Platform)
    (hfail : stbi_load filename = none ∨
      ∃ image, stbi_load filename = some image ∧
        image.colorChannels ≠ 3 ∧ image.colorChannels ≠ 4) :
    ∃ (s1 : SceneManager F) (p1 : Platform),
      CreateGLTexture stbi_load filename tag s p = Except.ok (false, s1, p1) ∧
      s1.m_loadedTextures = s.m_loadedTextures ∧
      s1.m_textureIDs = s.m_textureIDs ∧
      (∀ t : String, FindTextureSlot s1 t = FindTextureSlot s t ∧
        FindTextureID s1 t = FindTextureID s t) ∧
      (s.m_loadedTextures ≤ 16 → ∀ t : String,
        (∀ i : Fin 16, (i.val : Int) < s.m_loadedTextures → (s.m_textureIDs i).tag ≠ t) →
        FindTextureSlot s1 t = Except.ok (-1) ∧ FindTextureID s1 t = Except.ok (-1)) := by
  have hdec : decodable stbi_load filename = false := by
    unfold decodable
    rcases hfail with h | ⟨image, h, h3, h4⟩
    · rw [h]
    · rw [h]; simp [h3, h4]
  obtain ⟨p1, hstep⟩ := CreateGLTexture_of_not_decodable stbi_load filename tag s p hdec
  refine ⟨s, p1, hstep, rfl, rfl, fun _ => ⟨rfl, rfl⟩, ?_⟩
  intro hcap t habsent
  exact ⟨FindTextureSlot_eq_of_absent s t hcap habsent, FindTextureID_eq_of_absent s t hcap habsent⟩

/-- C2 at concrete inputs: a 1-channel file loaded into a registry of three textures. -/
theorem C2_failed_load_keeps_registry_witness :
    (sampleFiles "gray.png" = none ∨
      ∃ image, sampleFiles "gray.png" = some image ∧
        image.colorChannels ≠ 3 ∧ image.colorChannels ≠ 4) ∧
    ∃ (s1 : SceneManager Int) (p1 : Platform),
      CreateGLTexture sampleFiles "gray.png" "gray" shadowedRegistry freshPlatform =
        Except.ok (false, s1, p1) ∧
      s1.m_loadedTextures = 3 ∧ FindTextureSlot s1 "rocks" = Except.ok 1 :=
  have h : sampleFiles "gray.png" = none ∨
      ∃ image, sampleFiles "gray.png" = some image ∧
        image.colorChannels ≠ 3 ∧ image.colorChannels ≠ 4 :=
    Or.inr ⟨{ width := 2, height := 2, colorChannels := 1 }, rfl, by decide, by decide⟩
  ⟨h, by
    obtain ⟨s1, p1, h1, h2, _, h4, _⟩ :=
      C2_failed_load_keeps_registry sampleFiles "gray.png" "gray" shadowedRegistry freshPlatform h
    exact ⟨s1, p1, h1, h2, (h4 "rocks").1.trans rfl⟩⟩

/-- C3. Tag shadowing. Textures: when `tag` is registered at slots `i < j` and at no slot before
`i`, `FindTextureSlot` returns `i` (not `j`), `FindTextureID` returns the ID stored at slot `i`
(as the `int` the function returns; the ID itself when it is below 2^31), and neither answer
depends on what is stored at slot `j`. Materials: when `tag` is carried by the materials at
positions `i < j` and by none before `i`, `FindMaterial` returns true and writes the five
property values of the material at position `i` into the output, whatever material is at `j`. -/
theorem C3_tag_shadowing (s : SceneManager F) (tag : String) (material : OBJECT_MATERIAL F) :
    (∀ i j : Fin 16, i < j → (j.val : Int) < s.m_loadedTextures →
      (s.m_textureIDs i).tag = tag → (s.m_textureIDs j).tag = tag →
      (∀ k : Fin 16, k < i → (s.m_textureIDs k).tag ≠ tag) →
      FindTextureSlot s tag = Except.ok (i.val : Int) ∧
      FindTextureSlot s tag ≠ Except.ok (j.val : Int) ∧
      FindTextureID s tag = Except.ok (int_of_uint32 (s.m_textureIDs i).ID) ∧
      ((s.m_textureIDs i).ID < 2 ^ 31 →
        FindTextureID s tag = Except.ok ((s.m_textureIDs i).ID : Int)) ∧
      (∀ e : TEXTURE_INFO,
        FindTextureSlot { s with m_textureIDs := Function.update s.m_textureIDs j e } tag =
          FindTextureSlot s tag ∧
        FindTextureID { s with m_textureIDs := Function.update s.m_textureIDs j e } tag =
          FindTextureID s tag)) ∧
    (∀ (i j : Nat) (mi mj : OBJECT_MATERIAL F), i < j →
      s.m_objectMaterials[i]? = some mi → s.m_objectMaterials[j]? = some mj →
      mi.tag = tag → mj.tag = tag →
      (∀ (k : Nat) (mk : OBJECT_MATERIAL F), k < i →
        s.m_objectMaterials[k]? = some mk → mk.tag ≠ tag) →
      (FindMaterial s tag material).1 = true ∧
      (FindMaterial s tag material).2.ambientColor = mi.ambientColor ∧
      (FindMaterial s tag material).2.ambientStrength = mi.ambientStrength ∧
      (FindMaterial s tag material).2.diffuseColor = mi.diffuseColor ∧
      (FindMaterial s tag material).2.specularColor = mi.specularColor ∧
      (FindMaterial s tag material).2.shininess = mi.shininess ∧
      (∀ e : OBJECT_MATERIAL F,
        FindMaterial { s with m_objectMaterials := s.m_objectMaterials.set j e } tag material =
          FindMaterial s tag material)) := by
  constructor
  · intro i j hij hj hi_tag _ hfirst
    have hi : (i.val : Int) < s.m_loadedTextures := by
      have : i.val < j.val := hij
      omega
    have hslot := FindTextureSlot_eq_of_first s tag i hi hi_tag (fun k hk => hfirst k hk)
    have hid := FindTextureID_eq_of_first s tag i hi hi_tag (fun k hk => hfirst k hk)
    refine ⟨hslot, ?_, hid, ?_, ?_⟩
    · rw [hslot]
      intro heq
      have h1 : (i.val : Int) = (j.val : Int) := Except.ok.inj heq
      have h2 : i.val < j.val := hij
      omega
    · intro hsmall
      rw [hid, int_of_uint32_small _ hsmall]
    · intro e
      have hne : i ≠ j := ne_of_lt hij
      have hi_tag2 : (Function.update s.m_textureIDs j e i).tag = tag := by
        rw [Function.update_noteq hne]; exact hi_tag
      have hfirst2 : ∀ k : Fin 16, k.val < i.val → (Function.update s.m_textureIDs j e k).tag ≠ tag := by
        intro k hk
        have hkj : k ≠ j := ne_of_lt (lt_trans (show k < i from hk) hij)
        rw [Function.update_noteq hkj]
        exact hfirst k hk
      have hslot2 := FindTextureSlot_eq_of_first
        { s with m_textureIDs := Function.update s.m_textureIDs j e } tag i hi hi_tag2 hfirst2
      have hid2 := FindTextureID_eq_of_first
        { s with m_textureIDs := Function.update s.m_textureIDs j e } tag i hi hi_tag2 hfirst2
      refine ⟨by rw [hslot2, hslot], ?_⟩
      rw [hid2, hid]
      simp only [Function.update_noteq hne]
  · intro i j mi mj hij hi _ hi_tag _ hfirst
    have hne : s.m_objectMaterials ≠ [] := by
      intro h; rw [h] at hi; simp at hi
    have hlen : ¬ s.m_objectMaterials.length = 0 := by
      intro h; exact hne (List.length_eq_zero.mp h)
    have hloop := FindMaterial_loop_found tag material s.m_objectMaterials i mi hi hi_tag hfirst
    have hfind : FindMaterial s tag material =
        (true, FindMaterial.loop tag s.m_objectMaterials material) := by
      unfold FindMaterial; rw [if_neg hlen]
    refine ⟨?_, ?_, ?_, ?_, ?_, ?_, ?_⟩
    · rw [hfind]
    · rw [hfind, hloop]
    · rw [hfind, hloop]
    · rw [hfind, hloop]
    · rw [hfind, hloop]
    · rw [hfind, hloop]
    · intro e
      have hlen2 : ¬ (s.m_objectMaterials.set j e).length = 0 := by
        rw [List.length_set]; exact hlen
      have hi2 : (s.m_objectMaterials.set j e)[i]? = some mi := by
        rw [List.getElem?_set_ne (by omega)]; exact hi
      have hfirst2 : ∀ (k : Nat) (mk : OBJECT_MATERIAL F), k < i →
          (s.m_objectMaterials.set j e)[k]? = some mk → mk.tag ≠ tag := by
        intro k mk hk hmk
        rw [List.getElem?_set_ne (by omega)] at hmk
        exact hfirst k mk hk hmk
      have hloop2 := FindMaterial_loop_found tag material (s.m_objectMaterials.set j e) i mi
        hi2 hi_tag hfirst2
      unfold FindMaterial
      simp only [if_neg hlen, if_neg hlen2, hloop, hloop2]

/-- C3 at concrete inputs: "rocks" registered at slots 1 and 2 (IDs 8 and 9), "bark" defined at
positions 1 and 2 (all values 2, respectively 3). -/
theorem C3_tag_shadowing_witness :
    (FindTextureSlot shadowedRegistry "rocks" = Except.ok 1 ∧
      FindTextureID shadowedRegistry "rocks" = Except.ok 8) ∧
    (FindMaterial shadowedRegistry "bark" (plainMaterial "out" 0)).2.shininess = 2 := by
  constructor
  · have h := (C3_tag_shadowing shadowedRegistry "rocks" (plainMaterial "out" 0)).1 1 2
      (by decide) (by decide) (by decide) (by decide) (by decide)
    exact ⟨h.1, h.2.2.2.1 (by decide)⟩
  · have h := (C3_tag_shadowing shadowedRegistry "bark" (plainMaterial "out" 0)).2 1 2
      (plainMaterial "bark" 2) (plainMaterial "bark" 3) (by decide) rfl rfl rfl rfl
      (by
        intro k mk hk hmk
        have hk0 : k = 0 := by omega
        subst hk0
        have : mk = plainMaterial "cement" 1 := by
          simp [shadowedRegistry] at hmk
          exact hmk.symm
        rw [this]
        decide)
    exact h.2.2.2.2.2.1

/-- C4 (counterexample). A registry whose only entry is tagged "a" and stores the ID 4294967295:
`FindTextureID("a")` returns -1 although a registered entry has the tag, because the `uint32_t`
ID is returned as an `int`. -/
theorem C4_sentinel_collision :
    maxIDRegistry.m_loadedTextures = 1 ∧
    (maxIDRegistry.m_textureIDs 0).tag = "a" ∧
    FindTextureID maxIDRegistry "a" = Except.ok (-1) ∧
    ¬ (FindTextureID maxIDRegistry "a" = Except.ok (-1) ↔
      ∀ i : Fin 16, (i.val : Int) < maxIDRegistry.m_loadedTextures →
        (maxIDRegistry.m_textureIDs i).tag ≠ "a") := by
  refine ⟨rfl, rfl, rfl, ?_⟩
  intro h
  exact h.mp rfl 0 (by decide) rfl

/-- C4 (amended). In a registry with at most 16 loaded textures, `FindTextureSlot(tag)` returns
-1 exactly when no registered entry has the tag; `FindTextureID(tag)` returns -1 exactly when no
registered entry has the tag or the first registered entry with the tag stores the ID 2^32 - 1,
hence exactly when no registered entry has the tag if no registered ID is 2^32 - 1; both return
-1 for every tag when no texture is registered. -/
theorem C4_not_found_sentinel (s : SceneManager F) (tag : String)
    (hcap : s.m_loadedTextures ≤ 16) :
    (FindTextureSlot s tag = Except.ok (-1) ↔
      ∀ i : Fin 16, (i.val : Int) < s.m_loadedTextures → (s.m_textureIDs i).tag ≠ tag) ∧
    (FindTextureID s tag = Except.ok (-1) ↔
      ((∀ i : Fin 16, (i.val : Int) < s.m_loadedTextures → (s.m_textureIDs i).tag ≠ tag) ∨
       ∃ k : Fin 16, (k.val : Int) < s.m_loadedTextures ∧ (s.m_textureIDs k).tag = tag ∧
         (∀ i : Fin 16, i.val < k.val → (s.m_textureIDs i).tag ≠ tag) ∧
         (s.m_textureIDs k).ID % 2 ^ 32 = 4294967295)) ∧
    ((∀ i : Fin 16, (i.val : Int) < s.m_loadedTextures →
        (s.m_textureIDs i).ID % 2 ^ 32 ≠ 4294967295) →
      (FindTextureID s tag = Except.ok (-1) ↔
        ∀ i : Fin 16, (i.val : Int) < s.m_loadedTextures → (s.m_textureIDs i).tag ≠ tag)) ∧
    (s.m_loadedTextures = 0 →
      FindTextureSlot s tag = Except.ok (-1) ∧ FindTextureID s tag = Except.ok (-1)) := by
  have hslot : FindTextureSlot s tag = Except.ok (-1) ↔
      ∀ i : Fin 16, (i.val : Int) < s.m_loadedTextures → (s.m_textureIDs i).tag ≠ tag := by
    constructor
    · intro h
      rcases registered_first_or_absent s tag hcap with habs | ⟨k, hk, hktag, hfirst⟩
      · exact habs
      · rw [FindTextureSlot_eq_of_first s tag k hk hktag hfirst] at h
        have : (k.val : Int) = -1 := Except.ok.inj h
        omega
    · exact FindTextureSlot_eq_of_absent s tag hcap
  have hid : FindTextureID s tag = Except.ok (-1) ↔
      ((∀ i : Fin 16, (i.val : Int) < s.m_loadedTextures → (s.m_textureIDs i).tag ≠ tag) ∨
       ∃ k : Fin 16, (k.val : Int) < s.m_loadedTextures ∧ (s.m_textureIDs k).tag = tag ∧
         (∀ i : Fin 16, i.val < k.val → (s.m_textureIDs i).tag ≠ tag) ∧
         (s.m_textureIDs k).ID % 2 ^ 32 = 4294967295) := by
    constructor
    · intro h
      rcases registered_first_or_absent s tag hcap with habs | ⟨k, hk, hktag, hfirst⟩
      · exact Or.inl habs
      · rw [FindTextureID_eq_of_first s tag k hk hktag hfirst] at h
        have h1 : int_of_uint32 (s.m_textureIDs k).ID = -1 := Except.ok.inj h
        exact Or.inr ⟨k, hk, hktag, hfirst, (int_of_uint32_eq_neg_one _).mp h1⟩
    · rintro (habs | ⟨k, hk, hktag, hfirst, hmax⟩)
      · exact FindTextureID_eq_of_absent s tag hcap habs
      · rw [FindTextureID_eq_of_first s tag k hk hktag hfirst,
          (int_of_uint32_eq_neg_one _).mpr hmax]
  refine ⟨hslot, hid, ?_, ?_⟩
  · intro hno
    rw [hid]
    constructor
    · rintro (habs | ⟨k, hk, _, _, hmax⟩)
      · exact habs
      · exact absurd hmax (hno k hk)
    · exact Or.inl
  · intro hzero
    have habs : ∀ i : Fin 16, (i.val : Int) < s.m_loadedTextures → (s.m_textureIDs i).tag ≠ tag := by
      intro i hi; omega
    exact ⟨hslot.mpr habs, FindTextureID_eq_of_absent s tag hcap habs⟩

/-- C4 (amended) at concrete inputs: "tile" is not among "brick", "rocks", "rocks". -/
theorem C4_not_found_sentinel_witness :
    shadowedRegistry.m_loadedTextures ≤ 16 ∧
    FindTextureSlot shadowedRegistry "tile" = Except.ok (-1) ∧
    FindTextureID shadowedRegistry "tile" = Except.ok (-1) := by
  have hcap : shadowedRegistry.m_loadedTextures ≤ 16 := by decide
  have h := C4_not_found_sentinel shadowedRegistry "tile" hcap
  have habs : ∀ i : Fin 16, (i.val : Int) < shadowedRegistry.m_loadedTextures →
      (shadowedRegistry.m_textureIDs i).tag ≠ "tile" := by decide
  exact ⟨hcap, h.1.mpr habs, h.2.1.mpr (Or.inl habs)⟩

/-- C5 (evaluation at the failing input). With all 16 slots taken, a further load of a decodable
3-channel image is not rejected with `false`: the call goes on to store into
`m_textureIDs[16]`, one past the end of the array. -/
theorem C5_load_into_full_registry :
    fullRegistry.m_loadedTextures = 16 ∧
    decodable sampleFiles "a.jpg" = true ∧
    CreateGLTexture sampleFiles "a.jpg" "a" fullRegistry freshPlatform =
      Except.error Fault.outOfBounds :=
  ⟨rfl, rfl, rfl⟩

/-! ## Claims on the material registry and `SetShaderMaterial` -/

/-- C6. `FindMaterial` returns false exactly when the material list is empty; for a non-empty
list it returns true whether or not an entry has the tag; and when no entry has the tag the
caller's output material is left as it was. -/
theorem C6_FindMaterial_return_value (s : SceneManager F) (tag : String)
    (material : OBJECT_MATERIAL F) :
    ((FindMaterial s tag material).1 = false ↔ s.m_objectMaterials = []) ∧
    (s.m_objectMaterials ≠ [] → (FindMaterial s tag material).1 = true) ∧
    ((∀ m ∈ s.m_objectMaterials, m.tag ≠ tag) → (FindMaterial s tag material).2 = material) := by
  by_cases hlen : s.m_objectMaterials.length = 0
  · have hnil : s.m_objectMaterials = [] := List.length_eq_zero.mp hlen
    have hfind : FindMaterial s tag material = (false, material) := by
      unfold FindMaterial; rw [if_pos hlen]
    rw [hfind]
    exact ⟨⟨fun _ => hnil, fun _ => rfl⟩, fun h => absurd hnil h, fun _ => rfl⟩
  · have hne : s.m_objectMaterials ≠ [] := fun h => hlen (List.length_eq_zero.mpr h)
    have hfind : FindMaterial s tag material =
        (true, FindMaterial.loop tag s.m_objectMaterials material) := by
      unfold FindMaterial; rw [if_neg hlen]
    rw [hfind]
    refine ⟨⟨fun h => ?_, fun h => absurd h hne⟩, fun _ => rfl, ?_⟩
    · exact absurd h (by simp)
    · intro habs
      exact FindMaterial_loop_absent tag material s.m_objectMaterials habs

/-- C6 at concrete inputs: a list of three materials, none tagged "glass". -/
theorem C6_FindMaterial_return_value_witness :
    shadowedRegistry.m_objectMaterials ≠ [] ∧
    (∀ m ∈ shadowedRegistry.m_objectMaterials, m.tag ≠ "glass") ∧
    (FindMaterial shadowedRegistry "glass" (plainMaterial "out" 0)).1 = true ∧
    (FindMaterial shadowedRegistry "glass" (plainMaterial "out" 0)).2 = plainMaterial "out" 0 :=
  have hne : shadowedRegistry.m_objectMaterials ≠ [] := by decide
  have habs : ∀ m ∈ shadowedRegistry.m_objectMaterials, m.tag ≠ "glass" := by decide
  have h := C6_FindMaterial_return_value shadowedRegistry "glass" (plainMaterial "out" 0)
  ⟨hne, habs, h.2.1 hne, h.2.2 habs⟩

/-- C7. With an empty material list `SetShaderMaterial(tag)` ends without a fault and returns
the object as it was, for every tag, every content of the uninitialised local and every shader
pointer (also `NULL`): no uniform write is issued. -/
theorem C7_SetShaderMaterial_empty_registry (uninitialised : OBJECT_MATERIAL F)
    (materialTag : String) (s : SceneManager F) (hempty : s.m_objectMaterials = []) :
    SetShaderMaterial uninitialised materialTag s = Except.ok s := by
  unfold SetShaderMaterial
  rw [hempty]
  rfl

/-- C7 at concrete inputs: a newly constructed object (its material vector is empty). -/
theorem C7_SetShaderMaterial_empty_registry_witness :
    (ctor (some { writes := [] }) 0 (fun _ => 0) : SceneManager Int).m_objectMaterials = [] ∧
    SetShaderMaterial (plainMaterial "" 99) "anything"
        (ctor (some { writes := [] }) 0 (fun _ => 0) : SceneManager Int) =
      Except.ok (ctor (some { writes := [] }) 0 (fun _ => 0)) :=
  ⟨rfl, C7_SetShaderMaterial_empty_registry (plainMaterial "" 99) "anything"
    (ctor (some { writes := [] }) 0 (fun _ => 0)) rfl⟩

/-- C8. With a shader program attached, a non-empty material list and `mi` the first entry
carrying the tag, `SetShaderMaterial(tag)` ends without a fault and appends exactly five uniform
writes: material.ambientColor, material.ambientStrength, material.diffuseColor,
material.specularColor and material.shininess, each with the corresponding field of `mi`. -/
theorem C8_SetShaderMaterial_writes_first_match (uninitialised : OBJECT_MATERIAL F)
    (materialTag : String) (s : SceneManager F) (sm : ShaderManager F)
    (i : Nat) (mi : OBJECT_MATERIAL F)
    (hshader : s.m_pShaderManager = some sm)
    (hi : s.m_objectMaterials[i]? = some mi) (htag : mi.tag = materialTag)
    (hfirst : ∀ (k : Nat) (mk : OBJECT_MATERIAL F), k < i →
      s.m_objectMaterials[k]? = some mk → mk.tag ≠ materialTag) :
    SetShaderMaterial uninitialised materialTag s =
      Except.ok { s with
        m_pShaderManager := some
          { writes := sm.writes ++
              [("material.ambientColor", UniformValue.vec3 mi.ambientColor),
               ("material.ambientStrength", UniformValue.float mi.ambientStrength),
               ("material.diffuseColor", UniformValue.vec3 mi.diffuseColor),
               ("material.specularColor", UniformValue.vec3 mi.specularColor),
               ("material.shininess", UniformValue.float mi.shininess)] } } := by
  have hne : s.m_objectMaterials ≠ [] := by
    intro h; rw [h] at hi; simp at hi
  have hpos : s.m_objectMaterials.length > 0 := List.length_pos.mpr hne
  have hlen : ¬ s.m_objectMaterials.length = 0 := by omega
  have hloop := FindMaterial_loop_found materialTag uninitialised s.m_objectMaterials i mi
    hi htag hfirst
  unfold SetShaderMaterial FindMaterial
  simp only [if_pos hpos, if_neg hlen, hloop, hshader, if_true,
    ShaderManager.setVec3Value, ShaderManager.setFloatValue, ShaderManager.setUniform,
    List.append_assoc]
  rfl

/-- C8 at concrete inputs: "bark" is first defined at position 1, with all values 2. -/
theorem C8_SetShaderMaterial_writes_first_match_witness :
    shadowedRegistry.m_pShaderManager = some { writes := [] } ∧
    shadowedRegistry.m_objectMaterials[1]? = some (plainMaterial "bark" 2) ∧
    SetShaderMaterial (plainMaterial "" 99) "bark" shadowedRegistry =
      Except.ok { shadowedRegistry with
        m_pShaderManager := some
          { writes :=
              [("material.ambientColor", UniformValue.vec3 { x := 2, y := 2, z := 2 }),
               ("material.ambientStrength", UniformValue.float 2),
               ("material.diffuseColor", UniformValue.vec3 { x := 2, y := 2, z := 2 }),
               ("material.specularColor", UniformValue.vec3 { x := 2, y := 2, z := 2 }),
               ("material.shininess", UniformValue.float 2)] } } :=
  ⟨rfl, rfl, C8_SetShaderMaterial_writes_first_match (plainMaterial "" 99) "bark"
    shadowedRegistry { writes := [] } 1 (plainMaterial "bark" 2) rfl rfl rfl (by
      intro k mk hk hmk
      have hk0 : k = 0 := by omega
      subst hk0
      have : mk = plainMaterial "cement" 1 := by
        simp [shadowedRegistry] at hmk
        exact hmk.symm
      rw [this]
      decide)⟩

/-- C9 (evaluation at the failing input). The material list holds "cement", "bark", "bark" and
the tag "glass" matches none of them. `FindMaterial` still returns true, so `SetShaderMaterial`
writes all five material uniforms, with the content of its uninitialised local (here 99
everywhere), which is no value of a defined material. -/
theorem C9_SetShaderMaterial_unresolved_tag :
    (∀ m ∈ shadowedRegistry.m_objectMaterials, m.tag ≠ "glass" ∧ m.shininess ≠ 99) ∧
    SetShaderMaterial (plainMaterial "" 99) "glass" shadowedRegistry =
      Except.ok { shadowedRegistry with
        m_pShaderManager := some
          { writes :=
              [("material.ambientColor", UniformValue.vec3 { x := 99, y := 99, z := 99 }),
               ("material.ambientStrength", UniformValue.float 99),
               ("material.diffuseColor", UniformValue.vec3 { x := 99, y := 99, z := 99 }),
               ("material.specularColor", UniformValue.vec3 { x := 99, y := 99, z := 99 }),
               ("material.shininess", UniformValue.float 99)] } } :=
  ⟨by decide, rfl⟩

/-! ## Claims on the transform composer -/

theorem toMatrix_mul [Field F] (a b : Mat4 F) :
    (glm.mul a b).toMatrix = a.toMatrix * b.toMatrix := by
  ext i j
  rw [Matrix.mul_apply, Fin.sum_univ_four]
  fin_cases i <;> fin_cases j <;> rfl

theorem glm_translate_columns [Field F] (v : Vec3 F) :
    glm.translate v =
      { c0 := { x := 1, y := 0, z := 0, w := 0 }
        c1 := { x := 0, y := 1, z := 0, w := 0 }
        c2 := { x := 0, y := 0, z := 1, w := 0 }
        c3 := { x := v.x, y := v.y, z := v.z, w := 1 } } := by
  simp [glm.translate, glm.identity, glm.Vec4.add, glm.Vec4.scale]

theorem glm_scale_columns [Field F] (v : Vec3 F) :
    glm.scale v =
      { c0 := { x := v.x, y := 0, z := 0, w := 0 }
        c1 := { x := 0, y := v.y, z := 0, w := 0 }
        c2 := { x := 0, y := 0, z := v.z, w := 0 }
        c3 := { x := 0, y := 0, z := 0, w := 1 } } := by
  simp [glm.scale, glm.identity, glm.Vec4.scale]

theorem glm_rotate_X_columns [Field F] (ops : FloatOps F) (hsqrt : ops.sqrt 1 = 1) (theta : F) :
    glm.rotate ops theta { x := 1, y := 0, z := 0 } =
      { c0 := { x := 1, y := 0, z := 0, w := 0 }
        c1 := { x := 0, y := ops.cos theta, z := ops.sin theta, w := 0 }
        c2 := { x := 0, y := -ops.sin theta, z := ops.cos theta, w := 0 }
        c3 := { x := 0, y := 0, z := 0, w := 1 } } := by
  simp [glm.rotate, glm.normalize, glm.identity, glm.Vec4.add, glm.Vec4.scale, hsqrt]

theorem glm_rotate_Y_columns [Field F] (ops : FloatOps F) (hsqrt : ops.sqrt 1 = 1) (theta : F) :
    glm.rotate ops theta { x := 0, y := 1, z := 0 } =
      { c0 := { x := ops.cos theta, y := 0, z := -ops.sin theta, w := 0 }
        c1 := { x := 0, y := 1, z := 0, w := 0 }
        c2 := { x := ops.sin theta, y := 0, z := ops.cos theta, w := 0 }
        c3 := { x := 0, y := 0, z := 0, w := 1 } } := by
  simp [glm.rotate, glm.normalize, glm.identity, glm.Vec4.add, glm.Vec4.scale, hsqrt]

theorem glm_rotate_Z_columns [Field F] (ops : FloatOps F) (hsqrt : ops.sqrt 1 = 1) (theta : F) :
    glm.rotate ops theta { x := 0, y := 0, z := 1 } =
      { c0 := { x := ops.cos theta, y := ops.sin theta, z := 0, w := 0 }
        c1 := { x := -ops.sin theta, y := ops.cos theta, z := 0, w := 0 }
        c2 := { x := 0, y := 0, z := 1, w := 0 }
        c3 := { x := 0, y := 0, z := 0, w := 1 } } := by
  simp [glm.rotate, glm.normalize, glm.identity, glm.Vec4.add, glm.Vec4.scale, hsqrt]

theorem toMatrix_translate [Field F] (v : Vec3 F) :
    (glm.translate v).toMatrix = specTranslate v := by
  rw [glm_translate_columns]
  ext i j
  fin_cases i <;> fin_cases j <;> rfl

theorem toMatrix_scale [Field F] (v : Vec3 F) :
    (glm.scale v).toMatrix = specScale v := by
  rw [glm_scale_columns]
  ext i j
  fin_cases i <;> fin_cases j <;> rfl

theorem toMatrix_rotate_X [Field F] (ops : FloatOps F) (hsqrt : ops.sqrt 1 = 1) (theta : F) :
    (glm.rotate ops theta { x := 1, y := 0, z := 0 }).toMatrix =
      specRotateX ops.cos ops.sin theta := by
  rw [glm_rotate_X_columns ops hsqrt]
  ext i j
  fin_cases i <;> fin_cases j <;> rfl

theorem toMatrix_rotate_Y [Field F] (ops : FloatOps F) (hsqrt : ops.sqrt 1 = 1) (theta : F) :
    (glm.rotate ops theta { x := 0, y := 1, z := 0 }).toMatrix =
      specRotateY ops.cos ops.sin theta := by
  rw [glm_rotate_Y_columns ops hsqrt]
  ext i j
  fin_cases i <;> fin_cases j <;> rfl

theorem toMatrix_rotate_Z [Field F] (ops : FloatOps F) (hsqrt : ops.sqrt 1 = 1) (theta : F) :
    (glm.rotate ops theta { x := 0, y := 0, z := 1 }).toMatrix =
      specRotateZ ops.cos ops.sin theta := by
  rw [glm_rotate_Z_columns ops hsqrt]
  ext i j
  fin_cases i <;> fin_cases j <;> rfl

/-- The matrix `SetTransformations` computes is the product of the specification, over every
field and for every `cos` and `sin`, as soon as `sqrt 1 = 1` (the axes are unit vectors). -/
theorem modelView_eq_specModel [Field F] (ops : FloatOps F) (hsqrt : ops.sqrt 1 = 1)
    (scaleXYZ : Vec3 F) (rx ry rz : F) (positionXYZ : Vec3 F) :
    (SetTransformations.modelView ops scaleXYZ rx ry rz positionXYZ).toMatrix =
      specModel ops scaleXYZ rx ry rz positionXYZ := by
  have hx : ∀ d : F, glm.radians ops d = d * ops.pi / 180 :=
    fun d => (mul_div_assoc d _ _).symm
  unfold SetTransformations.modelView specModel
  simp only [toMatrix_mul, toMatrix_translate, toMatrix_scale, toMatrix_rotate_X ops hsqrt,
    toMatrix_rotate_Y ops hsqrt, toMatrix_rotate_Z ops hsqrt, hx]

/-- C10. Read over the reals (`cos`, `sin`, `sqrt` and pi those of the real numbers), with a
shader program attached, `SetTransformations` appends exactly one uniform write, to "model", and
the matrix written is `Translate(position) * RotateX(rx) * RotateY(ry) * RotateZ(rz) *
Scale(scale)`: each rotation the elementary rotation about the world X, Y or Z axis by the angle
in degrees times pi / 180, in this left-to-right order. -/
theorem C10_model_is_translate_rotXYZ_scale (s : SceneManager ℝ) (sm : ShaderManager ℝ)
    (scaleXYZ : Vec3 ℝ) (rx ry rz : ℝ) (positionXYZ : Vec3 ℝ) :
    ∃ M : Mat4 ℝ,
      SetTransformations
          { cos := Real.cos, sin := Real.sin, sqrt := Real.sqrt, pi := Real.pi }
          scaleXYZ rx ry rz positionXYZ { s with m_pShaderManager := some sm } =
        { s with
          m_pShaderManager := some { writes := sm.writes ++ [("model", UniformValue.mat4 M)] } } ∧
      M.toMatrix =
        specTranslate positionXYZ *
          specRotateX Real.cos Real.sin (rx * Real.pi / 180) *
          specRotateY Real.cos Real.sin (ry * Real.pi / 180) *
          specRotateZ Real.cos Real.sin (rz * Real.pi / 180) *
          specScale scaleXYZ :=
  ⟨SetTransformations.modelView
      { cos := Real.cos, sin := Real.sin, sqrt := Real.sqrt, pi := Real.pi }
      scaleXYZ rx ry rz positionXYZ,
    rfl,
    modelView_eq_specModel
      { cos := Real.cos, sin := Real.sin, sqrt := Real.sqrt, pi := Real.pi }
      Real.sqrt_one scaleXYZ rx ry rz positionXYZ⟩


/-- The product of two matrices given by their entries. -/
theorem glm_mul_columns [Field F]
    (a00 a01 a02 a03 a10 a11 a12 a13 a20 a21 a22 a23 a30 a31 a32 a33 : F)
    (b00 b01 b02 b03 b10 b11 b12 b13 b20 b21 b22 b23 b30 b31 b32 b33 : F) :
    glm.mul
      { c0 := { x := a00, y := a01, z := a02, w := a03 }
        c1 := { x := a10, y := a11, z := a12, w := a13 }
        c2 := { x := a20, y := a21, z := a22, w := a23 }
        c3 := { x := a30, y := a31, z := a32, w := a33 } }
      { c0 := { x := b00, y := b01, z := b02, w := b03 }
        c1 := { x := b10, y := b11, z := b12, w := b13 }
        c2 := { x := b20, y := b21, z := b22, w := b23 }
        c3 := { x := b30, y := b31, z := b32, w := b33 } } =
      { c0 := { x := a00 * b00 + a10 * b01 + a20 * b02 + a30 * b03
                y := a01 * b00 + a11 * b01 + a21 * b02 + a31 * b03
                z := a02 * b00 + a12 * b01 + a22 * b02 + a32 * b03
                w := a03 * b00 + a13 * b01 + a23 * b02 + a33 * b03 }
        c1 := { x := a00 * b10 + a10 * b11 + a20 * b12 + a30 * b13
                y := a01 * b10 + a11 * b11 + a21 * b12 + a31 * b13
                z := a02 * b10 + a12 * b11 + a22 * b12 + a32 * b13
                w := a03 * b10 + a13 * b11 + a23 * b12 + a33 * b13 }
        c2 := { x := a00 * b20 + a10 * b21 + a20 * b22 + a30 * b23
                y := a01 * b20 + a11 * b21 + a21 * b22 + a31 * b23
                z := a02 * b20 + a12 * b21 + a22 * b22 + a32 * b23
                w := a03 * b20 + a13 * b21 + a23 * b22 + a33 * b23 }
        c3 := { x := a00 * b30 + a10 * b31 + a20 * b32 + a30 * b33
                y := a01 * b30 + a11 * b31 + a21 * b32 + a31 * b33
                z := a02 * b30 + a12 * b31 + a22 * b32 + a32 * b33
                w := a03 * b30 + a13 * b31 + a23 * b32 + a33 * b33 } } :=
  rfl

/-- The columns of the matrix `SetTransformations` computes, in closed form. -/
theorem modelView_columns [Field F] (ops : FloatOps F) (hsqrt : ops.sqrt 1 = 1)
    (scaleXYZ : Vec3 F) (rx ry rz : F) (positionXYZ : Vec3 F) :
    SetTransformations.modelView ops scaleXYZ rx ry rz positionXYZ =
      { c0 :=
          { x := scaleXYZ.x * (ops.cos (glm.radians ops ry) * ops.cos (glm.radians ops rz))
            y := scaleXYZ.x * (ops.cos (glm.radians ops rx) * ops.sin (glm.radians ops rz) +
              ops.sin (glm.radians ops rx) * ops.sin (glm.radians ops ry) *
                ops.cos (glm.radians ops rz))
            z := scaleXYZ.x * (ops.sin (glm.radians ops rx) * ops.sin (glm.radians ops rz) -
              ops.cos (glm.radians ops rx) * ops.sin (glm.radians ops ry) *
                ops.cos (glm.radians ops rz))
            w := 0 }
        c1 :=
          { x := scaleXYZ.y * (-(ops.cos (glm.radians ops ry) * ops.sin (glm.radians ops rz)))
            y := scaleXYZ.y * (ops.cos (glm.radians ops rx) * ops.cos (glm.radians ops rz) -
              ops.sin (glm.radians ops rx) * ops.sin (glm.radians ops ry) *
                ops.sin (glm.radians ops rz))
            z := scaleXYZ.y * (ops.sin (glm.radians ops rx) * ops.cos (glm.radians ops rz) +
              ops.cos (glm.radians ops rx) * ops.sin (glm.radians ops ry) *
                ops.sin (glm.radians ops rz))
            w := 0 }
        c2 :=
          { x := scaleXYZ.z * ops.sin (glm.radians ops ry)
            y := scaleXYZ.z * (-(ops.sin (glm.radians ops rx) * ops.cos (glm.radians ops ry)))
            z := scaleXYZ.z * (ops.cos (glm.radians ops rx) * ops.cos (glm.radians ops ry))
            w := 0 }
        c3 := { x := positionXYZ.x, y := positionXYZ.y, z := positionXYZ.z, w := 1 } } := by
  unfold SetTransformations.modelView
  simp only [glm_translate_columns, glm_scale_columns, glm_rotate_X_columns ops hsqrt,
    glm_rotate_Y_columns ops hsqrt, glm_rotate_Z_columns ops hsqrt, glm_mul_columns,
    mul_zero, zero_mul, mul_one, one_mul, add_zero, zero_add]
  generalize ops.cos (glm.radians ops rx) = cx
  generalize ops.sin (glm.radians ops rx) = sx
  generalize ops.cos (glm.radians ops ry) = cy
  generalize ops.sin (glm.radians ops ry) = sy
  generalize ops.cos (glm.radians ops rz) = cz
  generalize ops.sin (glm.radians ops rz) = sz
  simp only [Mat4.mk.injEq, Vec4.mk.injEq]
  refine ⟨⟨?_, ?_, ?_, trivial⟩, ⟨?_, ?_, ?_, trivial⟩, ⟨?_, ?_, ?_, trivial⟩, trivial⟩ <;> ring

/-- With unit scale, zero angles and zero position the computed matrix is `mat4(1)`, over every
field, as soon as `cos 0 = 1`, `sin 0 = 0` and `sqrt 1 = 1`. -/
theorem modelView_identity [Field F] (ops : FloatOps F) (hsqrt : ops.sqrt 1 = 1)
    (hcos : ops.cos 0 = 1) (hsin : ops.sin 0 = 0) :
    SetTransformations.modelView ops { x := 1, y := 1, z := 1 } 0 0 0 { x := 0, y := 0, z := 0 } =
      glm.identity := by
  have h0 : glm.radians ops (0 : F) = 0 := by simp only [glm.radians, zero_mul]
  rw [modelView_columns ops hsqrt]
  simp [h0, hcos, hsin, glm.identity]

theorem toMatrix_identity [Field F] : (glm.identity : Mat4 F).toMatrix = 1 := by
  ext i j
  fin_cases i <;> fin_cases j <;> rfl

/-- C11. Read over the reals, with a shader program attached, `SetTransformations` with scale
(1,1,1), rotations (0,0,0) and position (0,0,0) appends exactly one uniform write, to "model",
and the matrix written is `mat4(1)`, the 4x4 identity matrix. -/
theorem C11_unit_transform_is_identity (s : SceneManager ℝ) (sm : ShaderManager ℝ) :
    SetTransformations
        { cos := Real.cos, sin := Real.sin, sqrt := Real.sqrt, pi := Real.pi }
        { x := 1, y := 1, z := 1 } 0 0 0 { x := 0, y := 0, z := 0 }
        { s with m_pShaderManager := some sm } =
      { s with
        m_pShaderManager :=
          some { writes := sm.writes ++ [("model", UniformValue.mat4 glm.identity)] } } ∧
    (glm.identity : Mat4 ℝ).toMatrix = 1 := by
  refine ⟨?_, toMatrix_identity⟩
  have h := modelView_identity
    ({ cos := Real.cos, sin := Real.sin, sqrt := Real.sqrt, pi := Real.pi } : FloatOps ℝ)
    Real.sqrt_one Real.cos_zero Real.sin_zero
  simp only [SetTransformations, h]
  rfl

/-- C12. Read over the reals, the matrix `SetTransformations` writes for scale (1,1,1), rotation
(0,90,0) degrees and position (0,0,0) maps the point (1,0,0) (homogeneous coordinate 1) to
(0,0,-1) exactly: the Y rotation is right-handed about the world Y axis. -/
theorem C12_quarter_turn_about_Y (s : SceneManager ℝ) (sm : ShaderManager ℝ) :
    ∃ M : Mat4 ℝ,
      SetTransformations
          { cos := Real.cos, sin := Real.sin, sqrt := Real.sqrt, pi := Real.pi }
          { x := 1, y := 1, z := 1 } 0 90 0 { x := 0, y := 0, z := 0 }
          { s with m_pShaderManager := some sm } =
        { s with
          m_pShaderManager := some { writes := sm.writes ++ [("model", UniformValue.mat4 M)] } } ∧
      Matrix.mulVec M.toMatrix ![1, 0, 0, 1] = ![0, 0, -1, 1] := by
  refine ⟨_, rfl, ?_⟩
  rw [modelView_columns _ Real.sqrt_one]
  have h90 : glm.radians { cos := Real.cos, sin := Real.sin, sqrt := Real.sqrt, pi := Real.pi }
      (90 : ℝ) = Real.pi / 2 := by
    simp only [glm.radians]; ring
  have h0 : glm.radians { cos := Real.cos, sin := Real.sin, sqrt := Real.sqrt, pi := Real.pi }
      (0 : ℝ) = 0 := by
    simp only [glm.radians]; ring
  simp only [h90, h0, Real.cos_pi_div_two, Real.sin_pi_div_two, Real.cos_zero, Real.sin_zero]
  ext i
  fin_cases i <;> simp [Mat4.toMatrix, Matrix.mulVec, Matrix.dotProduct, Fin.sum_univ_four]

/-- Over the reals the fourth column of the computed matrix is the position with 1, and the
squared lengths of the first three columns are the squares of the scale factors. -/
theorem modelView_columns_lengthSq (scaleXYZ : Vec3 ℝ) (rx ry rz : ℝ) (positionXYZ : Vec3 ℝ) :
    (SetTransformations.modelView
        { cos := Real.cos, sin := Real.sin, sqrt := Real.sqrt, pi := Real.pi }
        scaleXYZ rx ry rz positionXYZ).c3 =
      { x := positionXYZ.x, y := positionXYZ.y, z := positionXYZ.z, w := 1 } ∧
    Vec4.lengthSq (SetTransformations.modelView
        { cos := Real.cos, sin := Real.sin, sqrt := Real.sqrt, pi := Real.pi }
        scaleXYZ rx ry rz positionXYZ).c0 = scaleXYZ.x ^ 2 ∧
    Vec4.lengthSq (SetTransformations.modelView
        { cos := Real.cos, sin := Real.sin, sqrt := Real.sqrt, pi := Real.pi }
        scaleXYZ rx ry rz positionXYZ).c1 = scaleXYZ.y ^ 2 ∧
    Vec4.lengthSq (SetTransformations.modelView
        { cos := Real.cos, sin := Real.sin, sqrt := Real.sqrt, pi := Real.pi }
        scaleXYZ rx ry rz positionXYZ).c2 = scaleXYZ.z ^ 2 := by
  rw [modelView_columns _ Real.sqrt_one]
  simp only [Vec4.lengthSq]
  have hx := Real.cos_sq_add_sin_sq
    (glm.radians { cos := Real.cos, sin := Real.sin, sqrt := Real.sqrt, pi := Real.pi } rx)
  have hy := Real.cos_sq_add_sin_sq
    (glm.radians { cos := Real.cos, sin := Real.sin, sqrt := Real.sqrt, pi := Real.pi } ry)
  have hz := Real.cos_sq_add_sin_sq
    (glm.radians { cos := Real.cos, sin := Real.sin, sqrt := Real.sqrt, pi := Real.pi } rz)
  generalize Real.cos (glm.radians _ rx) = cx at hx ⊢
  generalize Real.sin (glm.radians _ rx) = sx at hx ⊢
  generalize Real.cos (glm.radians _ ry) = cy at hy ⊢
  generalize Real.sin (glm.radians _ ry) = sy at hy ⊢
  generalize Real.cos (glm.radians _ rz) = cz at hz ⊢
  generalize Real.sin (glm.radians _ rz) = sz at hz ⊢
  refine ⟨trivial, ?_, ?_, ?_⟩
  · linear_combination scaleXYZ.x ^ 2 * (sz ^ 2 + sy ^ 2 * cz ^ 2) * hx +
      scaleXYZ.x ^ 2 * cz ^ 2 * hy + scaleXYZ.x ^ 2 * hz
  · linear_combination scaleXYZ.y ^ 2 * (cz ^ 2 + sy ^ 2 * sz ^ 2) * hx +
      scaleXYZ.y ^ 2 * sz ^ 2 * hy + scaleXYZ.y ^ 2 * hz
  · linear_combination scaleXYZ.z ^ 2 * cy ^ 2 * hx + scaleXYZ.z ^ 2 * hy

/-- C13. Read over the reals, with a shader program attached: for every scale, rotation triple
and position the matrix `SetTransformations` writes to "model" has the fourth column
(p.x, p.y, p.z, 1) and the Euclidean length of its first, second, third column is |s.x|, |s.y|,
|s.z|. For the center block of `RenderQuadrantOne` (scale (20,0.5,20), zero rotation, position
(55,0.5,35)) the fourth column is (55,0.5,35,1) and the three lengths are 20, 0.5 and 20. -/
theorem C13_translation_column_and_column_lengths (s : SceneManager ℝ) (sm : ShaderManager ℝ)
    (scaleXYZ : Vec3 ℝ) (rx ry rz : ℝ) (positionXYZ : Vec3 ℝ) :
    (∃ M : Mat4 ℝ,
      SetTransformations
          { cos := Real.cos, sin := Real.sin, sqrt := Real.sqrt, pi := Real.pi }
          scaleXYZ rx ry rz positionXYZ { s with m_pShaderManager := some sm } =
        { s with
          m_pShaderManager := some { writes := sm.writes ++ [("model", UniformValue.mat4 M)] } } ∧
      M.c3 = { x := positionXYZ.x, y := positionXYZ.y, z := positionXYZ.z, w := 1 } ∧
      Real.sqrt (Vec4.lengthSq M.c0) = |scaleXYZ.x| ∧
      Real.sqrt (Vec4.lengthSq M.c1) = |scaleXYZ.y| ∧
      Real.sqrt (Vec4.lengthSq M.c2) = |scaleXYZ.z|) ∧
    (∃ M : Mat4 ℝ,
      SetTransformations
          { cos := Real.cos, sin := Real.sin, sqrt := Real.sqrt, pi := Real.pi }
          { x := 20, y := 0.5, z := 20 } 0 0 0 { x := 55, y := 0.5, z := 35 }
          { s with m_pShaderManager := some sm } =
        { s with
          m_pShaderManager := some { writes := sm.writes ++ [("model", UniformValue.mat4 M)] } } ∧
      M.c3 = { x := 55, y := 0.5, z := 35, w := 1 } ∧
      Real.sqrt (Vec4.lengthSq M.c0) = 20 ∧
      Real.sqrt (Vec4.lengthSq M.c1) = 0.5 ∧
      Real.sqrt (Vec4.lengthSq M.c2) = 20) := by
  constructor
  · obtain ⟨h3, h0, h1, h2⟩ := modelView_columns_lengthSq scaleXYZ rx ry rz positionXYZ
    refine ⟨_, rfl, h3, ?_, ?_, ?_⟩
    · rw [h0, Real.sqrt_sq_eq_abs]
    · rw [h1, Real.sqrt_sq_eq_abs]
    · rw [h2, Real.sqrt_sq_eq_abs]
  · obtain ⟨h3, h0, h1, h2⟩ := modelView_columns_lengthSq
      { x := 20, y := 0.5, z := 20 } 0 0 0 { x := 55, y := 0.5, z := 35 }
    refine ⟨_, rfl, h3, ?_, ?_, ?_⟩
    · rw [h0]; exact Real.sqrt_sq (by norm_num)
    · rw [h1]; exact Real.sqrt_sq (by norm_num)
    · rw [h2]; exact Real.sqrt_sq (by norm_num)

/-! ## Uniform state of the write log -/

theorem uniform_append (xs ys : List (String × UniformValue F)) (name : String) :
    ShaderManager.uniform { writes := xs ++ ys } name =
      (ShaderManager.uniform { writes := ys } name).or
        (ShaderManager.uniform { writes := xs } name) := by
  unfold ShaderManager.uniform
  simp only [List.reverse_append, List.find?_append]
  cases List.find? (fun w => w.1 == name) ys.reverse <;> rfl

theorem uniform_eq_none_of_not_mem (ys : List (String × UniformValue F)) (name : String)
    (h : ∀ w ∈ ys, w.1 ≠ name) :
    ShaderManager.uniform { writes := ys } name = none := by
  unfold ShaderManager.uniform
  have : List.find? (fun w => w.1 == name) ys.reverse = none := by
    rw [List.find?_eq_none]
    intro w hw
    have := h w (List.mem_reverse.mp hw)
    simpa using this
  rw [this]; rfl

theorem uniform_singleton_self (name : String) (v : UniformValue F) :
    ShaderManager.uniform { writes := [(name, v)] } name = some v := by
  simp [ShaderManager.uniform]

theorem uniform_singleton_other (name other : String) (v : UniformValue F) (h : other ≠ name) :
    ShaderManager.uniform { writes := [(other, v)] } name = none :=
  uniform_eq_none_of_not_mem _ _ (by
    intro w hw
    rw [List.mem_singleton] at hw
    rw [hw]; exact h)

/-- After two writes to different names, the first name holds the first value, the second name
the second value, and every other name what it held before. -/
theorem uniform_after_two_writes (ws : List (String × UniformValue F)) (n1 n2 : String)
    (v1 v2 : UniformValue F) (hne : n1 ≠ n2) :
    ShaderManager.uniform { writes := ws ++ [(n1, v1), (n2, v2)] } n1 = some v1 ∧
    ShaderManager.uniform { writes := ws ++ [(n1, v1), (n2, v2)] } n2 = some v2 ∧
    ∀ name : String, name ≠ n1 → name ≠ n2 →
      ShaderManager.uniform { writes := ws ++ [(n1, v1), (n2, v2)] } name =
        ShaderManager.uniform { writes := ws } name := by
  have hsplit : ws ++ [(n1, v1), (n2, v2)] = (ws ++ [(n1, v1)]) ++ [(n2, v2)] := by simp
  refine ⟨?_, ?_, ?_⟩
  · rw [hsplit, uniform_append, uniform_singleton_other n1 n2 v2 (Ne.symm hne), uniform_append,
      uniform_singleton_self]
    rfl
  · rw [hsplit, uniform_append, uniform_singleton_self]
    rfl
  · intro name h1 h2
    rw [hsplit, uniform_append, uniform_singleton_other name n2 v2 (Ne.symm h2), uniform_append,
      uniform_singleton_other name n1 v1 (Ne.symm h1)]
    rfl

/-! ## Claims on `SetShaderColor` and `SetShaderTexture` -/

/-- C14. With a shader program attached, `SetShaderColor(r, g, b, a)` appends exactly two
uniform writes, 0 (false) to "bUseTexture" and (r, g, b, a) to "objectColor": afterwards these
two uniforms hold these values and every other uniform holds what it held before. -/
theorem C14_SetShaderColor_effect (r g b a : F) (s : SceneManager F) (sm : ShaderManager F) :
    ∃ sm1 : ShaderManager F,
      SetShaderColor r g b a { s with m_pShaderManager := some sm } =
        { s with m_pShaderManager := some sm1 } ∧
      sm1.writes = sm.writes ++
        [("bUseTexture", UniformValue.int 0),
         ("objectColor", UniformValue.vec4 { x := r, y := g, z := b, w := a })] ∧
      sm1.uniform "bUseTexture" = some (UniformValue.int 0) ∧
      sm1.uniform "objectColor" = some (UniformValue.vec4 { x := r, y := g, z := b, w := a }) ∧
      ∀ name : String, name ≠ "bUseTexture" → name ≠ "objectColor" →
        sm1.uniform name = sm.uniform name := by
  obtain ⟨h1, h2, h3⟩ := uniform_after_two_writes sm.writes "bUseTexture" "objectColor"
    (UniformValue.int 0) (UniformValue.vec4 { x := r, y := g, z := b, w := a }) (by decide)
  refine ⟨{ writes := sm.writes ++
    [("bUseTexture", UniformValue.int 0),
     ("objectColor", UniformValue.vec4 { x := r, y := g, z := b, w := a })] },
    ?_, rfl, h1, h2, h3⟩
  simp only [SetShaderColor, ShaderManager.setIntValue, ShaderManager.setVec4Value,
    ShaderManager.setUniform, List.append_assoc]
  rfl

/-- C14 at concrete inputs: the color (1, 1, 1, 1) on a shader program that has "bUseTexture"
at 1 and "UVscale" written. -/
theorem C14_SetShaderColor_effect_witness :
    ∃ sm1 : ShaderManager Int,
      SetShaderColor (1 : Int) 1 1 1 { shadowedRegistry with
          m_pShaderManager := some { writes :=
            [("bUseTexture", UniformValue.int 1),
             ("UVscale", UniformValue.vec2 { x := (2 : Int), y := 3 })] } } =
        { shadowedRegistry with m_pShaderManager := some sm1 } ∧
      sm1.uniform "bUseTexture" = some (UniformValue.int 0) ∧
      sm1.uniform "objectColor" =
        some (UniformValue.vec4 { x := (1 : Int), y := 1, z := 1, w := 1 }) ∧
      sm1.uniform "UVscale" = some (UniformValue.vec2 { x := (2 : Int), y := 3 }) := by
  obtain ⟨sm1, hrun, _, h1, h2, h3⟩ := C14_SetShaderColor_effect (1 : Int) 1 1 1 shadowedRegistry
    { writes := [("bUseTexture", UniformValue.int 1),
        ("UVscale", UniformValue.vec2 { x := (2 : Int), y := 3 })] }
  exact ⟨sm1, hrun, h1, h2, (h3 "UVscale" (by decide) (by decide)).trans rfl⟩

theorem SetShaderTexture_attached (textureTag : String) (s : SceneManager F)
    (sm : ShaderManager F) (textureID : Int) (hshader : s.m_pShaderManager = some sm)
    (hslot : FindTextureSlot s textureTag = Except.ok textureID) :
    SetShaderTexture textureTag s =
      Except.ok { s with
        m_pShaderManager := some
          { writes := sm.writes ++
              [("bUseTexture", UniformValue.int 1),
               ("objectTexture", UniformValue.sampler2D textureID)] } } := by
  unfold SetShaderTexture
  simp only [hshader, hslot, ShaderManager.setIntValue, ShaderManager.setSampler2DValue,
    ShaderManager.setUniform, List.append_assoc]
  rfl

/-- A tag carried by a registered entry has a first registered entry carrying it. -/
theorem registered_has_first (s : SceneManager F) (tag : String)
    (hreg : ∃ k : Fin 16, (k.val : Int) < s.m_loadedTextures ∧ (s.m_textureIDs k).tag = tag) :
    ∃ first : Fin 16, (first.val : Int) < s.m_loadedTextures ∧
      (s.m_textureIDs first).tag = tag ∧
      ∀ i : Fin 16, i.val < first.val → (s.m_textureIDs i).tag ≠ tag := by
  obtain ⟨k, hk, hktag⟩ := hreg
  rcases first_match_or_absent s.m_textureIDs tag (k.val + 1) 0 (by omega) with
    habs | ⟨first, _, hf2, hf3, hf4⟩
  · exact absurd hktag (habs k (Nat.zero_le _) (by omega))
  · exact ⟨first, by omega, hf3, fun i hi => hf4 i (Nat.zero_le _) hi⟩

/-- C15. With a shader program attached and `textureTag` carried by a registered entry,
`SetShaderTexture(textureTag)` ends without a fault and appends exactly two uniform writes,
1 (true) to "bUseTexture" and to the sampler "objectTexture" the value of
`FindTextureSlot(textureTag)`, which is the index of the first registered entry carrying the
tag; afterwards the two uniforms hold these values. -/
theorem C15_SetShaderTexture_registered_tag (textureTag : String) (s : SceneManager F)
    (sm : ShaderManager F) (hshader : s.m_pShaderManager = some sm)
    (hreg : ∃ k : Fin 16, (k.val : Int) < s.m_loadedTextures ∧
      (s.m_textureIDs k).tag = textureTag) :
    ∃ (first : Fin 16) (s1 : SceneManager F),
      (first.val : Int) < s.m_loadedTextures ∧
      (s.m_textureIDs first).tag = textureTag ∧
      (∀ i : Fin 16, i.val < first.val → (s.m_textureIDs i).tag ≠ textureTag) ∧
      FindTextureSlot s textureTag = Except.ok (first.val : Int) ∧
      SetShaderTexture textureTag s = Except.ok s1 ∧
      s1 = { s with
        m_pShaderManager := some
          { writes := sm.writes ++
              [("bUseTexture", UniformValue.int 1),
               ("objectTexture", UniformValue.sampler2D (first.val : Int))] } } ∧
      uniformState s1 "bUseTexture" = some (UniformValue.int 1) ∧
      uniformState s1 "objectTexture" = some (UniformValue.sampler2D (first.val : Int)) := by
  obtain ⟨first, hf1, hf2, hf3⟩ := registered_has_first s textureTag hreg
  have hslot := FindTextureSlot_eq_of_first s textureTag first hf1 hf2 hf3
  obtain ⟨h1, h2, _⟩ := uniform_after_two_writes sm.writes "bUseTexture" "objectTexture"
    (UniformValue.int 1) (UniformValue.sampler2D (first.val : Int)) (by decide)
  exact ⟨first, _, hf1, hf2, hf3, hslot,
    SetShaderTexture_attached textureTag s sm _ hshader hslot, rfl, h1, h2⟩

/-- C15 at concrete inputs: "brick", "rocks", "tile" registered in this order on an object whose
counter starts at 0; `SetShaderTexture("rocks")` sets the flag to 1 and the sampler to 1. -/
theorem C15_SetShaderTexture_registered_tag_witness :
    (∃ p : Platform,
      loadTextures rgbFiles brickRocksTile (ctor (some { writes := [] }) 0 (fun _ => 0))
        freshPlatform = Except.ok (afterBrickRocksTile, p)) ∧
    afterBrickRocksTile.m_pShaderManager = some { writes := [] } ∧
    (∃ k : Fin 16, (k.val : Int) < afterBrickRocksTile.m_loadedTextures ∧
      (afterBrickRocksTile.m_textureIDs k).tag = "rocks") ∧
    ∃ s1 : SceneManager Int,
      SetShaderTexture "rocks" afterBrickRocksTile = Except.ok s1 ∧
      uniformState s1 "bUseTexture" = some (UniformValue.int 1) ∧
      uniformState s1 "objectTexture" = some (UniformValue.sampler2D 1) := by
  have hreg : ∃ k : Fin 16, (k.val : Int) < afterBrickRocksTile.m_loadedTextures ∧
      (afterBrickRocksTile.m_textureIDs k).tag = "rocks" := ⟨1, by decide, by decide⟩
  refine ⟨⟨_, rfl⟩, rfl, hreg, ?_⟩
  obtain ⟨first, s1, _, _, _, hslot, hset, _, hu1, hu2⟩ :=
    C15_SetShaderTexture_registered_tag "rocks" afterBrickRocksTile { writes := [] } rfl hreg
  have hone : FindTextureSlot afterBrickRocksTile "rocks" = Except.ok 1 := rfl
  have hfirst : (first.val : Int) = 1 := Except.ok.inj (hslot.symm.trans hone)
  rw [hfirst] at hu2
  exact ⟨s1, hset, hu1, hu2⟩

/-- C16. With a shader program attached, a registry within its capacity and `textureTag`
carried by no registered entry, `SetShaderTexture(textureTag)` ends without a fault and appends
exactly two uniform writes, 1 (true) to "bUseTexture" and -1 to the sampler "objectTexture";
afterwards the two uniforms hold these values. -/
theorem C16_SetShaderTexture_unregistered_tag (textureTag : String) (s : SceneManager F)
    (sm : ShaderManager F) (hshader : s.m_pShaderManager = some sm)
    (hcap : s.m_loadedTextures ≤ 16)
    (habsent : ∀ i : Fin 16, (i.val : Int) < s.m_loadedTextures →
      (s.m_textureIDs i).tag ≠ textureTag) :
    ∃ s1 : SceneManager F,
      SetShaderTexture textureTag s = Except.ok s1 ∧
      s1 = { s with
        m_pShaderManager := some
          { writes := sm.writes ++
              [("bUseTexture", UniformValue.int 1),
               ("objectTexture", UniformValue.sampler2D (-1))] } } ∧
      uniformState s1 "bUseTexture" = some (UniformValue.int 1) ∧
      uniformState s1 "objectTexture" = some (UniformValue.sampler2D (-1)) := by
  have hslot := FindTextureSlot_eq_of_absent s textureTag hcap habsent
  obtain ⟨h1, h2, _⟩ := uniform_after_two_writes sm.writes "bUseTexture" "objectTexture"
    (UniformValue.int 1) (UniformValue.sampler2D (-1)) (by decide)
  exact ⟨_, SetShaderTexture_attached textureTag s sm _ hshader hslot, rfl, h1, h2⟩

/-- C16 at concrete inputs: "tile" is not among the registered "brick", "rocks", "rocks". -/
theorem C16_SetShaderTexture_unregistered_tag_witness :
    shadowedRegistry.m_pShaderManager = some { writes := [] } ∧
    shadowedRegistry.m_loadedTextures ≤ 16 ∧
    (∀ i : Fin 16, (i.val : Int) < shadowedRegistry.m_loadedTextures →
      (shadowedRegistry.m_textureIDs i).tag ≠ "tile") ∧
    ∃ s1 : SceneManager Int,
      SetShaderTexture "tile" shadowedRegistry = Except.ok s1 ∧
      uniformState s1 "bUseTexture" = some (UniformValue.int 1) ∧
      uniformState s1 "objectTexture" = some (UniformValue.sampler2D (-1)) := by
  have hcap : shadowedRegistry.m_loadedTextures ≤ 16 := by decide
  have habs : ∀ i : Fin 16, (i.val : Int) < shadowedRegistry.m_loadedTextures →
      (shadowedRegistry.m_textureIDs i).tag ≠ "tile" := by decide
  obtain ⟨s1, hset, _, hu1, hu2⟩ :=
    C16_SetShaderTexture_unregistered_tag "tile" shadowedRegistry { writes := [] } rfl hcap habs
  exact ⟨rfl, hcap, habs, s1, hset, hu1, hu2⟩

/-! ## Order of the setter calls -/

theorem uniform_append_comm (base wa wb : List (String × UniformValue F)) (name : String)
    (hdisjoint : ∀ w ∈ wa, ∀ w2 ∈ wb, w.1 ≠ w2.1) :
    ShaderManager.uniform { writes := (base ++ wa) ++ wb } name =
      ShaderManager.uniform { writes := (base ++ wb) ++ wa } name := by
  rw [uniform_append, uniform_append, uniform_append, uniform_append]
  by_cases hn : ∃ w ∈ wb, w.1 = name
  · obtain ⟨w2, hw2, hw2n⟩ := hn
    have ha : ShaderManager.uniform { writes := wa } name = none :=
      uniform_eq_none_of_not_mem wa name (fun w hw => by
        rw [← hw2n]; exact hdisjoint w hw w2 hw2)
    rw [ha]
    rfl
  · have hb : ShaderManager.uniform { writes := wb } name = none :=
      uniform_eq_none_of_not_mem wb name (fun w hw hwn => hn ⟨w, hw, hwn⟩)
    rw [hb]
    rfl

theorem Setter_names_disjoint (a b : Setter) (hdistinct : a ≠ b)
    (h1 : ¬ (a = Setter.SetShaderColor ∧ b = Setter.SetShaderTexture))
    (h2 : ¬ (a = Setter.SetShaderTexture ∧ b = Setter.SetShaderColor)) :
    ∀ n ∈ a.names, n ∉ b.names := by
  cases a <;> cases b <;> simp_all [Setter.names]

/-- With a shader program attached a setter call either faults (only `SetShaderTexture` can) or
appends a list of writes to names of its setter; fault and list do not depend on the state of
the shader program. -/
theorem SetterCall_run_attached [Field F] (ops : FloatOps F) (c : SetterCall F)
    (meshes : ShapeMeshes) (count : Int) (ids : Fin 16 → TEXTURE_INFO)
    (mats : List (OBJECT_MATERIAL F)) :
    ∃ r : Except Fault (List (String × UniformValue F)),
      (∀ ws, r = Except.ok ws → ∀ w ∈ ws, w.1 ∈ c.setter.names) ∧
      (∀ e, r = Except.error e → c.setter = Setter.SetShaderTexture) ∧
      ∀ sm : ShaderManager F,
        c.run ops ⟨some sm, meshes, count, ids, mats⟩ =
          r.map (fun ws => ⟨some { writes := sm.writes ++ ws }, meshes, count, ids, mats⟩) := by
  cases c with
  | SetTransformations scaleXYZ X Y Z positionXYZ =>
    refine ⟨Except.ok [("model", UniformValue.mat4
      (SetTransformations.modelView ops scaleXYZ X Y Z positionXYZ))], ?_, ?_, fun sm => rfl⟩
    · intro ws hws w hw
      cases hws
      simp only [List.mem_singleton] at hw
      subst hw
      simp [SetterCall.setter, Setter.names]
    · intro e he; cases he
  | SetShaderColor r g b a =>
    refine ⟨Except.ok [("bUseTexture", UniformValue.int 0),
      ("objectColor", UniformValue.vec4 { x := r, y := g, z := b, w := a })], ?_, ?_, ?_⟩
    · intro ws hws w hw
      cases hws
      simp only [List.mem_cons, List.mem_singleton, List.not_mem_nil, or_false] at hw
      rcases hw with hw | hw <;> subst hw <;> simp [SetterCall.setter, Setter.names]
    · intro e he; cases he
    · intro sm
      simp only [SetterCall.run, SceneManager.SetShaderColor, ShaderManager.setIntValue,
        ShaderManager.setVec4Value, ShaderManager.setUniform, List.append_assoc]
      rfl
  | SetShaderTexture textureTag =>
    refine ⟨(FindTextureSlot.loop ids textureTag count.toNat 0).map (fun textureID =>
      [("bUseTexture", UniformValue.int 1),
       ("objectTexture", UniformValue.sampler2D textureID)]), ?_, ?_, ?_⟩
    · intro ws hws w hw
      cases hloop : FindTextureSlot.loop ids textureTag count.toNat 0 with
      | error e => rw [hloop] at hws; cases hws
      | ok textureID =>
        rw [hloop] at hws
        cases hws
        simp only [List.mem_cons, List.mem_singleton, List.not_mem_nil, or_false] at hw
        rcases hw with hw | hw <;> subst hw <;> simp [SetterCall.setter, Setter.names]
    · intro e _; rfl
    · intro sm
      simp only [SetterCall.run, SceneManager.SetShaderTexture, FindTextureSlot,
        ShaderManager.setIntValue, ShaderManager.setSampler2DValue, ShaderManager.setUniform,
        List.append_assoc]
      cases FindTextureSlot.loop ids textureTag count.toNat 0 <;> rfl
  | SetTextureUVScale u v =>
    refine ⟨Except.ok [("UVscale", UniformValue.vec2 { x := u, y := v })], ?_, ?_, fun sm => rfl⟩
    · intro ws hws w hw
      cases hws
      simp only [List.mem_singleton] at hw
      subst hw
      simp [SetterCall.setter, Setter.names]
    · intro e he; cases he
  | SetShaderMaterial uninitialised materialTag =>
    by_cases hlen : mats.length > 0
    · refine ⟨Except.ok
        [("material.ambientColor", UniformValue.vec3
            (FindMaterial.loop materialTag mats uninitialised).ambientColor),
         ("material.ambientStrength", UniformValue.float
            (FindMaterial.loop materialTag mats uninitialised).ambientStrength),
         ("material.diffuseColor", UniformValue.vec3
            (FindMaterial.loop materialTag mats uninitialised).diffuseColor),
         ("material.specularColor", UniformValue.vec3
            (FindMaterial.loop materialTag mats uninitialised).specularColor),
         ("material.shininess", UniformValue.float
            (FindMaterial.loop materialTag mats uninitialised).shininess)], ?_, ?_, ?_⟩
      · intro ws hws w hw
        cases hws
        simp only [List.mem_cons, List.mem_singleton, List.not_mem_nil, or_false] at hw
        rcases hw with hw | hw | hw | hw | hw <;> subst hw <;>
          simp [SetterCall.setter, Setter.names]
      · intro e he; cases he
      · intro sm
        have hne : ¬ mats.length = 0 := by omega
        simp only [SetterCall.run, SceneManager.SetShaderMaterial, FindMaterial, if_pos hlen,
          if_neg hne, if_true, ShaderManager.setVec3Value, ShaderManager.setFloatValue,
          ShaderManager.setUniform, List.append_assoc]
        rfl
    · refine ⟨Except.ok [], ?_, ?_, ?_⟩
      · intro ws hws w hw
        cases hws
        simp at hw
      · intro e he; cases he
      · intro sm
        simp only [SetterCall.run, SceneManager.SetShaderMaterial, if_neg hlen, Except.map,
          List.append_nil]

/-- Without a shader program a setter call leaves the object as it is, or it is a
`SetShaderMaterial` call that dereferences the null pointer. -/
theorem SetterCall_run_detached [Field F] (ops : FloatOps F) (c : SetterCall F)
    (meshes : ShapeMeshes) (count : Int) (ids : Fin 16 → TEXTURE_INFO)
    (mats : List (OBJECT_MATERIAL F)) :
    c.run ops ⟨none, meshes, count, ids, mats⟩ = Except.ok ⟨none, meshes, count, ids, mats⟩ ∨
    (c.setter = Setter.SetShaderMaterial ∧
      c.run ops ⟨none, meshes, count, ids, mats⟩ = Except.error Fault.nullDereference) := by
  cases c with
  | SetTransformations scaleXYZ X Y Z positionXYZ => exact Or.inl rfl
  | SetShaderColor r g b a => exact Or.inl rfl
  | SetShaderTexture textureTag => exact Or.inl rfl
  | SetTextureUVScale u v => exact Or.inl rfl
  | SetShaderMaterial uninitialised materialTag =>
    by_cases hlen : mats.length > 0
    · right
      have hne : ¬ mats.length = 0 := by omega
      refine ⟨rfl, ?_⟩
      simp only [SetterCall.run, SceneManager.SetShaderMaterial, FindMaterial, if_pos hlen,
        if_neg hne, if_true]
    · left
      simp only [SetterCall.run, SceneManager.SetShaderMaterial, if_neg hlen]

/-- C17 (counterexample). `SetShaderColor` and `SetShaderTexture` both write "bUseTexture":
on the registry with "rocks" registered, the color call followed by the texture call leaves the
flag at 1, the texture call followed by the color call leaves it at 0. -/
theorem C17_color_and_texture_do_not_commute :
    (SetShaderTexture "rocks" (SetShaderColor 1 1 1 1 shadowedRegistry)).map
        (fun s => uniformState s "bUseTexture") = Except.ok (some (UniformValue.int 1)) ∧
    (SetShaderTexture "rocks" shadowedRegistry).map
        (fun s => uniformState (SetShaderColor 1 1 1 1 s) "bUseTexture") =
      Except.ok (some (UniformValue.int 0)) :=
  ⟨rfl, rfl⟩

/-- Two calls of distinct setters other than the pair `SetShaderColor` / `SetShaderTexture`,
each made with the same content of the uninitialised local in both orders, give the same outcome
in either order. -/
theorem setters_commute_same_local [Field F] (ops : FloatOps F)
    (a b : SetterCall F) (s : SceneManager F)
    (hdistinct : a.setter ≠ b.setter)
    (hpair1 : ¬ (a.setter = Setter.SetShaderColor ∧ b.setter = Setter.SetShaderTexture))
    (hpair2 : ¬ (a.setter = Setter.SetShaderTexture ∧ b.setter = Setter.SetShaderColor)) :
    ((a.run ops s).bind (b.run ops)).map uniformState =
      ((b.run ops s).bind (a.run ops)).map uniformState := by
  obtain ⟨shader, meshes, count, ids, mats⟩ := s
  cases shader with
  | none =>
    rcases SetterCall_run_detached ops a meshes count ids mats with ha | ⟨ha1, ha⟩ <;>
      rcases SetterCall_run_detached ops b meshes count ids mats with hb | ⟨hb1, hb⟩
    · simp only [ha, hb, Except.bind]
    · simp only [ha, hb, Except.bind]
    · simp only [ha, hb, Except.bind]
    · exact absurd (ha1.trans hb1.symm) hdistinct
  | some sm =>
    obtain ⟨ra, hra1, hra2, hra⟩ := SetterCall_run_attached ops a meshes count ids mats
    obtain ⟨rb, hrb1, hrb2, hrb⟩ := SetterCall_run_attached ops b meshes count ids mats
    cases ra with
    | error ea =>
      cases rb with
      | error eb => exact absurd ((hra2 ea rfl).trans (hrb2 eb rfl).symm) hdistinct
      | ok wb => simp only [hra, hrb, Except.bind, Except.map]
    | ok wa =>
      cases rb with
      | error eb => simp only [hra, hrb, Except.bind, Except.map]
      | ok wb =>
        simp only [hra, hrb, Except.bind, Except.map]
        congr 1
        funext name
        have hdisjoint : ∀ w ∈ wa, ∀ w2 ∈ wb, w.1 ≠ w2.1 := by
          intro w hw w2 hw2 heq
          have h1 := hra1 wa rfl w hw
          have h2 := hrb1 wb rfl w2 hw2
          rw [heq] at h1
          exact Setter_names_disjoint a.setter b.setter hdistinct hpair1 hpair2 _ h1 h2
        exact uniform_append_comm sm.writes wa wb name hdisjoint

/-- When some defined material has the tag, the five values `FindMaterial` leaves in its output
parameter do not depend on what the parameter held. -/
theorem FindMaterial_loop_values_of_mem (tag : String) (u1 u2 : OBJECT_MATERIAL F) :
    ∀ mats : List (OBJECT_MATERIAL F), (∃ m ∈ mats, m.tag = tag) →
      (FindMaterial.loop tag mats u1).ambientColor =
        (FindMaterial.loop tag mats u2).ambientColor ∧
      (FindMaterial.loop tag mats u1).ambientStrength =
        (FindMaterial.loop tag mats u2).ambientStrength ∧
      (FindMaterial.loop tag mats u1).diffuseColor =
        (FindMaterial.loop tag mats u2).diffuseColor ∧
      (FindMaterial.loop tag mats u1).specularColor =
        (FindMaterial.loop tag mats u2).specularColor ∧
      (FindMaterial.loop tag mats u1).shininess =
        (FindMaterial.loop tag mats u2).shininess := by
  intro mats
  induction mats with
  | nil =>
    rintro ⟨m, hm, _⟩
    cases hm
  | cons m rest ih =>
    rintro ⟨m1, hm1, htag⟩
    by_cases h : m.tag = tag
    · simp [FindMaterial.loop, h]
    · simp only [FindMaterial.loop, if_neg h]
      apply ih
      rcases List.mem_cons.mp hm1 with heq | hrest
      · rw [heq] at htag
        exact absurd htag h
      · exact ⟨m1, hrest, htag⟩

/-- A `SetShaderMaterial` call on an empty material list, or with a tag some defined material
has, does the same whatever its uninitialised local holds. -/
theorem SetShaderMaterial_resolved_local (u1 u2 : OBJECT_MATERIAL F) (materialTag : String)
    (s : SceneManager F)
    (h : s.m_objectMaterials = [] ∨ ∃ m ∈ s.m_objectMaterials, m.tag = materialTag) :
    SetShaderMaterial u1 materialTag s = SetShaderMaterial u2 materialTag s := by
  by_cases hlen : s.m_objectMaterials.length = 0
  · have hgt : ¬ s.m_objectMaterials.length > 0 := by omega
    unfold SetShaderMaterial
    rw [if_neg hgt, if_neg hgt]
  · have hmem : ∃ m ∈ s.m_objectMaterials, m.tag = materialTag := by
      rcases h with h | h
      · exact absurd (by rw [h]; rfl) hlen
      · exact h
    obtain ⟨h1, h2, h3, h4, h5⟩ :=
      FindMaterial_loop_values_of_mem materialTag u1 u2 s.m_objectMaterials hmem
    have hgt : s.m_objectMaterials.length > 0 := by omega
    unfold SetShaderMaterial FindMaterial
    simp only [if_pos hgt, if_neg hlen, if_true, h1, h2, h3, h4, h5]

/-- A call that does not read the uninitialised local runs the same with any content there. -/
theorem SetterCall_run_withLocal [Field F] (ops : FloatOps F) (c : SetterCall F)
    (content : OBJECT_MATERIAL F) (s : SceneManager F)
    (h : c.resolves s.m_objectMaterials = true) :
    (c.withLocal content).run ops s = c.run ops s := by
  cases c with
  | SetTransformations scaleXYZ X Y Z positionXYZ => rfl
  | SetShaderColor r g b a => rfl
  | SetShaderTexture textureTag => rfl
  | SetTextureUVScale u v => rfl
  | SetShaderMaterial uninitialised materialTag =>
    simp only [SetterCall.withLocal, SetterCall.run]
    apply SetShaderMaterial_resolved_local
    simp only [SetterCall.resolves, Bool.or_eq_true, List.isEmpty_iff, List.any_eq_true,
      decide_eq_true_eq] at h
    exact h

/-- A setter call leaves the material list as it is. -/
theorem SetterCall_run_materials [Field F] (ops : FloatOps F) (c : SetterCall F)
    (s s1 : SceneManager F) (h : c.run ops s = Except.ok s1) :
    s1.m_objectMaterials = s.m_objectMaterials := by
  obtain ⟨shader, meshes, count, ids, mats⟩ := s
  cases shader with
  | none =>
    rcases SetterCall_run_detached ops c meshes count ids mats with hc | ⟨_, hc⟩
    · rw [hc] at h
      cases h
      rfl
    · rw [hc] at h
      cases h
  | some sm =>
    obtain ⟨r, _, _, hr⟩ := SetterCall_run_attached ops c meshes count ids mats
    rw [hr sm] at h
    cases r with
    | error e => cases h
    | ok ws =>
      cases h
      rfl

/-- With a tag no defined material has (and a non-empty list) `SetShaderMaterial` writes what its
uninitialised local holds: on the registry with "cement", "bark", "bark" the tag "glass" leaves
"material.shininess" at 1 when the local holds 1 and at 2 when it holds 2. -/
theorem SetShaderMaterial_unresolved_reads_local :
    (SetterCall.SetShaderMaterial (plainMaterial "" 1) "glass").resolves
      shadowedRegistry.m_objectMaterials = false ∧
    (SetShaderMaterial (plainMaterial "" 1) "glass" shadowedRegistry).map
        (fun s => uniformState s "material.shininess") =
      Except.ok (some (UniformValue.float 1)) ∧
    (SetShaderMaterial (plainMaterial "" 2) "glass" shadowedRegistry).map
        (fun s => uniformState s "material.shininess") =
      Except.ok (some (UniformValue.float 2)) :=
  ⟨by decide, rfl, rfl⟩

/-- C17 (amended). For two calls `a`, `b` of distinct setters other than the pair
`SetShaderColor` / `SetShaderTexture`, every starting state and every choice of arguments in
which a `SetShaderMaterial` call names a defined material (or the material list is empty),
executing the two calls in either order gives the same outcome: the same fault, or the same
value of every uniform. This holds whatever the uninitialised local of `SetShaderMaterial` holds
in the one order (the content carried by `a`, `b`) and in the other (`local1`, `local2`). -/
theorem C17_setters_commute_except_color_texture [Field F] (ops : FloatOps F)
    (a b : SetterCall F) (s : SceneManager F) (local1 local2 : OBJECT_MATERIAL F)
    (hdistinct : a.setter ≠ b.setter)
    (hpair1 : ¬ (a.setter = Setter.SetShaderColor ∧ b.setter = Setter.SetShaderTexture))
    (hpair2 : ¬ (a.setter = Setter.SetShaderTexture ∧ b.setter = Setter.SetShaderColor))
    (ha : a.resolves s.m_objectMaterials = true)
    (hb : b.resolves s.m_objectMaterials = true) :
    ((a.run ops s).bind (b.run ops)).map uniformState =
      (((b.withLocal local1).run ops s).bind ((a.withLocal local2).run ops)).map
        uniformState := by
  rw [setters_commute_same_local ops a b s hdistinct hpair1 hpair2,
    SetterCall_run_withLocal ops b local1 s hb]
  cases hrun : b.run ops s with
  | error e => rfl
  | ok s1 =>
    have hmats := SetterCall_run_materials ops b s s1 hrun
    have ha1 : a.resolves s1.m_objectMaterials = true := by rw [hmats]; exact ha
    simp only [Except.bind, SetterCall_run_withLocal ops a local2 s1 ha1]

/-- C17 (amended) at concrete inputs: `SetShaderMaterial("cement")` and `SetTextureUVScale(2, 3)`
on a new object with a shader program attached and the four scene materials defined; the
uninitialised local holds zeros in the one order and 9 as shininess in the other. -/
theorem C17_setters_commute_except_color_texture_witness :
    ((SetterCall.SetShaderMaterial plainMaterialQ "cement").setter ≠
      (SetterCall.SetTextureUVScale 2 3 : SetterCall ℚ).setter) ∧
    (SetterCall.SetShaderMaterial plainMaterialQ "cement").resolves
      (DefineObjectMaterials (newObject 0)).m_objectMaterials = true ∧
    (((SetterCall.SetShaderMaterial plainMaterialQ "cement").run zeroAngleOps
          (DefineObjectMaterials (newObject 0))).bind
        ((SetterCall.SetTextureUVScale 2 3).run zeroAngleOps)).map uniformState =
      (((SetterCall.SetTextureUVScale 2 3).run zeroAngleOps
          (DefineObjectMaterials (newObject 0))).bind
        ((SetterCall.SetShaderMaterial { plainMaterialQ with shininess := 9 } "cement").run
          zeroAngleOps)).map uniformState :=
  ⟨by decide, by decide,
    C17_setters_commute_except_color_texture zeroAngleOps
      (SetterCall.SetShaderMaterial plainMaterialQ "cement")
      (SetterCall.SetTextureUVScale 2 3) (DefineObjectMaterials (newObject 0))
      plainMaterialQ { plainMaterialQ with shininess := 9 }
      (by decide) (by decide) (by decide) (by decide) (by decide)⟩

/-! ## `BindGLTextures` -/

/-- The loop of `BindGLTextures` over the units `i ..< i + remaining`, inside the array: it ends
without a fault, each of these units gets the ID of its slot, every other unit keeps its
binding, the last unit visited stays selected, and nothing else changes. -/
theorem BindGLTextures_loop_spec (ids : Fin 16 → TEXTURE_INFO) :
    ∀ (remaining i : Nat) (p : Platform), i + remaining ≤ 16 →
      ∃ p1 : Platform,
        BindGLTextures.loop ids remaining i p = Except.ok p1 ∧
        (∀ k : Fin 16, i ≤ k.val → k.val < i + remaining →
          p1.boundTexture2D (k.val : Int) = (ids k).ID) ∧
        (∀ u : Int, (u < (i : Int) ∨ ((i + remaining : Nat) : Int) ≤ u) →
          p1.boundTexture2D u = p.boundTexture2D u) ∧
        p1.activeTexture =
          (if remaining = 0 then p.activeTexture else ((i + remaining - 1 : Nat) : Int)) ∧
        p1.flipVertically = p.flipVertically ∧
        p1.decodeBuffers = p.decodeBuffers ∧
        p1.nextTexture = p.nextTexture ∧
        p1.textures = p.textures ∧
        p1.texCommands = p.texCommands := by
  intro remaining
  induction remaining with
  | zero =>
    intro i p _
    exact ⟨p, rfl, fun k h1 h2 => by omega, fun _ _ => rfl, rfl, rfl, rfl, rfl, rfl, rfl⟩
  | succ r ih =>
    intro i p hcap
    have hlt : i < 16 := by omega
    obtain ⟨p1, hrun, hbound, hkeep, hactive, h1, h2, h3, h4, h5⟩ :=
      ih (i + 1) ((p.glActiveTexture (i : Int)).glBindTexture (ids ⟨i, hlt⟩).ID) (by omega)
    refine ⟨p1, ?_, ?_, ?_, ?_, h1, h2, h3, h4, h5⟩
    · rw [BindGLTextures.loop, dif_pos hlt]
      exact hrun
    · intro k hk1 hk2
      by_cases hki : k.val = i
      · have hk : k = ⟨i, hlt⟩ := Fin.ext hki
        rw [hkeep (k.val : Int) (Or.inl (by omega)), hk]
        simp [Platform.glBindTexture, Platform.glActiveTexture]
      · exact hbound k (by omega) (by omega)
    · intro u hu
      rw [hkeep u (by omega)]
      have hne : u ≠ (i : Int) := by omega
      simp [Platform.glBindTexture, Platform.glActiveTexture, Function.update_noteq hne]
    · rw [hactive]
      by_cases hr : r = 0
      · subst hr
        simp [Platform.glBindTexture, Platform.glActiveTexture]
      · rw [if_neg hr, if_neg (Nat.succ_ne_zero r)]
        congr 1
        omega

theorem BindGLTextures_loop_fault (ids : Fin 16 → TEXTURE_INFO) :
    ∀ (remaining i : Nat) (p : Platform), i ≤ 16 → 16 < i + remaining →
      BindGLTextures.loop ids remaining i p = Except.error Fault.outOfBounds := by
  intro remaining
  induction remaining with
  | zero => intro i p h1 h2; omega
  | succ r ih =>
    intro i p h1 h2
    rw [BindGLTextures.loop]
    by_cases hlt : i < 16
    · rw [dif_pos hlt]
      exact ih (i + 1) _ (by omega) (by omega)
    · rw [dif_neg hlt]

/-- C18. On a registry with `n` loaded textures, `0 <= n <= 16`, `BindGLTextures` ends without a
fault; afterwards, for every `i < n`, texture unit `i` has the ID stored at slot `i` bound to
`GL_TEXTURE_2D`, the units `n` and above have the binding they had before, and no texture
object was created or removed. -/
theorem C18_BindGLTextures_binds_slot_i_to_unit_i (s : SceneManager F) (p : Platform)
    (h0 : 0 ≤ s.m_loadedTextures) (h16 : s.m_loadedTextures ≤ 16) :
    ∃ p1 : Platform,
      BindGLTextures s p = Except.ok p1 ∧
      (∀ i : Fin 16, (i.val : Int) < s.m_loadedTextures →
        p1.boundTexture2D (i.val : Int) = (s.m_textureIDs i).ID) ∧
      (∀ u : Int, s.m_loadedTextures ≤ u → p1.boundTexture2D u = p.boundTexture2D u) ∧
      p1.textures = p.textures := by
  obtain ⟨p1, hrun, hbound, hkeep, _, _, _, _, h4, _⟩ :=
    BindGLTextures_loop_spec s.m_textureIDs s.m_loadedTextures.toNat 0 p (by omega)
  refine ⟨p1, hrun, ?_, ?_, h4⟩
  · intro i hi
    exact hbound i (Nat.zero_le _) (by omega)
  · intro u hu
    exact hkeep u (Or.inr (by omega))

/-- C18 at concrete inputs: the registry with IDs 7, 8, 9 at slots 0, 1, 2. -/
theorem C18_BindGLTextures_binds_slot_i_to_unit_i_witness :
    0 ≤ shadowedRegistry.m_loadedTextures ∧ shadowedRegistry.m_loadedTextures ≤ 16 ∧
    ∃ p1 : Platform,
      BindGLTextures shadowedRegistry freshPlatform = Except.ok p1 ∧
      p1.boundTexture2D 0 = 7 ∧ p1.boundTexture2D 1 = 8 ∧ p1.boundTexture2D 2 = 9 ∧
      p1.boundTexture2D 3 = 0 := by
  have h0 : 0 ≤ shadowedRegistry.m_loadedTextures := by decide
  have h16 : shadowedRegistry.m_loadedTextures ≤ 16 := by decide
  obtain ⟨p1, hrun, hbound, hkeep, _⟩ :=
    C18_BindGLTextures_binds_slot_i_to_unit_i shadowedRegistry freshPlatform h0 h16
  exact ⟨h0, h16, p1, hrun, hbound 0 (by decide), hbound 1 (by decide), hbound 2 (by decide),
    hkeep 3 (by decide)⟩

theorem Platform_eq_of_fields (p q : Platform)
    (h1 : p.flipVertically = q.flipVertically) (h2 : p.decodeBuffers = q.decodeBuffers)
    (h3 : p.nextTexture = q.nextTexture) (h4 : p.textures = q.textures)
    (h5 : p.activeTexture = q.activeTexture) (h6 : p.boundTexture2D = q.boundTexture2D)
    (h7 : p.texCommands = q.texCommands) : p = q := by
  cases p
  cases q
  simp only at h1 h2 h3 h4 h5 h6 h7
  subst h1 h2 h3 h4 h5 h6 h7
  rfl

/-- C19. `BindGLTextures` is idempotent, for every registry state and every platform state: a
second call right after the first gives the outcome of the first call, the same platform state
(unit-to-texture bindings included) or the same fault. The function does not write to the
object, so the registry is the same as well. -/
theorem C19_BindGLTextures_idempotent (s : SceneManager F) (p : Platform) :
    (BindGLTextures s p).bind (BindGLTextures s) = BindGLTextures s p := by
  by_cases hcap : s.m_loadedTextures.toNat ≤ 16
  · obtain ⟨p1, hrun1, hbound1, _, hactive1, _, _, _, _, _⟩ :=
      BindGLTextures_loop_spec s.m_textureIDs s.m_loadedTextures.toNat 0 p (by omega)
    obtain ⟨p2, hrun2, hbound2, hkeep2, hactive2, h1, h2, h3, h4, h5⟩ :=
      BindGLTextures_loop_spec s.m_textureIDs s.m_loadedTextures.toNat 0 p1 (by omega)
    have hrun1b : BindGLTextures s p = Except.ok p1 := hrun1
    have hrun2b : BindGLTextures s p1 = Except.ok p2 := hrun2
    rw [hrun1b]
    simp only [Except.bind]
    rw [hrun2b]
    congr 1
    apply Platform_eq_of_fields p2 p1 h1 h2 h3 h4 _ _ h5
    · rw [hactive2, hactive1]
      split_ifs <;> rfl
    · funext u
      by_cases hu : 0 ≤ u ∧ u < ((0 + s.m_loadedTextures.toNat : Nat) : Int)
      · have hlt : u.toNat < 16 := by omega
        have hcast : ((⟨u.toNat, hlt⟩ : Fin 16).val : Int) = u := by
          simp only [Int.toNat_of_nonneg hu.1]
        have e2 := hbound2 ⟨u.toNat, hlt⟩ (Nat.zero_le _) (by simp only; omega)
        have e1 := hbound1 ⟨u.toNat, hlt⟩ (Nat.zero_le _) (by simp only; omega)
        rw [hcast] at e1 e2
        rw [e1, e2]
      · exact hkeep2 u (by
          by_cases h0 : 0 ≤ u
          · right; push_neg at hu; exact hu h0
          · left; push_neg at h0; simpa using h0)
  · have hfault : ∀ q : Platform, BindGLTextures s q = Except.error Fault.outOfBounds :=
      fun q => BindGLTextures_loop_fault s.m_textureIDs s.m_loadedTextures.toNat 0 q
        (by omega) (by omega)
    rw [hfault p]
    rfl

/-! ## `DestroyGLTextures` -/

theorem DestroyGLTextures_loop_spec :
    ∀ (remaining i : Nat) (ids : Fin 16 → TEXTURE_INFO) (p : Platform), i + remaining ≤ 16 →
      ∃ (ids1 : Fin 16 → TEXTURE_INFO) (p1 : Platform),
        DestroyGLTextures.loop remaining i ids p = Except.ok (ids1, p1) ∧
        ∀ k : Fin 16, (ids1 k).tag = (ids k).tag := by
  intro remaining
  induction remaining with
  | zero => intro i ids p _; exact ⟨ids, p, rfl, fun _ => rfl⟩
  | succ r ih =>
    intro i ids p hcap
    have hlt : i < 16 := by omega
    obtain ⟨ids1, p1, hrun, htags⟩ := ih (i + 1)
      (Function.update ids ⟨i, hlt⟩ { tag := (ids ⟨i, hlt⟩).tag, ID := p.glGenTextures.1 })
      p.glGenTextures.2 (by omega)
    refine ⟨ids1, p1, ?_, ?_⟩
    · rw [DestroyGLTextures.loop, dif_pos hlt]
      exact hrun
    · intro k
      rw [htags k]
      by_cases hk : k = ⟨i, hlt⟩
      · rw [hk, Function.update_same]
      · rw [Function.update_noteq hk]

theorem FindTextureSlot_loop_congr (ids ids1 : Fin 16 → TEXTURE_INFO) (tag : String)
    (htags : ∀ k : Fin 16, (ids1 k).tag = (ids k).tag) :
    ∀ (remaining index : Nat),
      FindTextureSlot.loop ids1 tag remaining index = FindTextureSlot.loop ids tag remaining index := by
  intro remaining
  induction remaining with
  | zero => intro index; rfl
  | succ r ih =>
    intro index
    rw [FindTextureSlot.loop, FindTextureSlot.loop]
    by_cases hlt : index < 16
    · rw [dif_pos hlt, dif_pos hlt, htags ⟨index, hlt⟩, ih (index + 1)]
    · rw [dif_neg hlt, dif_neg hlt]

/-- C20 (counterexample). After `DestroyGLTextures` on the registry with "brick", "rocks",
"rocks" the load counter still is 3 and the lookups of "brick" do not return -1:
`FindTextureSlot` returns 0 and `FindTextureID` the name the call has just generated. -/
theorem C20_registry_not_empty_after_destroy :
    ∃ (s1 : SceneManager Int) (p1 : Platform),
      DestroyGLTextures shadowedRegistry freshPlatform = Except.ok (s1, p1) ∧
      s1.m_loadedTextures = 3 ∧
      FindTextureSlot s1 "brick" = Except.ok 0 ∧
      FindTextureID s1 "brick" = Except.ok 1 :=
  ⟨_, _, rfl, rfl, rfl, rfl⟩

/-- C20 (amended). On a registry within its capacity `DestroyGLTextures` ends without a fault
and leaves the load counter and every tag as they were, so `FindTextureSlot` returns for every
tag what it returned before the call (a tag registered before is still found at its slot). -/
theorem C20_DestroyGLTextures_keeps_counter_and_tags (s : SceneManager F) (p : Platform)
    (hcap : s.m_loadedTextures ≤ 16) :
    ∃ (s1 : SceneManager F) (p1 : Platform),
      DestroyGLTextures s p = Except.ok (s1, p1) ∧
      s1.m_loadedTextures = s.m_loadedTextures ∧
      (∀ i : Fin 16, (s1.m_textureIDs i).tag = (s.m_textureIDs i).tag) ∧
      ∀ tag : String, FindTextureSlot s1 tag = FindTextureSlot s tag := by
  obtain ⟨ids1, p1, hrun, htags⟩ :=
    DestroyGLTextures_loop_spec s.m_loadedTextures.toNat 0 s.m_textureIDs p (by omega)
  refine ⟨{ s with m_textureIDs := ids1 }, p1, ?_, rfl, htags, ?_⟩
  · unfold DestroyGLTextures
    rw [hrun]
  · intro tag
    exact FindTextureSlot_loop_congr s.m_textureIDs ids1 tag htags _ _

/-- C20 (amended) at concrete inputs: the registry with "brick", "rocks", "rocks". -/
theorem C20_DestroyGLTextures_keeps_counter_and_tags_witness :
    shadowedRegistry.m_loadedTextures ≤ 16 ∧
    ∃ (s1 : SceneManager Int) (p1 : Platform),
      DestroyGLTextures shadowedRegistry freshPlatform = Except.ok (s1, p1) ∧
      s1.m_loadedTextures = 3 ∧
      FindTextureSlot s1 "rocks" = Except.ok 1 := by
  have hcap : shadowedRegistry.m_loadedTextures ≤ 16 := by decide
  obtain ⟨s1, p1, hrun, hcount, _, hfind⟩ :=
    C20_DestroyGLTextures_keeps_counter_and_tags shadowedRegistry freshPlatform hcap
  exact ⟨hcap, s1, p1, hrun, hcount.trans rfl, (hfind "rocks").trans rfl⟩

/-! ## The scene script -/

set_option maxRecDepth 100000 in
set_option maxHeartbeats 1000000 in
/-- The contents of the calls of `RenderScene` do not depend on the carrier of the numbers nor on
the content of the uninitialised local of `SetShaderMaterial`. -/
theorem RenderScene_info [Field F] (uninitialised : OBJECT_MATERIAL F) :
    (RenderScene uninitialised).map SceneCall.info = sceneInfo := by
  simp only [RenderScene, RenderFloor, RenderWalls, RenderQuadrantWalls, RenderQuadrantOne,
    RenderQuadrantTwo, RenderQuadrantThree, RenderQuadrantFour, AddRoot, List.map_append,
    List.map_cons, List.map_nil, SceneCall.info, SetterCall.setter, List.cons_append,
    List.nil_append, List.append_assoc]
  decide

/-- C22 (counterexample). `RenderScene` issues 90 draw calls. Before the first one (the floor)
both `SetShaderColor` and `SetShaderTexture` are called; before the third one (the second wall
of `RenderWalls`) neither is called. So it is not the case that exactly one of the two is called
before every draw. -/
theorem C22_color_and_texture_both_or_neither :
    (drawWindows sceneInfo []).length = 90 ∧
    (drawWindows sceneInfo [])[0]? = some (fullWindow, Shape.Plane) ∧
    (drawWindows sceneInfo [])[2]? = some ([Setter.SetTransformations], Shape.Box) ∧
    ¬ (∀ w ∈ drawWindows sceneInfo [], (colorOrTexture w.1).length = 1) := by
  decide

/-- C22 (amended). For every draw call issued by `RenderScene`, the calls since the previous
draw call contain either one `SetShaderColor` call followed by one `SetShaderTexture` call, or
neither of the two; and for every draw call the last of these calls made before it is a
`SetShaderTexture` call (every draw is textured). -/
theorem C22_color_then_texture_or_inherited [Field F] (uninitialised : OBJECT_MATERIAL F) :
    (∀ w ∈ drawWindows ((RenderScene uninitialised).map SceneCall.info) [],
      colorOrTexture w.1 = [Setter.SetShaderColor, Setter.SetShaderTexture] ∨
      colorOrTexture w.1 = []) ∧
    (∀ source ∈ sourceAtDraws ((RenderScene uninitialised).map SceneCall.info) none,
      source = some Setter.SetShaderTexture) := by
  rw [RenderScene_info]
  decide

/-- C22 (amended) at concrete inputs: the script over the rationals, the window of the floor. -/
theorem C22_color_then_texture_or_inherited_witness :
    (fullWindow, Shape.Plane) ∈
      drawWindows ((RenderScene plainMaterialQ).map SceneCall.info) [] ∧
    (colorOrTexture fullWindow = [Setter.SetShaderColor, Setter.SetShaderTexture] ∨
      colorOrTexture fullWindow = []) :=
  have hmem : (fullWindow, Shape.Plane) ∈
      drawWindows ((RenderScene plainMaterialQ).map SceneCall.info) [] := by
    rw [RenderScene_info]
    decide
  ⟨hmem, (C22_color_then_texture_or_inherited plainMaterialQ).1 (fullWindow, Shape.Plane) hmem⟩

/-- C23 (counterexample). Before the third draw call of `RenderScene` (the second wall of
`RenderWalls`) only the transform is broadcast, and before the nineteenth (the center block of
`RenderQuadrantTwo`) the material is not broadcast. So it is not the case that every draw call
has the transform, a color or texture, the material and the UV scale broadcast since the
previous draw call. -/
theorem C23_entries_with_inherited_state :
    (drawWindows sceneInfo [])[2]? = some ([Setter.SetTransformations], Shape.Box) ∧
    (drawWindows sceneInfo [])[18]? = some (windowWithoutMaterial, Shape.Box) ∧
    ¬ (∀ w ∈ drawWindows sceneInfo [],
        Setter.SetTransformations ∈ w.1 ∧
        (Setter.SetShaderColor ∈ w.1 ∨ Setter.SetShaderTexture ∈ w.1) ∧
        Setter.SetShaderMaterial ∈ w.1 ∧
        Setter.SetTextureUVScale ∈ w.1) := by
  decide

set_option maxRecDepth 100000 in
/-- C23 (amended). Every draw call of `RenderScene` has the transform broadcast since the
previous draw call: its window is the full one (transform, color, texture, material, UV scale),
the full one without the material, or the transform alone. The transform alone occurs for the
second to fourth wall of `RenderWalls` only, whose first wall has the full window. The windows
of `RenderFloor`, `RenderQuadrantOne`, `RenderQuadrantThree`, `RenderQuadrantFour` and `AddRoot`
are all full, and so are those of `RenderQuadrantTwo` after its first two entries. -/
theorem C23_windows_of_the_scene_script [Field F] (uninitialised : OBJECT_MATERIAL F)
    (x z : F) :
    (∀ w ∈ drawWindows ((RenderScene uninitialised).map SceneCall.info) [],
      w.1 = fullWindow ∨ w.1 = windowWithoutMaterial ∨ w.1 = [Setter.SetTransformations]) ∧
    ((drawWindows ((RenderScene uninitialised).map SceneCall.info) []).filter
      (fun w => w.1 = [Setter.SetTransformations])).length = 3 ∧
    (drawWindows ((RenderWalls uninitialised).map SceneCall.info) []).map Prod.fst =
      [fullWindow, [Setter.SetTransformations], [Setter.SetTransformations],
       [Setter.SetTransformations]] ∧
    (∀ w ∈ drawWindows ((RenderFloor uninitialised ++ RenderQuadrantOne uninitialised ++
        RenderQuadrantThree uninitialised ++ RenderQuadrantFour uninitialised ++
        AddRoot uninitialised x z).map SceneCall.info) [], w.1 = fullWindow) ∧
    (∀ w ∈ (drawWindows ((RenderQuadrantTwo uninitialised).map SceneCall.info) []).drop 2,
      w.1 = fullWindow) := by
  refine ⟨?_, ?_, ?_, ?_, ?_⟩
  · rw [RenderScene_info]
    decide
  · rw [RenderScene_info]
    decide
  · simp only [RenderWalls, List.map_append, List.map_cons, List.map_nil, SceneCall.info,
      SetterCall.setter, List.cons_append, List.nil_append, List.append_assoc]
    decide
  · simp only [RenderFloor, RenderQuadrantOne, RenderQuadrantThree, RenderQuadrantFour, AddRoot,
      List.map_append, List.map_cons, List.map_nil, SceneCall.info, SetterCall.setter,
      List.cons_append, List.nil_append, List.append_assoc]
    decide
  · simp only [RenderQuadrantTwo, AddRoot, List.map_append, List.map_cons, List.map_nil,
      SceneCall.info, SetterCall.setter, List.cons_append, List.nil_append, List.append_assoc]
    decide

/-- C23 (amended) at concrete inputs: the script over the rationals, the window of the floor. -/
theorem C23_windows_of_the_scene_script_witness :
    (fullWindow, Shape.Plane) ∈
      drawWindows ((RenderScene plainMaterialQ).map SceneCall.info) [] ∧
    (fullWindow = fullWindow ∨ fullWindow = windowWithoutMaterial ∨
      fullWindow = [Setter.SetTransformations]) :=
  have hmem : (fullWindow, Shape.Plane) ∈
      drawWindows ((RenderScene plainMaterialQ).map SceneCall.info) [] := by
    rw [RenderScene_info]
    decide
  ⟨hmem, (C23_windows_of_the_scene_script plainMaterialQ 0 0).1 (fullWindow, Shape.Plane) hmem⟩

/-- C24. For every `x` and `z` (and every carrier of the numbers) the body of `AddRoot(x, z)`
makes exactly these twelve calls: `SetTransformations` with scale (0.5, 2, 0.5), zero rotation
and position (x, 0.9, z), `SetShaderColor(1,1,1,1)`, `SetShaderTexture("bark")`,
`SetShaderMaterial("bark")`, `SetTextureUVScale(1,1)`, `DrawConeMesh()`, and the same again with
a Z rotation of 180 degrees and position (x, 2.9, z). Its draw calls are two cone draws. -/
theorem C24_AddRoot_two_cones [Field F] (uninitialised : OBJECT_MATERIAL F) (x z : F) :
    AddRoot uninitialised x z =
      ([SceneCall.set (SetterCall.SetTransformations { x := 0.5, y := 2, z := 0.5 } 0 0 0
        { x := x, y := 0.9, z := z }),
       SceneCall.set (SetterCall.SetShaderColor 1 1 1 1),
       SceneCall.set (SetterCall.SetShaderTexture "bark"),
       SceneCall.set (SetterCall.SetShaderMaterial uninitialised "bark"),
       SceneCall.set (SetterCall.SetTextureUVScale 1 1),
       SceneCall.draw Shape.Cone,
       SceneCall.set (SetterCall.SetTransformations { x := 0.5, y := 2, z := 0.5 } 0 0 180
        { x := x, y := 2.9, z := z }),
       SceneCall.set (SetterCall.SetShaderColor 1 1 1 1),
       SceneCall.set (SetterCall.SetShaderTexture "bark"),
       SceneCall.set (SetterCall.SetShaderMaterial uninitialised "bark"),
       SceneCall.set (SetterCall.SetTextureUVScale 1 1),
       SceneCall.draw Shape.Cone] : List (SceneCall F)) ∧
    drawWindows ((AddRoot uninitialised x z).map SceneCall.info) [] =
      [(fullWindow, Shape.Cone), (fullWindow, Shape.Cone)] := by
  refine ⟨rfl, ?_⟩
  simp only [AddRoot, List.map_append, List.map_cons, List.map_nil, SceneCall.info,
    SetterCall.setter, List.cons_append, List.nil_append]
  decide

/-! ## Scene preparation -/

/-- A sequence of loads that ends without a fault leaves the shader pointer, the mesh library and
the materials as they were. -/
theorem loadTextures_frame (stbi_load : String → Option Image) :
    ∀ (calls : List (String × String)) (s s1 : SceneManager F) (p p1 : Platform),
      loadTextures stbi_load calls s p = Except.ok (s1, p1) →
      s1.m_pShaderManager = s.m_pShaderManager ∧ s1.m_basicMeshes = s.m_basicMeshes ∧
      s1.m_objectMaterials = s.m_objectMaterials := by
  intro calls
  induction calls with
  | nil =>
    intro s s1 p p1 h
    simp only [loadTextures, Except.ok.injEq, Prod.mk.injEq] at h
    rw [← h.1]
    exact ⟨rfl, rfl, rfl⟩
  | cons c rest ih =>
    intro s s1 p p1 h
    obtain ⟨filename, tag⟩ := c
    rw [loadTextures] at h
    cases hdec : decodable stbi_load filename with
    | false =>
      obtain ⟨p2, hstep⟩ := CreateGLTexture_of_not_decodable stbi_load filename tag s p hdec
      rw [hstep] at h
      exact ih s s1 p2 p1 h
    | true =>
      by_cases hrange : 0 ≤ s.m_loadedTextures ∧ s.m_loadedTextures < 16
      · obtain ⟨textureID, p2, hstep⟩ :=
          CreateGLTexture_of_decodable stbi_load filename tag s p hdec hrange.1 hrange.2
        rw [hstep] at h
        have hrest := ih _ s1 p2 p1 h
        exact hrest
      · rw [CreateGLTexture_of_full stbi_load filename tag s p hdec hrange] at h
        cases h

theorem SetupSceneLights_attached [Field F] (s : SceneManager F) (sm : ShaderManager F)
    (hshader : s.m_pShaderManager = some sm) :
    ∃ sm1 : ShaderManager F,
      SetupSceneLights s = Except.ok { s with m_pShaderManager := some sm1 } := by
  unfold SetupSceneLights
  rw [hshader]
  exact ⟨_, rfl⟩

theorem LoadSceneTextures_within_capacity (stbi_load : String → Option Image)
    (s : SceneManager F) (p : Platform) (h0 : 0 ≤ s.m_loadedTextures)
    (hcap : s.m_loadedTextures + (successfulLoads stbi_load sceneTextureFiles : Int) ≤ 16) :
    ∃ (s1 : SceneManager F) (p0 p1 : Platform),
      loadTextures stbi_load sceneTextureFiles s
        (p.stbi_set_flip_vertically_on_load true) = Except.ok (s1, p0) ∧
      BindGLTextures s1 p0 = Except.ok p1 ∧
      LoadSceneTextures stbi_load s p = Except.ok (s1, p1) := by
  obtain ⟨s1, p0, hrun, hcount, _, _⟩ := loadTextures_within_capacity stbi_load
    sceneTextureFiles s (p.stbi_set_flip_vertically_on_load true) h0 hcap
  obtain ⟨p1, hbind, _⟩ :=
    BindGLTextures_loop_spec s1.m_textureIDs s1.m_loadedTextures.toNat 0 p0 (by omega)
  have hbind1 : BindGLTextures s1 p0 = Except.ok p1 := hbind
  refine ⟨s1, p0, p1, hrun, hbind1, ?_⟩
  unfold LoadSceneTextures
  simp only [hrun, hbind1]

/-- C25. With a shader program attached and room in the texture array for the six scene
textures, `PrepareScene` ends without a fault and has called, in this order, the `Load` of the
plane, cone, torus, box, sphere and 4-sided pyramid and no other: for every shape that
`RenderScene` draws, the number of its `Load` calls has grown by exactly one. Each of the six
shapes is drawn by `RenderScene`. -/
theorem C25_PrepareScene_loads_every_drawn_shape [Field F] (stbi_load : String → Option Image)
    (s : SceneManager F) (sm : ShaderManager F) (p : Platform)
    (hshader : s.m_pShaderManager = some sm) (h0 : 0 ≤ s.m_loadedTextures)
    (hcap : s.m_loadedTextures + (successfulLoads stbi_load sceneTextureFiles : Int) ≤ 16) :
    ∃ (s1 : SceneManager F) (p1 : Platform),
      PrepareScene stbi_load s p = Except.ok (s1, p1) ∧
      s1.m_basicMeshes.loaded = s.m_basicMeshes.loaded ++
        [Shape.Plane, Shape.Cone, Shape.Torus, Shape.Box, Shape.Sphere, Shape.Pyramid4] ∧
      (∀ (uninitialised : OBJECT_MATERIAL F) (shape : Shape),
        CallInfo.draw shape ∈ (RenderScene uninitialised).map SceneCall.info →
        s1.m_basicMeshes.loaded.count shape = s.m_basicMeshes.loaded.count shape + 1) ∧
      ∀ (uninitialised : OBJECT_MATERIAL F) (shape : Shape),
        CallInfo.draw shape ∈ (RenderScene uninitialised).map SceneCall.info := by
  have hshader0 : (DefineObjectMaterials s).m_pShaderManager = some sm := hshader
  obtain ⟨sm1, hlights⟩ := SetupSceneLights_attached (DefineObjectMaterials s) sm hshader0
  obtain ⟨s1, p0, p1, hload, _, hscene⟩ := LoadSceneTextures_within_capacity stbi_load
    { DefineObjectMaterials s with m_pShaderManager := some sm1 } p h0 hcap
  obtain ⟨_, hmeshes, _⟩ := loadTextures_frame stbi_load sceneTextureFiles _ s1 _ p0 hload
  have hloaded : (((((((s1.m_basicMeshes.Load Shape.Plane).Load Shape.Cone).Load
      Shape.Torus).Load Shape.Box).Load Shape.Sphere).Load Shape.Pyramid4).loaded =
      s.m_basicMeshes.loaded ++
        [Shape.Plane, Shape.Cone, Shape.Torus, Shape.Box, Shape.Sphere, Shape.Pyramid4]) := by
    simp only [ShapeMeshes.Load, hmeshes, List.append_assoc]
    rfl
  refine ⟨{ s1 with m_basicMeshes :=
      (((((s1.m_basicMeshes.Load Shape.Plane).Load Shape.Cone).Load Shape.Torus).Load
        Shape.Box).Load Shape.Sphere).Load Shape.Pyramid4 }, p1, ?_, hloaded, ?_, ?_⟩
  · unfold PrepareScene
    simp only [hlights, hscene]
  · intro _ shape _
    have hsix : [Shape.Plane, Shape.Cone, Shape.Torus, Shape.Box, Shape.Sphere,
        Shape.Pyramid4].count shape = 1 := by
      cases shape <;> decide
    rw [hloaded, List.count_append, hsix]
  · intro uninitialised shape
    rw [RenderScene_info]
    cases shape <;> decide

/-- C25 at concrete inputs: a new object with a shader program attached and a counter that
starts at 0, every file a 3-channel image. -/
theorem C25_PrepareScene_loads_every_drawn_shape_witness :
    (newObject 0).m_pShaderManager = some { writes := [] } ∧
    0 ≤ (newObject 0).m_loadedTextures ∧
    (newObject 0).m_loadedTextures + (successfulLoads rgbFiles sceneTextureFiles : Int) ≤ 16 ∧
    ∃ (s1 : SceneManager ℚ) (p1 : Platform),
      PrepareScene rgbFiles (newObject 0) freshPlatform = Except.ok (s1, p1) ∧
      s1.m_basicMeshes.loaded =
        [Shape.Plane, Shape.Cone, Shape.Torus, Shape.Box, Shape.Sphere, Shape.Pyramid4] := by
  have h0 : 0 ≤ (newObject 0).m_loadedTextures := by decide
  have hcap : (newObject 0).m_loadedTextures +
      (successfulLoads rgbFiles sceneTextureFiles : Int) ≤ 16 := by decide
  obtain ⟨s1, p1, hrun, hloaded, _, _⟩ :=
    C25_PrepareScene_loads_every_drawn_shape rgbFiles (newObject 0) { writes := [] }
      freshPlatform rfl h0 hcap
  exact ⟨rfl, h0, hcap, s1, p1, hrun, hloaded⟩

/-! ## Release of the textures -/

theorem DestroyGLTextures_loop_textures :
    ∀ (remaining i : Nat) (ids ids1 : Fin 16 → TEXTURE_INFO) (p p1 : Platform),
      DestroyGLTextures.loop remaining i ids p = Except.ok (ids1, p1) →
      p1.textures = p.textures ++ List.range' p.nextTexture remaining := by
  intro remaining
  induction remaining with
  | zero =>
    intro i ids ids1 p p1 h
    simp only [DestroyGLTextures.loop, Except.ok.injEq, Prod.mk.injEq] at h
    rw [← h.2]
    simp
  | succ n ih =>
    intro i ids ids1 p p1 h
    rw [DestroyGLTextures.loop] at h
    by_cases hi : i < 16
    · rw [dif_pos hi] at h
      have hrest := ih _ _ ids1 _ p1 h
      rw [hrest]
      simp [Platform.glGenTextures, List.range'_succ]
    · rw [dif_neg hi] at h
      cases h

/-- C21 (what the code does). On a registry within its capacity `DestroyGLTextures` ends without
a fault; the texture objects that exist afterwards are those that existed before followed by
`m_loadedTextures` newly generated ones, so every registered handle that was live still is live
and the call has created new texture objects. -/
theorem C21_DestroyGLTextures_generates_textures (s : SceneManager F) (p : Platform)
    (hcap : s.m_loadedTextures ≤ 16) :
    ∃ (s1 : SceneManager F) (p1 : Platform),
      DestroyGLTextures s p = Except.ok (s1, p1) ∧
      p1.textures = p.textures ++ List.range' p.nextTexture s.m_loadedTextures.toNat ∧
      ∀ i : Fin 16, (s.m_textureIDs i).ID ∈ p.textures → (s.m_textureIDs i).ID ∈ p1.textures := by
  obtain ⟨ids1, p1, hrun, _⟩ :=
    DestroyGLTextures_loop_spec s.m_loadedTextures.toNat 0 s.m_textureIDs p (by omega)
  have htex := DestroyGLTextures_loop_textures _ _ _ ids1 _ p1 hrun
  refine ⟨{ s with m_textureIDs := ids1 }, p1, ?_, htex, ?_⟩
  · unfold DestroyGLTextures
    rw [hrun]
  · intro i hi
    rw [htex]
    exact List.mem_append_left _ hi

/-- C21 at concrete inputs: the registry holds the handles 7, 8, 9 and the three texture objects
exist; after `DestroyGLTextures` the objects 7, 8, 9 still exist and 10, 11, 12 are new. -/
theorem C21_DestroyGLTextures_generates_textures_witness :
    shadowedRegistry.m_loadedTextures ≤ 16 ∧
    shadowedPlatform.textures = [7, 8, 9] ∧
    ∃ (s1 : SceneManager Int) (p1 : Platform),
      DestroyGLTextures shadowedRegistry shadowedPlatform = Except.ok (s1, p1) ∧
      p1.textures = [7, 8, 9, 10, 11, 12] := by
  have hcap : shadowedRegistry.m_loadedTextures ≤ 16 := by decide
  obtain ⟨s1, p1, hrun, htex, _⟩ :=
    C21_DestroyGLTextures_generates_textures shadowedRegistry shadowedPlatform hcap
  exact ⟨hcap, rfl, s1, p1, hrun, htex.trans rfl⟩

/-! ## The object after the constructor -/

/-- C26 (evaluation at the failing input). The constructor does not assign `m_loadedTextures`:
the counter of the new object is whatever the memory holds. When it holds 5, the empty tag is
found at slot 0 with the garbage ID of that slot, and the first successful load is stored at
slot 5, leaving slot 0 as it was. -/
theorem C26_new_object_counter_is_not_zero :
    (∀ (pShaderManager : Option (ShaderManager Int)) (counter : Int) (IDs0 : Fin 16 → Nat),
      (ctor pShaderManager counter IDs0).m_loadedTextures = counter) ∧
    FindTextureSlot (ctor (none : Option (ShaderManager Int)) 5 (fun _ => 7)) "" = Except.ok 0 ∧
    FindTextureID (ctor (none : Option (ShaderManager Int)) 5 (fun _ => 7)) "" = Except.ok 7 ∧
    ∃ (s : SceneManager Int) (p : Platform),
      CreateGLTexture sampleFiles "a.jpg" "a" (ctor none 5 (fun _ => 7)) freshPlatform =
        Except.ok (true, s, p) ∧
      s.m_loadedTextures = 6 ∧
      s.m_textureIDs 5 = { tag := "a", ID := 1 } ∧
      s.m_textureIDs 0 = { tag := "", ID := 7 } :=
  ⟨fun _ _ _ => rfl, rfl, rfl, _, _, rfl, rfl, rfl, rfl⟩

/-! ## Setters without a shader program -/

/-- C27 (what the code does). With `m_pShaderManager` `NULL` and at least one defined material,
`SetShaderMaterial` dereferences the pointer, for every tag; the other four setters test the
pointer and leave the object as it was. -/
theorem C27_SetShaderMaterial_dereferences_null [Field F] (ops : FloatOps F)
    (uninitialised : OBJECT_MATERIAL F) (materialTag : String) (s : SceneManager F)
    (hnull : s.m_pShaderManager = none) (hmats : s.m_objectMaterials ≠ []) :
    SetShaderMaterial uninitialised materialTag s = Except.error Fault.nullDereference ∧
    (∀ (scaleXYZ positionXYZ : Vec3 F) (rx ry rz : F),
      SetTransformations ops scaleXYZ rx ry rz positionXYZ s = s) ∧
    (∀ r g b a : F, SetShaderColor r g b a s = s) ∧
    (∀ textureTag : String, SetShaderTexture textureTag s = Except.ok s) ∧
    (∀ u v : F, SetTextureUVScale u v s = s) := by
  have hlen : s.m_objectMaterials.length ≠ 0 := fun h => hmats (List.length_eq_zero.mp h)
  refine ⟨?_, ?_, ?_, ?_, ?_⟩
  · unfold SetShaderMaterial FindMaterial
    rw [if_pos (Nat.pos_of_ne_zero hlen), if_neg hlen]
    simp only [if_true, hnull]
  · intro _ _ _ _ _
    simp only [SetTransformations, hnull]
  · intro _ _ _ _
    simp only [SetShaderColor, hnull]
  · intro _
    simp only [SetShaderTexture, hnull]
  · intro _ _
    simp only [SetTextureUVScale, hnull]

/-- C27 at concrete inputs: the registry with no shader program and one material. -/
theorem C27_SetShaderMaterial_dereferences_null_witness :
    detachedRegistry.m_pShaderManager = none ∧
    detachedRegistry.m_objectMaterials ≠ [] ∧
    SetShaderMaterial plainMaterialQ "cement" detachedRegistry =
      Except.error Fault.nullDereference ∧
    SetShaderColor 1 1 1 1 detachedRegistry = detachedRegistry :=
  have h := C27_SetShaderMaterial_dereferences_null zeroAngleOps plainMaterialQ "cement"
    detachedRegistry rfl (by decide)
  ⟨rfl, by decide, h.1, h.2.2.1 1 1 1 1⟩

/-! ## A load that returns false -/

/-- C28 (what the code does). When the file decodes into an image whose channel count is neither
3 nor 4, `CreateGLTexture` returns false after it has generated and bound a texture object and
without freeing the pixel buffer: afterwards one more texture object exists, the active unit is
bound to it and one more decode buffer is outstanding. -/
theorem C28_unsupported_channels_leave_texture_and_buffer (stbi_load : String → Option Image)
    (filename tag : String) (image : Image) (s : SceneManager F) (p : Platform)
    (hload : stbi_load filename = some image)
    (h3 : image.colorChannels ≠ 3) (h4 : image.colorChannels ≠ 4) :
    ∃ p1 : Platform,
      CreateGLTexture stbi_load filename tag s p = Except.ok (false, s, p1) ∧
      p1.textures = p.textures ++ [p.nextTexture] ∧
      p1.boundTexture2D p.activeTexture = p.nextTexture ∧
      p1.decodeBuffers = p.decodeBuffers + 1 := by
  have hch : ¬ (image.colorChannels = 3 ∨ image.colorChannels = 4) := by
    rintro (h | h)
    · exact h3 h
    · exact h4 h
  unfold CreateGLTexture
  simp only [hload, if_neg hch]
  refine ⟨_, rfl, rfl, ?_, rfl⟩
  exact Function.update_same _ _ _

/-- C28 at concrete inputs: the 1-channel "gray.png" on a platform where nothing exists yet. -/
theorem C28_unsupported_channels_leave_texture_and_buffer_witness :
    sampleFiles "gray.png" = some { width := 2, height := 2, colorChannels := 1 } ∧
    freshPlatform.textures = [] ∧ freshPlatform.boundTexture2D 0 = 0 ∧
    freshPlatform.decodeBuffers = 0 ∧
    ∃ p1 : Platform,
      CreateGLTexture sampleFiles "gray.png" "gray" shadowedRegistry freshPlatform =
        Except.ok (false, shadowedRegistry, p1) ∧
      p1.textures = [1] ∧ p1.boundTexture2D 0 = 1 ∧ p1.decodeBuffers = 1 := by
  obtain ⟨p1, hrun, htex, hbound, hbuf⟩ :=
    C28_unsupported_channels_leave_texture_and_buffer sampleFiles "gray.png" "gray"
      { width := 2, height := 2, colorChannels := 1 } shadowedRegistry freshPlatform rfl
      (by decide) (by decide)
  exact ⟨rfl, rfl, rfl, rfl, p1, hrun, htex, hbound, hbuf⟩

/-! ## Lights -/

/-- C30 (what the code does). With a shader program attached `SetupSceneLights` ends without a
fault and writes neither "bUseLighting" nor any "lightSources[i].position": these uniforms hold
what they held before the call. The flag is written under the name "bUseLightng" and the
positions under "lightSources[i].positon". -/
theorem C30_SetupSceneLights_writes_other_names [Field F] (s : SceneManager F)
    (sm : ShaderManager F) (hshader : s.m_pShaderManager = some sm) :
    ∃ s1 : SceneManager F,
      SetupSceneLights s = Except.ok s1 ∧
      uniformState s1 g_UseLightingName = uniformState s g_UseLightingName ∧
      (∀ name ∈ ["lightSources[0].position", "lightSources[1].position",
          "lightSources[2].position", "lightSources[3].position"],
        uniformState s1 name = uniformState s name) ∧
      uniformState s1 "bUseLightng" = some (UniformValue.bool true) ∧
      uniformState s1 "lightSources[0].positon" =
        some (UniformValue.vec3 ({ x := 0, y := 11, z := 0 } : Vec3 F)) ∧
      uniformState s1 "lightSources[1].positon" =
        some (UniformValue.vec3 ({ x := (-50), y := 11, z := (-50) } : Vec3 F)) ∧
      uniformState s1 "lightSources[2].positon" =
        some (UniformValue.vec3 ({ x := 50, y := 11, z := 50 } : Vec3 F)) ∧
      uniformState s1 "lightSources[3].positon" =
        some (UniformValue.vec3 ({ x := 50, y := 11, z := (-50) } : Vec3 F)) := by
  obtain ⟨writes⟩ := sm
  refine ⟨_, by unfold SetupSceneLights; rw [hshader], ?_⟩
  simp only [uniformState, hshader, Option.bind, ShaderManager.setVec3Value,
    ShaderManager.setFloatValue, ShaderManager.setBoolValue, ShaderManager.setUniform,
    List.append_assoc, List.singleton_append, List.nil_append, List.cons_append]
  refine ⟨?_, ?_, ?_, ?_, ?_, ?_, ?_⟩
  · rw [uniform_append, uniform_eq_none_of_not_mem _ _ (by simp [g_UseLightingName])]
    rfl
  · intro name hname
    simp only [List.mem_cons, List.mem_singleton, List.not_mem_nil, or_false] at hname
    rcases hname with rfl | rfl | rfl | rfl <;>
      (rw [uniform_append, uniform_eq_none_of_not_mem _ _ (by simp)]; rfl)
  all_goals (rw [uniform_append]; rfl)

/-- C30 at concrete inputs: on a new object with a shader program attached, "bUseLighting" and
"lightSources[0].position" have no value after the call. -/
theorem C30_SetupSceneLights_writes_other_names_witness :
    (newObject 0).m_pShaderManager = some { writes := [] } ∧
    ∃ s1 : SceneManager ℚ,
      SetupSceneLights (newObject 0) = Except.ok s1 ∧
      uniformState s1 "bUseLighting" = none ∧
      uniformState s1 "lightSources[0].position" = none ∧
      uniformState s1 "bUseLightng" = some (UniformValue.bool true) := by
  obtain ⟨s1, hrun, hflag, hpos, hflag1, _⟩ :=
    C30_SetupSceneLights_writes_other_names (newObject 0) { writes := [] } rfl
  exact ⟨rfl, s1, hrun, hflag.trans rfl, (hpos _ (List.mem_cons_self _ _)).trans rfl, hflag1⟩

/-! ## Resources named by the scene script -/

/-- With the load counter 0 at construction and every file a 3-channel image: after
`PrepareScene` the six tags resolve to the slots 0..5 in the order of their loads, unit `i` is
bound to the ID of slot `i`, the four materials are defined, and every tag passed by
`RenderScene` to `SetShaderTexture` or `SetShaderMaterial` is among them. -/
theorem PrepareScene_from_zero_counter :
    ∃ (s : SceneManager ℚ) (p : Platform),
      PrepareScene rgbFiles (newObject 0) freshPlatform = Except.ok (s, p) ∧
      [FindTextureSlot s "DenseBerries", FindTextureSlot s "Hedge", FindTextureSlot s "bark",
        FindTextureSlot s "brick", FindTextureSlot s "tile", FindTextureSlot s "rocks"] =
        [Except.ok 0, Except.ok 1, Except.ok 2, Except.ok 3, Except.ok 4, Except.ok 5] ∧
      (∀ i : Fin 16, i.val < 6 → p.boundTexture2D (i.val : Int) = (s.m_textureIDs i).ID) ∧
      s.m_objectMaterials.map (fun m => m.tag) = ["cement", "blueTile", "bush", "bark"] ∧
      (∀ tag ∈ textureTags sceneInfo,
        tag ∈ ["DenseBerries", "Hedge", "bark", "brick", "tile", "rocks"]) ∧
      ∀ tag ∈ materialTags sceneInfo, tag ∈ ["cement", "blueTile", "bush", "bark"] :=
  ⟨_, _, rfl, rfl, by decide, rfl, by decide, by decide⟩

/-- C29 (evaluation at the failing input). The constructor leaves `m_loadedTextures`
uninitialised. When the object's memory holds 5 there, `PrepareScene` on the new object (every
file a 3-channel image) registers the six textures at the slots 5..10: the tags that
`RenderScene` passes to `SetShaderTexture` resolve to "DenseBerries" 5, "Hedge" 6, "bark" 7,
"brick" 8, "tile" 9 and "rocks" 10, and `BindGLTextures` has bound the units 0..4 to the
uninitialised IDs of the slots 0..4. When the memory holds 12, the fifth load stores past the
end of the array. -/
theorem C29_scene_textures_after_constructor_counter_5 :
    ∃ (s : SceneManager ℚ) (p : Platform),
      PrepareScene rgbFiles (newObject 5) freshPlatform = Except.ok (s, p) ∧
      "DenseBerries" ∈ textureTags sceneInfo ∧ "rocks" ∈ textureTags sceneInfo ∧
      [FindTextureSlot s "DenseBerries", FindTextureSlot s "Hedge", FindTextureSlot s "bark",
        FindTextureSlot s "brick", FindTextureSlot s "tile", FindTextureSlot s "rocks"] =
        [Except.ok 5, Except.ok 6, Except.ok 7, Except.ok 8, Except.ok 9, Except.ok 10] ∧
      (s.m_textureIDs 0).tag = "" ∧
      p.boundTexture2D 0 = 0 ∧
      p.boundTexture2D 5 = 1 ∧
      PrepareScene rgbFiles (newObject 12) freshPlatform = Except.error Fault.outOfBounds :=
  ⟨_, _, rfl, by decide, by decide, rfl, rfl, rfl, rfl, rfl⟩

end SceneManager

end CS330
